import Mathlib

/-!
Fritzing: connector graph and undo-command framework.

A shallow embedding of `src/connectors/connector.cpp` and `src/commands.cpp`.

* C++ pointers to `Connector` objects are natural numbers; the objects live in a
  `ConnectorHeap` (pointer ↦ object), so that `a->m_toConnectors.contains(b)` compares
  pointers, as the source does.
* `QList<T>` is `List T`; `append` is `++ [x]`, `removeOne` is `List.erase` (both remove the
  first occurrence only), `contains` is `List.contains`.
* Debug logging (`DebugDialog::debug`, `writeUndo` under `QT_NO_DEBUG`) has no effect on
  the modelled state and is left out.
-/

namespace Fritzing

/-! ## Connectors (`src/connectors/connector.cpp`) -/

/-- The electrical type of a connector: `Connector::ConnectorType`. -/
inductive ConnectorType where
  | Male
  | Female
  | Wire
  | Pad
  | Unknown
  deriving DecidableEq, Repr

/-- Modelled from the spec: the enumeration `ViewLayer::ViewID`, which is declared
outside the sources. The spec names the breadboard, schematic and PCB views; the source
names `BreadboardView` and `SchematicView`. -/
inductive ViewID where
  | BreadboardView
  | SchematicView
  | PCBView
  deriving DecidableEq, Repr

/-- A pin record (`SvgIdLayer`), as far as `Connector` reads it: the layer
(`ViewLayer::ViewLayerID`, an enumeration value), the svg id and the terminal id. A null
`QString` is the empty string. -/
structure SvgIdLayer where
  m_svgViewLayerID : Nat
  m_svgId : String
  m_terminalId : String
  deriving DecidableEq, Repr

/-- The part of `ConnectorShared` that `Connector` reads through its getters `id()`,
`sharedName()`, `connectorType()`, `connectorTypeString()`, `description()`,
`replacedby()` and `pins()`. The multi-hash `pins()` from view to pin records is the list
of its entries in iteration order. -/
structure ConnectorShared where
  m_id : String := ""
  m_name : String := ""
  m_type : ConnectorType := ConnectorType.Unknown
  m_typeString : String := ""
  m_description : String := ""
  m_replacedby : String := ""
  m_pins : List (ViewID × SvgIdLayer) := []
  deriving DecidableEq, Repr

/-- `QMultiHash::uniqueKeys()` of `pins()`: every view that has a pin, once. -/
def ConnectorShared.uniqueKeys (cs : ConnectorShared) : List ViewID :=
  (cs.m_pins.map Prod.fst).dedup

/-- `QMultiHash::values(view)` of `pins()`: the pin records of one view. -/
def ConnectorShared.values (cs : ConnectorShared) (view : ViewID) : List SvgIdLayer :=
  (cs.m_pins.filter (fun entry => entry.1 = view)).map Prod.snd

/-- The per-view pin records a connector holds: each view with its pins. -/
def ConnectorShared.pinRecords (cs : ConnectorShared) : List (ViewID × List SvgIdLayer) :=
  cs.uniqueKeys.map (fun view => (view, cs.values view))

/-- Getter `ConnectorShared::connectorType()`. -/
def ConnectorShared.connectorType (cs : ConnectorShared) : ConnectorType := cs.m_type

/-- A `Connector` object: the shared data it points to (`none` for a null
`m_connectorShared`), its adjacency list `m_toConnectors` of connector pointers, the
local name, the bus pointer (`none` for null) and the sub-bus flag. The constructor
leaves the list and the local name empty, the bus null and the flag false. -/
structure Connector where
  m_connectorShared : Option ConnectorShared := none
  m_toConnectors : List Nat := []
  m_connectorLocalName : String := ""
  m_bus : Option Nat := none
  m_isSubBus : Bool := false
  deriving DecidableEq, Repr

/-- `ConnectorShared::sharedName()`. -/
def ConnectorShared.sharedName (cs : ConnectorShared) : String := cs.m_name

/-- `Connector::setConnectorLocalName(const QString & name)`: a name equal to the shared
name clears the local name, any other name is stored. -/
def Connector.setConnectorLocalName (self : Connector) (name : String) : Connector :=
  match self.m_connectorShared with
  | some cs =>
    if name = cs.sharedName then { self with m_connectorLocalName := "" }
    else { self with m_connectorLocalName := name }
  | none => { self with m_connectorLocalName := name }

/-- `Connector::connectorLocalName()`. -/
def Connector.connectorLocalName (self : Connector) : String := self.m_connectorLocalName

/-- `Connector::connectorSharedName()`: empty without shared data, else the local name
when it is not empty, else the shared name. -/
def Connector.connectorSharedName (self : Connector) : String :=
  match self.m_connectorShared with
  | none => ""
  | some cs =>
    if self.m_connectorLocalName ≠ "" then self.m_connectorLocalName
    else cs.sharedName

/-- `Connector::bus()`: the bus pointer, `none` for null. -/
def Connector.bus (self : Connector) : Option Nat := self.m_bus

/-- `Connector::busID()`: empty without bus, else `m_bus->id()`; the id of the bus
object behind a pointer is the parameter `busIdOf`. -/
def Connector.busID (busIdOf : Nat → String) (self : Connector) : String :=
  match self.m_bus with
  | none => ""
  | some b => busIdOf b

/-- `Connector::setBus(Bus * bus)`. -/
def Connector.setBus (self : Connector) (bus : Option Nat) : Connector :=
  { self with m_bus := bus, m_isSubBus := false }

/-- `Connector::setSubBus(Bus * bus)`. -/
def Connector.setSubBus (self : Connector) (bus : Option Nat) : Connector :=
  { self with m_bus := bus, m_isSubBus := true }

/-- `Connector::removeSubBus()`: a sub-bus is deleted and the pointer nulled; a shared
bus is left alone. -/
def Connector.removeSubBus (self : Connector) : Connector :=
  if self.m_isSubBus then { self with m_bus := none, m_isSubBus := false }
  else self

/-- The members of a connector other than its adjacency list. -/
def Connector.frame (self : Connector) : Connector := { self with m_toConnectors := [] }

/-- `Connector::connectorType()`: the shared type, `Unknown` without shared data. -/
def Connector.connectorType (self : Connector) : ConnectorType :=
  match self.m_connectorShared with
  | some cs => cs.connectorType
  | none => ConnectorType.Unknown

/-- `Connector::connectionIsAllowed(Connector* that)`, statement by statement. -/
def Connector.connectionIsAllowed (self that : Connector) : Bool :=
  let thisConnectorType := self.connectorType
  let thatConnectorType := that.connectorType
  if thisConnectorType = ConnectorType.Unknown then false
  else if thatConnectorType = ConnectorType.Unknown then false
  else if thisConnectorType = ConnectorType.Wire then true
  else if thatConnectorType = ConnectorType.Wire then true
  else decide (thisConnectorType ≠ thatConnectorType)

/-! ### Saving a connector -/

/-- A call on the `QXmlStreamWriter`. -/
inductive XmlToken where
  | startElement (name : String)
  | attribute (name : String) (value : String)
  | textElement (name : String) (text : String)
  | endElement
  deriving DecidableEq, Repr

/-- The state of a `QXmlStreamWriter`: the calls made on it so far. -/
abbrev XmlWriter := List XmlToken

/-- `QXmlStreamWriter::writeStartElement`. -/
def XmlWriter.writeStartElement (w : XmlWriter) (name : String) : XmlWriter :=
  w ++ [XmlToken.startElement name]

/-- `QXmlStreamWriter::writeAttribute`. -/
def XmlWriter.writeAttribute (w : XmlWriter) (name value : String) : XmlWriter :=
  w ++ [XmlToken.attribute name value]

/-- `QXmlStreamWriter::writeTextElement`. -/
def XmlWriter.writeTextElement (w : XmlWriter) (name text : String) : XmlWriter :=
  w ++ [XmlToken.textElement name text]

/-- `QXmlStreamWriter::writeEndElement`. -/
def XmlWriter.writeEndElement (w : XmlWriter) : XmlWriter :=
  w ++ [XmlToken.endElement]

/-- The name tables `ViewLayer::viewIDXmlName` and `ViewLayer::viewLayerXmlNameFromID`,
which are not among the sources and are taken as parameters. -/
structure ViewLayerNames where
  viewIDXmlName : ViewID → String
  viewLayerXmlNameFromID : Nat → String

/-- `Connector::writeLayerAttr`. -/
def Connector.writeLayerAttr (names : ViewLayerNames) (writer : XmlWriter)
    (viewLayerID : Nat) : XmlWriter :=
  writer.writeAttribute "layer" (names.viewLayerXmlNameFromID viewLayerID)

/-- `Connector::writeSvgIdAttr`; the view is not used. -/
def Connector.writeSvgIdAttr (writer : XmlWriter) (_view : ViewID) (connId : String) :
    XmlWriter :=
  writer.writeAttribute "svgId" connId

/-- `Connector::writeTerminalIdAttr`: the attribute is written for the breadboard and
schematic views when the terminal id is neither null nor empty. -/
def Connector.writeTerminalIdAttr (writer : XmlWriter) (view : ViewID)
    (terminalId : String) : XmlWriter :=
  if (view = ViewID.BreadboardView ∨ view = ViewID.SchematicView) ∧ terminalId ≠ "" then
    writer.writeAttribute "terminalId" terminalId
  else writer

/-- `Connector::saveAsPart(writer)`: the writer afterwards, `none` when the connector
has no shared data (the source dereferences `connectorShared()` unchecked). -/
def Connector.saveAsPart (names : ViewLayerNames) (self : Connector) (writer : XmlWriter) :
    Option XmlWriter :=
  match self.m_connectorShared with
  | none => none
  | some cs =>
    let w := writer.writeStartElement "connector"
    let w := w.writeAttribute "id" cs.m_id
    let w := w.writeAttribute "type" cs.m_typeString
    let w := w.writeAttribute "name" cs.m_name
    let w := w.writeTextElement "description" cs.m_description
    let w := w.writeTextElement "replacedby" cs.m_replacedby
    let w := w.writeStartElement "views"
    let w := cs.uniqueKeys.foldl (fun w currView =>
      let w := w.writeStartElement (names.viewIDXmlName currView)
      let w := (cs.values currView).foldl (fun w svgIdLayer =>
        let w := w.writeStartElement "p"
        let w := Connector.writeLayerAttr names w svgIdLayer.m_svgViewLayerID
        let w := Connector.writeSvgIdAttr w currView svgIdLayer.m_svgId
        let w := Connector.writeTerminalIdAttr w currView svgIdLayer.m_terminalId
        w.writeEndElement) w
      w.writeEndElement) w
    let w := w.writeEndElement
    some w.writeEndElement

/-- The pin record the spec asks for: an element `p` with the attributes `layer` and
`svgId` and, for the breadboard and schematic views only and when the terminal id is not
empty, `terminalId`. -/
def specPinRecord (names : ViewLayerNames) (view : ViewID) (pin : SvgIdLayer) :
    List XmlToken :=
  [XmlToken.startElement "p",
   XmlToken.attribute "layer" (names.viewLayerXmlNameFromID pin.m_svgViewLayerID),
   XmlToken.attribute "svgId" pin.m_svgId] ++
    (if (view = ViewID.BreadboardView ∨ view = ViewID.SchematicView) ∧
        pin.m_terminalId ≠ "" then
      [XmlToken.attribute "terminalId" pin.m_terminalId]
     else []) ++
    [XmlToken.endElement]

/-- The view element the spec asks for: an element named after the view that lists one
pin record per pin of the view. -/
def specViewElement (names : ViewLayerNames) (entry : ViewID × List SvgIdLayer) :
    List XmlToken :=
  XmlToken.startElement (names.viewIDXmlName entry.1) ::
    entry.2.flatMap (specPinRecord names entry.1) ++ [XmlToken.endElement]

/-- The connector element the spec asks for: attributes `id`, `type` and `name`, the
text elements `description` and `replacedby`, and a `views` child with one element per
view. -/
def specConnectorElement (names : ViewLayerNames) (cs : ConnectorShared) : List XmlToken :=
  [XmlToken.startElement "connector",
   XmlToken.attribute "id" cs.m_id,
   XmlToken.attribute "type" cs.m_typeString,
   XmlToken.attribute "name" cs.m_name,
   XmlToken.textElement "description" cs.m_description,
   XmlToken.textElement "replacedby" cs.m_replacedby,
   XmlToken.startElement "views"] ++
    cs.pinRecords.flatMap (specViewElement names) ++
    [XmlToken.endElement, XmlToken.endElement]

/-- Every pin outside the breadboard and schematic views has an empty terminal id, so
that `writeTerminalIdAttr` drops nothing. -/
def ConnectorShared.terminalIdsWritable (cs : ConnectorShared) : Prop :=
  ∀ entry ∈ cs.m_pins,
    ¬ (entry.1 = ViewID.BreadboardView ∨ entry.1 = ViewID.SchematicView) →
      entry.2.m_terminalId = ""

/-- Name tables for the examples: the xml names of the views, and a layer name made of
as many letters as the layer id says. -/
def exampleNames : ViewLayerNames :=
  { viewIDXmlName := fun view =>
      match view with
      | ViewID.BreadboardView => "breadboardView"
      | ViewID.SchematicView => "schematicView"
      | ViewID.PCBView => "pcbView",
    viewLayerXmlNameFromID := fun layer => String.mk (List.replicate layer 'l') }

/-- Shared data with two schematic pins (terminal ids `T1`, `T2`) and one pcb pin
without terminal id. -/
def threePinShared : ConnectorShared :=
  { m_id := "connector0", m_name := "pin 0", m_type := ConnectorType.Male,
    m_typeString := "male", m_description := "", m_replacedby := "",
    m_pins :=
      [(ViewID.SchematicView, SvgIdLayer.mk 2 "connector0pin" "T1"),
       (ViewID.SchematicView, SvgIdLayer.mk 2 "connector0pinB" "T2"),
       (ViewID.PCBView, SvgIdLayer.mk 3 "connector0pad" "")] }

/-- Shared data with a single pcb pin that has the terminal id `T1`. -/
def pcbTerminalShared : ConnectorShared :=
  { m_id := "connector0", m_name := "pin 0", m_type := ConnectorType.Male,
    m_typeString := "male",
    m_pins := [(ViewID.PCBView, SvgIdLayer.mk 3 "connector0pad" "T1")] }

/-- Shared data with the same pcb pin without terminal id. -/
def pcbPlainShared : ConnectorShared :=
  { pcbTerminalShared with
    m_pins := [(ViewID.PCBView, SvgIdLayer.mk 3 "connector0pad" "")] }

/-- The connector objects of a sketch, addressed by pointer. -/
abbrev ConnectorHeap := Nat → Connector

/-- Assignment `p->m_toConnectors = l` in the heap. -/
def ConnectorHeap.setToConnectors (h : ConnectorHeap) (p : Nat) (l : List Nat) : ConnectorHeap :=
  fun k => if k = p then { h k with m_toConnectors := l } else h k

/-- `Connector::toConnectors()` of the object at `p`. -/
def ConnectorHeap.toConnectors (h : ConnectorHeap) (p : Nat) : List Nat :=
  (h p).m_toConnectors

/-- `Connector::connectTo(Connector* connector)` called on the object at `self`:
each of the two lists gets the other pointer appended unless it already contains it. The
second test reads the heap left by the first statement, as in the source. -/
def Connector.connectTo (h : ConnectorHeap) (self connector : Nat) : ConnectorHeap :=
  let h1 :=
    if (h.toConnectors self).contains connector then h
    else h.setToConnectors self (h.toConnectors self ++ [connector])
  if (h1.toConnectors connector).contains self then h1
  else h1.setToConnectors connector (h1.toConnectors connector ++ [self])

/-- `Connector::disconnectFrom(Connector* connector)` called on the object at `self`:
`removeOne` on this list, then `removeOne` on the other list. -/
def Connector.disconnectFrom (h : ConnectorHeap) (self connector : Nat) : ConnectorHeap :=
  let h1 := h.setToConnectors self ((h.toConnectors self).erase connector)
  h1.setToConnectors connector ((h1.toConnectors connector).erase self)

/-- One call on the connection graph. -/
inductive GraphOp where
  | connectTo (a b : Nat)
  | disconnectFrom (a b : Nat)
  deriving DecidableEq, Repr

/-- Executes one call. -/
def GraphOp.apply (h : ConnectorHeap) : GraphOp → ConnectorHeap
  | GraphOp.connectTo a b => Connector.connectTo h a b
  | GraphOp.disconnectFrom a b => Connector.disconnectFrom h a b

/-- A heap of freshly constructed connectors: any shared data, empty adjacency lists. -/
def freshHeap (shared : Nat → Option ConnectorShared) : ConnectorHeap :=
  fun k => { m_connectorShared := shared k, m_toConnectors := [] }

/-- The heap reached from fresh connectors by a sequence of calls, first call first. -/
def runOps (shared : Nat → Option ConnectorShared) (ops : List GraphOp) : ConnectorHeap :=
  ops.foldl GraphOp.apply (freshHeap shared)

/-- The links are symmetric and no list holds a pointer twice. -/
def GraphInv (h : ConnectorHeap) : Prop :=
  (∀ a b, b ∈ h.toConnectors a ↔ a ∈ h.toConnectors b) ∧ ∀ a, (h.toConnectors a).Nodup

/-! ## Commands (`src/commands.cpp`)

A command does not mutate the sketch itself: `undo()` and `redo()` call the sketch widget
(`m_sketchWidget->...ForCommand(...)`), the progress object and the main window. The
embedding returns these calls, in order, as a list of `Event`s, together with the new
state of the command object where the method assigns to a member. Real-valued Qt data
(`QPointF`, `QLineF`, `QSizeF`) is only stored, copied and passed on by the modelled
methods, with one exception: two sizes are compared with `!=`, which is an operator of
the Qt library and not structural equality (see `Env.sizesDiffer`). The data is
represented with integer coordinates. Object pointers
(`SketchWidget*`, `MainWindow*`, sub-command pointers) are natural numbers.
-/

/-- `BaseCommand::CrossViewType`: the propagation scope of a command. -/
inductive CrossViewType where
  | SingleView
  | CrossView
  deriving DecidableEq, Repr

/-- A point (`QPointF`). -/
structure QPointF where
  xp : Int
  yp : Int
  deriving DecidableEq, Repr

/-- A size (`QSizeF`): width and height. The derived equality is structural; it is not
the operator `!=` the source applies to sizes, which is `Env.sizesDiffer`. -/
structure QSizeF where
  wd : Int
  ht : Int
  deriving DecidableEq, Repr

/-- A comparison of two coordinates with a relative tolerance, after `qFuzzyCompare` of
the Qt library: the coordinates count as equal when their distance, times `10^12`, is at
most the smaller of their absolute values. -/
def fuzzyCoordinatesEqual (p1 p2 : Int) : Bool :=
  decide ((p1 - p2).natAbs * 1000000000000 ≤ min p1.natAbs p2.natAbs)

/-- A tolerant `!=` on sizes built from `fuzzyCoordinatesEqual`: the sizes differ when the
widths or the heights do. It is the comparison used in the examples. -/
def fuzzySizesDiffer (s1 s2 : QSizeF) : Bool :=
  !fuzzyCoordinatesEqual s1.wd s2.wd || !fuzzyCoordinatesEqual s1.ht s2.ht

/-- A line segment (`QLineF`): its two end points. -/
structure QLineF where
  pt1 : QPointF
  pt2 : QPointF
  deriving DecidableEq, Repr

/-- A polygon (`QPolygonF`): its points in order. -/
abbrev QPolygonF := List QPointF

/-- The placement of an item (`ViewGeometry`): location and line end points. -/
structure ViewGeometry where
  m_loc : QPointF
  m_p1 : QPointF
  m_p2 : QPointF
  deriving DecidableEq, Repr

/-- A curve (`Bezier`), as far as the source reads it: the control points `cp0()` and
`cp1()`. Commands keep private copies (or null) and hand them on. -/
structure Bezier where
  m_cp0 : QPointF
  m_cp1 : QPointF
  deriving DecidableEq, Repr

/-- A transformation matrix (`QTransform`), row by row. -/
structure QTransform where
  m11 : Int
  m12 : Int
  m13 : Int
  m21 : Int
  m22 : Int
  m23 : Int
  m31 : Int
  m32 : Int
  m33 : Int
  deriving DecidableEq, Repr

/-- The counters of a `RoutingStatus`. -/
structure RoutingStatus where
  m_netCount : Int
  m_netRoutedCount : Int
  m_connectorsLeftToRoute : Int
  m_jumperItemCount : Int
  deriving DecidableEq, Repr

/-- A call on a `SketchWidget` made by one of the modelled commands; the arguments are
those of the source, in the order of the source. A null `Bezier*` is `none`. The last
argument of `addItemForCommand`, the calling command itself, is not represented; the
command argument of `cleanUpWiresForCommand` is represented by whether it is non-null. -/
inductive SketchCall where
  | moveItemForCommand (id : Int) (geometry : ViewGeometry) (updateRatsnest : Bool)
  | rotateLegForCommand (id : Int) (connectorID : String) (leg : QPolygonF) (active : Bool)
  | changeWireForCommand (fromID : Int) (line : QLineF) (pos : QPointF)
      (updateConnections : Bool) (updateRatsnest : Bool)
  | flipItemForCommand (id : Int) (orientation : Nat)
  | setProp (id : Int) (prop : String) (value : String) (redraw : Bool) (doEmit : Bool)
  | changeConnection (fromID : Int) (fromConnectorID : String) (toID : Int)
      (toConnectorID : String) (viewLayerPlacement : Nat) (connect : Bool) (crossView : Bool)
      (updateConnections : Bool)
  | clearSelection
  | selectItemForCommand (id : Int) (state : Bool) (updateInfoView : Bool) (crossView : Bool)
  | selectAllItems (state : Bool) (crossView : Bool)
  | setNoteTextForCommand (id : Int) (text : String)
  | resizeNoteForCommand (id : Int) (size : QSizeF)
  | addItemForCommand (moduleID : String) (viewLayerPlacement : Nat)
      (crossViewType : CrossViewType) (viewGeometry : ViewGeometry) (id : Int)
      (modelIndex : Int)
  | deleteItemForCommand (id : Int) (placementPreserving : Bool) (crossView : Bool)
      (dropping : Bool)
  | simpleMoveItemForCommand (id : Int) (p : QPointF)
  | moveItem (id : Int) (p : QPointF) (updateRatsnest : Bool)
  | updateWireForCommand (id : Int) (connectorID : String) (updateRatsnest : Bool)
  | rotateItemForCommand (id : Int) (degrees : Int)
  | changeWireCurveForCommand (id : Int) (bezier : Option Bezier) (autoroutable : Bool)
  | changeLegForCommand (id : Int) (connectorID : String) (leg : QPolygonF)
      (relative : Bool) (why : String)
  | recalcLegForCommand (id : Int) (connectorID : String) (leg : QPolygonF)
      (relative : Bool) (active : Bool) (why : String)
  | moveLegBendpointForCommand (id : Int) (connectorID : String) (index : Int)
      (pos : QPointF)
  | changeLegCurveForCommand (id : Int) (connectorID : String) (index : Int)
      (bezier : Option Bezier)
  | addLegBendpointForCommand (id : Int) (connectorID : String) (index : Int)
      (pos : QPointF) (bezierA : Option Bezier) (bezierB : Option Bezier)
  | removeLegBendpointForCommand (id : Int) (connectorID : String) (index : Int)
      (bezier : Option Bezier)
  | ratsnestConnectForCommand (id : Int) (connectorID : String) (connect : Bool)
      (doEmit : Bool)
  | cleanUpWiresForCommand (crossView : Bool) (withCommand : Bool)
  | cleanupRatsnestsForCommand (doEmit : Bool)
  | transformItemForCommand (id : Int) (matrix : QTransform)
  | setResistance (id : Int) (resistance : String) (pinSpacing : String) (doEmit : Bool)
  | changeWireColorForCommand (id : Int) (color : String) (opacity : Int)
  | changeWireWidthForCommand (id : Int) (width : Int)
  | forwardRoutingStatusForCommand (routingStatus : RoutingStatus)
  | incInstanceTitleForCommand (id : Int)
  | setInstanceTitleForCommand (id : Int) (oldText : String) (newText : String)
      (isUndoable : Bool) (doEmit : Bool)
  | movePartLabelForCommand (id : Int) (pos : QPointF) (offset : QPointF)
  | rotateFlipPartLabelForCommand (id : Int) (degrees : Int) (orientation : Nat)
  | showPartLabelForCommand (id : Int) (showIt : Bool)
  | restorePartLabelForCommand (id : Int) (labelGeometry : String)
  | showLabelFirstTimeForCommand (id : Int) (showIt : Bool) (doEmit : Bool)
  deriving DecidableEq, Repr

/-- What a command does to its collaborators: a call on a sketch widget, a signal of the
progress object (`incUndo`, `incRedo`), `triggerSimulator()` on a main window,
`setConnectorLocalName(name)` on a connector, or `changePinLabels(item)` on an info
graphics view. -/
inductive Event where
  | sketch (widget : Nat) (call : SketchCall)
  | incUndo
  | incRedo
  | triggerSimulator (mainWindow : Nat)
  | setConnectorLocalName (connector : Nat) (name : String)
  | changePinLabels (infoGraphicsView : Nat) (itemID : Int)
  deriving DecidableEq, Repr

/-- What a command reads from outside its own members: the process-wide flag
`BaseCommand::m_commandProgress.active()`, and the operator `!=` of `QSizeF`
(`sizesDiffer s1 s2` is `s1 != s2`). The operator belongs to the Qt library and compares
with a tolerance, so it is a parameter of the embedding; nothing is assumed of it. -/
structure Env where
  progressActive : Bool
  sizesDiffer : QSizeF → QSizeF → Bool := fuzzySizesDiffer

/-- The members of `BaseCommand`. `m_text` is the `QUndoCommand` text; `m_commands` holds
the pointers of the owned sub-commands. The three flags start out false. -/
structure BaseCommand where
  m_crossViewType : CrossViewType
  m_sketchWidget : Nat
  m_text : String := ""
  m_undoOnly : Bool := false
  m_redoOnly : Bool := false
  m_skipFirstRedo : Bool := false
  m_commands : List Nat := []
  deriving DecidableEq, Repr

/-- `BaseCommand::crossViewType()`. -/
def BaseCommand.crossViewType (self : BaseCommand) : CrossViewType := self.m_crossViewType

/-- `BaseCommand::setCrossViewType`. -/
def BaseCommand.setCrossViewType (self : BaseCommand) (crossViewType : CrossViewType) :
    BaseCommand :=
  { self with m_crossViewType := crossViewType }

/-- `BaseCommand::setUndoOnly`. -/
def BaseCommand.setUndoOnly (self : BaseCommand) : BaseCommand :=
  { self with m_undoOnly := true }

/-- `BaseCommand::setRedoOnly`. -/
def BaseCommand.setRedoOnly (self : BaseCommand) : BaseCommand :=
  { self with m_redoOnly := true }

/-- `BaseCommand::setSkipFirstRedo`. -/
def BaseCommand.setSkipFirstRedo (self : BaseCommand) : BaseCommand :=
  { self with m_skipFirstRedo := true }

/-- `BaseCommand::addSubCommand`: appends the pointer to `m_commands`. -/
def BaseCommand.addSubCommand (self : BaseCommand) (subCommand : Nat) : BaseCommand :=
  { self with m_commands := self.m_commands ++ [subCommand] }

/-- `BaseCommand::subRedo()`: `Q_FOREACH` over `m_commands`, calling the virtual `redo()`
of each sub-command; `redo p w` is the world after `p->redo()` in world `w`. -/
def BaseCommand.subRedo {σ : Type} (redo : Nat → σ → σ) (self : BaseCommand) (w : σ) : σ :=
  self.m_commands.foldl (fun acc command => redo command acc) w

/-- The loop of `BaseCommand::subUndo()` with `n = i + 1` iterations left: it calls
`m_commands[i]->undo()` and goes on with `i - 1`, down to index 0. -/
def BaseCommand.subUndoLoop {σ : Type} (undo : Nat → σ → σ) (commands : List Nat) :
    Nat → σ → σ
  | 0, w => w
  | i + 1, w =>
    BaseCommand.subUndoLoop undo commands i
      (match commands[i]? with
       | some command => undo command w
       | none => w)

/-- `BaseCommand::subUndo()`: `for (int i = m_commands.count() - 1; i >= 0; i--)`. -/
def BaseCommand.subUndo {σ : Type} (undo : Nat → σ → σ) (self : BaseCommand) (w : σ) : σ :=
  BaseCommand.subUndoLoop undo self.m_commands self.m_commands.length w

/-- `BaseCommand::subCommandCount()`. -/
def BaseCommand.subCommandCount (self : BaseCommand) : Int := self.m_commands.length

/-- `BaseCommand::subCommand(int ix)`: null (`none`) for an index below zero or at or
above the count, else `m_commands.at(ix)`. -/
def BaseCommand.subCommand (self : BaseCommand) (ix : Int) : Option Nat :=
  if ix < 0 then none
  else if ix ≥ self.subCommandCount then none
  else self.m_commands[ix.toNat]?

/-- `BaseCommand::subUndo(int index)`: returns at once for an index out of range, else
calls `m_commands[index]->undo()`. -/
def BaseCommand.subUndoAt {σ : Type} (undo : Nat → σ → σ) (self : BaseCommand)
    (index : Int) (w : σ) : σ :=
  if index < 0 ∨ index ≥ self.subCommandCount then w
  else
    match self.m_commands[index.toNat]? with
    | some command => undo command w
    | none => w

/-- `BaseCommand::subRedo(int index)`: returns at once for an index out of range, else
calls `m_commands[index]->redo()`. -/
def BaseCommand.subRedoAt {σ : Type} (redo : Nat → σ → σ) (self : BaseCommand)
    (index : Int) (w : σ) : σ :=
  if index < 0 ∨ index ≥ self.subCommandCount then w
  else
    match self.m_commands[index.toNat]? with
    | some command => redo command w
    | none => w

/-- `BaseCommand::undo()`: emits `incUndo` when the progress object is active. -/
def BaseCommand.undo (env : Env) (_self : BaseCommand) : List Event :=
  if env.progressActive then [Event.incUndo] else []

/-- `BaseCommand::redo()`: emits `incRedo` when the progress object is active. -/
def BaseCommand.redo (env : Env) (_self : BaseCommand) : List Event :=
  if env.progressActive then [Event.incRedo] else []

/-- The calls on sketch widgets among a list of events, in order, each with the widget
it is made on. -/
def sketchCalls (events : List Event) : List (Nat × SketchCall) :=
  events.filterMap (fun e =>
    match e with
    | Event.sketch w call => some (w, call)
    | _ => none)

/-- The number of `triggerSimulator()` calls among a list of events. -/
def triggerCount (events : List Event) : Nat :=
  events.countP (fun e =>
    match e with
    | Event.triggerSimulator _ => true
    | _ => false)

/-- The progress signals among a list of events, in order. -/
def progressSignals (events : List Event) : List Event :=
  events.filter (fun e =>
    match e with
    | Event.incUndo => true
    | Event.incRedo => true
    | _ => false)

/-- An invocation of a virtual method on a sub-command, as recorded by the tracing
dispatchers below. -/
inductive Invocation where
  | undo (command : Nat)
  | redo (command : Nat)
  deriving DecidableEq, Repr

/-- A dispatcher for `command->redo()` that only records the call. -/
def recordRedo (command : Nat) (log : List Invocation) : List Invocation :=
  log ++ [Invocation.redo command]

/-- A dispatcher for `command->undo()` that only records the call. -/
def recordUndo (command : Nat) (log : List Invocation) : List Invocation :=
  log ++ [Invocation.undo command]

/-- `SimulationCommand`: a `BaseCommand` with the main window found by the constructor
(`none` when the `dynamic_cast` yields null). -/
structure SimulationCommand where
  base : BaseCommand
  m_mainWindow : Option Nat
  deriving DecidableEq, Repr

/-- `SimulationCommand::undo()`. -/
def SimulationCommand.undo (env : Env) (self : SimulationCommand) : List Event :=
  BaseCommand.undo env self.base ++
    (match self.m_mainWindow with
     | some mw => [Event.triggerSimulator mw]
     | none => [])

/-- `SimulationCommand::redo()`. -/
def SimulationCommand.redo (env : Env) (self : SimulationCommand) : List Event :=
  BaseCommand.redo env self.base ++
    (match self.m_mainWindow with
     | some mw => [Event.triggerSimulator mw]
     | none => [])

/-! ### Selection and note-text commands, and merging -/

/-- `SelectItemCommand::SelectItemType`. -/
inductive SelectItemType where
  | NormalSelect
  | NormalDeselect
  | SelectAll
  | DeselectAll
  deriving DecidableEq, Repr

/-- The members of `SelectItemCommand`. The constructor passes `CrossView` to
`BaseCommand`; `setCrossViewType` can change it afterwards. -/
structure SelectItemCommand where
  base : BaseCommand
  m_type : SelectItemType
  m_undoIDs : List Int := []
  m_redoIDs : List Int := []
  m_updated : Bool := false
  deriving DecidableEq, Repr

/-- The members of `ChangeNoteTextCommand`. -/
structure ChangeNoteTextCommand where
  base : BaseCommand
  m_itemID : Int
  m_oldText : String
  m_newText : String
  m_oldSize : QSizeF
  m_newSize : QSizeF
  deriving DecidableEq, Repr

/-- The static `SelectItemCommand::selectItemCommandID`. -/
def SelectItemCommand.selectItemCommandID : Int := 3

/-- The static `ChangeNoteTextCommand::changeNoteTextCommandID`. -/
def ChangeNoteTextCommand.changeNoteTextCommandID : Int := 5

/-- `SelectItemCommand::id()`. -/
def SelectItemCommand.id (_self : SelectItemCommand) : Int :=
  SelectItemCommand.selectItemCommandID

/-- `ChangeNoteTextCommand::id()`. -/
def ChangeNoteTextCommand.id (_self : ChangeNoteTextCommand) : Int :=
  ChangeNoteTextCommand.changeNoteTextCommandID

/-- The argument `const QUndoCommand *other` of `mergeWith`: a selection command, a
note-text command, or a command of any other class with the value of its `id()`. The
match on the constructor is the `dynamic_cast`. `other` is an object different from the
receiver. -/
inductive UndoCommand where
  | selectItem (c : SelectItemCommand)
  | changeNoteText (c : ChangeNoteTextCommand)
  | otherClass (id : Int)
  deriving DecidableEq, Repr

/-- The virtual `QUndoCommand::id()`. -/
def UndoCommand.id : UndoCommand → Int
  | UndoCommand.selectItem c => c.id
  | UndoCommand.changeNoteText c => c.id
  | UndoCommand.otherClass id => id

/-- The loop `for (long id : from) to.append(id)` after `to.clear()`. -/
def copyIDs (src : List Int) : List Int :=
  src.foldl (fun acc id => acc ++ [id]) []

/-- `SelectItemCommand::mergeWith(other)`: the returned flag and the receiver afterwards. -/
def SelectItemCommand.mergeWith (self : SelectItemCommand) (other : UndoCommand) :
    Bool × SelectItemCommand :=
  if other.id ≠ self.id then (false, self)
  else
    match other with
    | UndoCommand.selectItem sother =>
      if sother.base.crossViewType ≠ self.base.crossViewType then (false, self)
      else
        (true,
          { self with
            m_redoIDs := copyIDs sother.m_redoIDs
            base := { self.base with m_text := sother.base.m_text } })
    | _ => (false, self)

/-- `SelectItemCommand::selectAllFromStack(stack, select, updateInfoView)`. -/
def SelectItemCommand.selectAllFromStack (self : SelectItemCommand) (stack : List Int)
    (select updateInfoView : Bool) : List Event :=
  Event.sketch self.base.m_sketchWidget SketchCall.clearSelection ::
    stack.map (fun i =>
      Event.sketch self.base.m_sketchWidget
        (SketchCall.selectItemForCommand i select updateInfoView
          (decide (self.base.m_crossViewType = CrossViewType.CrossView))))

/-- `SelectItemCommand::undo()`. -/
def SelectItemCommand.undo (env : Env) (self : SelectItemCommand) : List Event :=
  self.selectAllFromStack self.m_undoIDs true true ++ BaseCommand.undo env self.base

/-- `SelectItemCommand::redo()`. -/
def SelectItemCommand.redo (env : Env) (self : SelectItemCommand) : List Event :=
  (match self.m_type with
   | SelectItemType.NormalSelect => self.selectAllFromStack self.m_redoIDs true true
   | SelectItemType.NormalDeselect => self.selectAllFromStack self.m_redoIDs false false
   | SelectItemType.SelectAll =>
     [Event.sketch self.base.m_sketchWidget
       (SketchCall.selectAllItems true
         (decide (self.base.m_crossViewType = CrossViewType.CrossView)))]
   | SelectItemType.DeselectAll =>
     [Event.sketch self.base.m_sketchWidget
       (SketchCall.selectAllItems false
         (decide (self.base.m_crossViewType = CrossViewType.CrossView)))])
    ++ BaseCommand.redo env self.base

/-- `ChangeNoteTextCommand::undo()`. -/
def ChangeNoteTextCommand.undo (env : Env) (self : ChangeNoteTextCommand) : List Event :=
  [Event.sketch self.base.m_sketchWidget
      (SketchCall.setNoteTextForCommand self.m_itemID self.m_oldText)] ++
    (if env.sizesDiffer self.m_oldSize self.m_newSize then
      [Event.sketch self.base.m_sketchWidget
        (SketchCall.resizeNoteForCommand self.m_itemID self.m_oldSize)]
     else []) ++
    BaseCommand.undo env self.base

/-- `ChangeNoteTextCommand::redo()`: the receiver afterwards and the calls made. With
`m_skipFirstRedo` set it clears the flag and returns at once. -/
def ChangeNoteTextCommand.redo (env : Env) (self : ChangeNoteTextCommand) :
    ChangeNoteTextCommand × List Event :=
  if self.base.m_skipFirstRedo then
    ({ self with base := { self.base with m_skipFirstRedo := false } }, [])
  else
    (self,
      [Event.sketch self.base.m_sketchWidget
          (SketchCall.setNoteTextForCommand self.m_itemID self.m_newText)] ++
        (if env.sizesDiffer self.m_oldSize self.m_newSize then
          [Event.sketch self.base.m_sketchWidget
            (SketchCall.resizeNoteForCommand self.m_itemID self.m_newSize)]
         else []) ++
        BaseCommand.redo env self.base)

/-- `ChangeNoteTextCommand::mergeWith(other)`: the returned flag and the receiver
afterwards. -/
def ChangeNoteTextCommand.mergeWith (self : ChangeNoteTextCommand) (other : UndoCommand) :
    Bool × ChangeNoteTextCommand :=
  if other.id ≠ self.id then (false, self)
  else
    match other with
    | UndoCommand.changeNoteText sother =>
      if sother.m_itemID ≠ self.m_itemID then (false, self)
      else (true, { self with m_newSize := sother.m_newSize, m_newText := sother.m_newText })
    | _ => (false, self)

/-! ### Item commands -/

/-- The members of `MoveItemCommand` (a `SimulationCommand`, `SingleView`). -/
structure MoveItemCommand where
  sim : SimulationCommand
  m_updateRatsnest : Bool
  m_itemID : Int
  m_old : ViewGeometry
  m_new : ViewGeometry
  deriving DecidableEq, Repr

/-- `MoveItemCommand::undo()`. -/
def MoveItemCommand.undo (env : Env) (self : MoveItemCommand) : List Event :=
  Event.sketch self.sim.base.m_sketchWidget
      (SketchCall.moveItemForCommand self.m_itemID self.m_old self.m_updateRatsnest) ::
    SimulationCommand.undo env self.sim

/-- `MoveItemCommand::redo()`. -/
def MoveItemCommand.redo (env : Env) (self : MoveItemCommand) : List Event :=
  Event.sketch self.sim.base.m_sketchWidget
      (SketchCall.moveItemForCommand self.m_itemID self.m_new self.m_updateRatsnest) ::
    SimulationCommand.redo env self.sim

/-- The members of `FlipItemCommand` (a `BaseCommand`, `SingleView`); the orientation
is the value of the `Qt::Orientations` flags. -/
structure FlipItemCommand where
  base : BaseCommand
  m_itemID : Int
  m_orientation : Nat
  deriving DecidableEq, Repr

/-- `FlipItemCommand::redo()`. -/
def FlipItemCommand.redo (env : Env) (self : FlipItemCommand) : List Event :=
  Event.sketch self.base.m_sketchWidget
      (SketchCall.flipItemForCommand self.m_itemID self.m_orientation) ::
    BaseCommand.redo env self.base

/-- `FlipItemCommand::undo()`: calls `redo()`, then `BaseCommand::undo()`. -/
def FlipItemCommand.undo (env : Env) (self : FlipItemCommand) : List Event :=
  self.redo env ++ BaseCommand.undo env self.base

/-- The members of `ChangeConnectionCommand`; the constructor sets `m_enabled` and
`m_updateConnections` to true. -/
structure ChangeConnectionCommand where
  sim : SimulationCommand
  m_fromID : Int
  m_fromConnectorID : String
  m_toID : Int
  m_toConnectorID : String
  m_viewLayerPlacement : Nat
  m_connect : Bool
  m_enabled : Bool := true
  m_updateConnections : Bool := true
  deriving DecidableEq, Repr

/-- `ChangeConnectionCommand::undo()`. -/
def ChangeConnectionCommand.undo (env : Env) (self : ChangeConnectionCommand) : List Event :=
  if self.m_enabled then
    Event.sketch self.sim.base.m_sketchWidget
        (SketchCall.changeConnection self.m_fromID self.m_fromConnectorID self.m_toID
          self.m_toConnectorID self.m_viewLayerPlacement (!self.m_connect)
          (decide (self.sim.base.m_crossViewType = CrossViewType.CrossView))
          self.m_updateConnections) ::
      SimulationCommand.undo env self.sim
  else []

/-- `ChangeConnectionCommand::redo()`. -/
def ChangeConnectionCommand.redo (env : Env) (self : ChangeConnectionCommand) : List Event :=
  if self.m_enabled then
    Event.sketch self.sim.base.m_sketchWidget
        (SketchCall.changeConnection self.m_fromID self.m_fromConnectorID self.m_toID
          self.m_toConnectorID self.m_viewLayerPlacement self.m_connect
          (decide (self.sim.base.m_crossViewType = CrossViewType.CrossView))
          self.m_updateConnections) ::
      SimulationCommand.redo env self.sim
  else []

/-- `ChangeConnectionCommand::disable()`. -/
def ChangeConnectionCommand.disable (self : ChangeConnectionCommand) :
    ChangeConnectionCommand :=
  { self with m_enabled := false }

/-- The members of `ChangeWireCommand` (a `SimulationCommand`, `SingleView`). -/
structure ChangeWireCommand where
  sim : SimulationCommand
  m_updateRatsnest : Bool
  m_fromID : Int
  m_oldLine : QLineF
  m_newLine : QLineF
  m_oldPos : QPointF
  m_newPos : QPointF
  m_updateConnections : Bool
  deriving DecidableEq, Repr

/-- `ChangeWireCommand::undo()`: the surface call is skipped when `m_redoOnly` is set. -/
def ChangeWireCommand.undo (env : Env) (self : ChangeWireCommand) : List Event :=
  (if !self.sim.base.m_redoOnly then
    [Event.sketch self.sim.base.m_sketchWidget
      (SketchCall.changeWireForCommand self.m_fromID self.m_oldLine self.m_oldPos
        self.m_updateConnections self.m_updateRatsnest)]
   else []) ++
    SimulationCommand.undo env self.sim

/-- `ChangeWireCommand::redo()`: the surface call is skipped when `m_undoOnly` is set. -/
def ChangeWireCommand.redo (env : Env) (self : ChangeWireCommand) : List Event :=
  (if !self.sim.base.m_undoOnly then
    [Event.sketch self.sim.base.m_sketchWidget
      (SketchCall.changeWireForCommand self.m_fromID self.m_newLine self.m_newPos
        self.m_updateConnections self.m_updateRatsnest)]
   else []) ++
    SimulationCommand.redo env self.sim

/-- The members of `RotateLegCommand` (a `SimulationCommand`, `SingleView`). -/
structure RotateLegCommand where
  sim : SimulationCommand
  m_fromID : Int
  m_fromConnectorID : String
  m_oldLeg : QPolygonF
  m_active : Bool
  deriving DecidableEq, Repr

/-- `RotateLegCommand::undo()`: only `SimulationCommand::undo()`. -/
def RotateLegCommand.undo (env : Env) (self : RotateLegCommand) : List Event :=
  SimulationCommand.undo env self.sim

/-- `RotateLegCommand::redo()`. -/
def RotateLegCommand.redo (env : Env) (self : RotateLegCommand) : List Event :=
  Event.sketch self.sim.base.m_sketchWidget
      (SketchCall.rotateLegForCommand self.m_fromID self.m_fromConnectorID self.m_oldLeg
        self.m_active) ::
    SimulationCommand.redo env self.sim

/-- The members of `SetPropCommand` (a `SimulationCommand`, `CrossView`). -/
structure SetPropCommand where
  sim : SimulationCommand
  m_redraw : Bool
  m_prop : String
  m_oldValue : String
  m_newValue : String
  m_itemID : Int
  deriving DecidableEq, Repr

/-- `SetPropCommand::undo()`. -/
def SetPropCommand.undo (env : Env) (self : SetPropCommand) : List Event :=
  Event.sketch self.sim.base.m_sketchWidget
      (SketchCall.setProp self.m_itemID self.m_prop self.m_oldValue self.m_redraw true) ::
    SimulationCommand.undo env self.sim

/-- `SetPropCommand::redo()`. -/
def SetPropCommand.redo (env : Env) (self : SetPropCommand) : List Event :=
  Event.sketch self.sim.base.m_sketchWidget
      (SketchCall.setProp self.m_itemID self.m_prop self.m_newValue self.m_redraw true) ::
    SimulationCommand.redo env self.sim

/-! ### Adding and deleting items -/

/-- What `addItemForCommand` hands back, as far as `DeleteItemCommand::undo` looks at it:
the properties of the model part (`none` for a null `modelPart()`), the connector found
for a shared id by `findConnectorItemWithSharedID` (a pointer to its `Connector`), and the
info graphics view of the item (`none` when `getInfoGraphicsView` yields null). -/
structure ItemBase where
  m_id : Int
  m_modelPartProperties : Option (List (String × String))
  m_connectors : List (String × Nat)
  m_infoGraphicsView : Option Nat
  deriving DecidableEq, Repr

/-- The members of `AddDeleteItemCommand` (a `SimulationCommand`). `m_localConnectors`
is the hash from shared connector id to local name (`none` for a null pointer); its keys
are distinct. -/
structure AddDeleteItemCommand where
  sim : SimulationCommand
  m_moduleID : String
  m_itemID : Int
  m_viewGeometry : ViewGeometry
  m_modelIndex : Int
  m_viewLayerPlacement : Nat
  m_dropOrigin : Option Nat := none
  m_localConnectors : Option (List (String × String)) := none
  deriving DecidableEq, Repr

/-- The members of `AddItemCommand`; the constructor passes a null `localConnectors`. -/
structure AddItemCommand where
  ad : AddDeleteItemCommand
  m_updateInfoView : Bool
  m_module : Bool := false
  deriving DecidableEq, Repr

/-- `setSkipFirstRedo()` called on an `AddItemCommand`. -/
def AddItemCommand.setSkipFirstRedo (self : AddItemCommand) : AddItemCommand :=
  { self with ad := { self.ad with sim := { self.ad.sim with
      base := self.ad.sim.base.setSkipFirstRedo } } }

/-- The flag `m_skipFirstRedo` of an `AddItemCommand`. -/
def AddItemCommand.skipFirstRedo (self : AddItemCommand) : Bool :=
  self.ad.sim.base.m_skipFirstRedo

/-- The call `addItemForCommand(m_moduleID, m_viewLayerPlacement, m_crossViewType,
m_viewGeometry, m_itemID, m_modelIndex, this)` of an add/delete command. -/
def AddDeleteItemCommand.addItemCall (self : AddDeleteItemCommand) : Event :=
  Event.sketch self.sim.base.m_sketchWidget
    (SketchCall.addItemForCommand self.m_moduleID self.m_viewLayerPlacement
      self.sim.base.m_crossViewType self.m_viewGeometry self.m_itemID self.m_modelIndex)

/-- `AddItemCommand::undo()`. -/
def AddItemCommand.undo (env : Env) (self : AddItemCommand) : List Event :=
  Event.sketch self.ad.sim.base.m_sketchWidget
      (SketchCall.deleteItemForCommand self.ad.m_itemID true true false) ::
    SimulationCommand.undo env self.ad.sim

/-- `AddItemCommand::redo()`: the receiver afterwards and the calls made. -/
def AddItemCommand.redo (env : Env) (self : AddItemCommand) : AddItemCommand × List Event :=
  ({ self with ad := { self.ad with sim := { self.ad.sim with
      base := { self.ad.sim.base with m_skipFirstRedo := false } } } },
    (if !self.ad.sim.base.m_skipFirstRedo then [self.ad.addItemCall] else []) ++
      SimulationCommand.redo env self.ad.sim)

/-- The calls made by `n` consecutive calls of `AddItemCommand::redo()`, one list per
call, first call first. -/
def AddItemCommand.redoCalls (env : Env) : Nat → AddItemCommand → List (List Event)
  | 0, _ => []
  | n + 1, c => (c.redo env).2 :: AddItemCommand.redoCalls env n (c.redo env).1

/-- The members of `DeleteItemCommand`. -/
structure DeleteItemCommand where
  ad : AddDeleteItemCommand
  deriving DecidableEq, Repr

/-- The loop of `DeleteItemCommand::undo()` over the keys of `m_localConnectors`: for a
key with a connector item, `setConnectorLocalName(m_localConnectors->value(id))` on its
connector. -/
def DeleteItemCommand.restoreLocalNames (localConnectors : List (String × String))
    (itemBase : ItemBase) : List Event :=
  (localConnectors.map Prod.fst).filterMap (fun id =>
    match itemBase.m_connectors.lookup id with
    | some connector =>
      some (Event.setConnectorLocalName connector ((localConnectors.lookup id).getD ""))
    | none => none)

/-- `DeleteItemCommand::undo()`; `itemBase` is what `addItemForCommand` returns (`none`
for null). -/
def DeleteItemCommand.undo (env : Env) (itemBase : Option ItemBase)
    (self : DeleteItemCommand) : List Event :=
  [self.ad.addItemCall] ++
    SimulationCommand.undo env self.ad.sim ++
    (match self.ad.m_localConnectors, itemBase with
     | some localConnectors, some item =>
       (match item.m_modelPartProperties with
        | some properties =>
          if (properties.lookup "editable pin labels").getD "" = "true" then
            DeleteItemCommand.restoreLocalNames localConnectors item ++
              (match item.m_infoGraphicsView with
               | some view => [Event.changePinLabels view item.m_id]
               | none => [])
          else []
        | none => [])
     | _, _ => []) ++
    BaseCommand.undo env self.ad.sim.base

/-- `DeleteItemCommand::redo()`. -/
def DeleteItemCommand.redo (env : Env) (self : DeleteItemCommand) : List Event :=
  Event.sketch self.ad.sim.base.m_sketchWidget
      (SketchCall.deleteItemForCommand self.ad.m_itemID true
        (decide (self.ad.sim.base.m_crossViewType = CrossViewType.CrossView)) false) ::
    SimulationCommand.redo env self.ad.sim

/-- What an event does to the connector objects: `setConnectorLocalName(name)` is
executed on the connector it is addressed to; the other events do not touch a
connector member. -/
def ConnectorHeap.applyEvent (h : ConnectorHeap) : Event → ConnectorHeap
  | Event.setConnectorLocalName connector name =>
    Function.update h connector ((h connector).setConnectorLocalName name)
  | _ => h

/-- The connector objects after a list of events, in order. -/
def ConnectorHeap.applyEvents (h : ConnectorHeap) (events : List Event) : ConnectorHeap :=
  events.foldl ConnectorHeap.applyEvent h

/-! ### Moving, rotating and transforming items -/

/-- The members of `SimpleMoveItemCommand`. -/
structure SimpleMoveItemCommand where
  sim : SimulationCommand
  m_itemID : Int
  m_old : QPointF
  m_new : QPointF
  deriving DecidableEq, Repr

/-- `SimpleMoveItemCommand::undo()`. -/
def SimpleMoveItemCommand.undo (env : Env) (self : SimpleMoveItemCommand) : List Event :=
  Event.sketch self.sim.base.m_sketchWidget
      (SketchCall.simpleMoveItemForCommand self.m_itemID self.m_old) ::
    SimulationCommand.undo env self.sim

/-- `SimpleMoveItemCommand::redo()`. -/
def SimpleMoveItemCommand.redo (env : Env) (self : SimpleMoveItemCommand) : List Event :=
  Event.sketch self.sim.base.m_sketchWidget
      (SketchCall.simpleMoveItemForCommand self.m_itemID self.m_new) ::
    SimulationCommand.redo env self.sim

/-- An entry of `MoveItemsCommand::m_items`. -/
structure MoveItemThing where
  id : Int
  oldPos : QPointF
  newPos : QPointF
  deriving DecidableEq, Repr

/-- The members of `MoveItemsCommand`; `m_wires` is the hash from wire id to connector
id, with distinct keys. -/
structure MoveItemsCommand where
  sim : SimulationCommand
  m_updateRatsnest : Bool
  m_items : List MoveItemThing := []
  m_wires : List (Int × String) := []
  deriving DecidableEq, Repr

/-- The second loop of `MoveItemsCommand::undo()` and `redo()`, over `m_wires.keys()`. -/
def MoveItemsCommand.wireCalls (self : MoveItemsCommand) : List Event :=
  (self.m_wires.map Prod.fst).map (fun id =>
    Event.sketch self.sim.base.m_sketchWidget
      (SketchCall.updateWireForCommand id ((self.m_wires.lookup id).getD "")
        self.m_updateRatsnest))

/-- `MoveItemsCommand::undo()`. -/
def MoveItemsCommand.undo (env : Env) (self : MoveItemsCommand) : List Event :=
  self.m_items.map (fun t =>
      Event.sketch self.sim.base.m_sketchWidget
        (SketchCall.moveItem t.id t.oldPos self.m_updateRatsnest)) ++
    self.wireCalls ++
    SimulationCommand.undo env self.sim

/-- `MoveItemsCommand::redo()`. -/
def MoveItemsCommand.redo (env : Env) (self : MoveItemsCommand) : List Event :=
  self.m_items.map (fun t =>
      Event.sketch self.sim.base.m_sketchWidget
        (SketchCall.moveItem t.id t.newPos self.m_updateRatsnest)) ++
    self.wireCalls ++
    SimulationCommand.redo env self.sim

/-- The members of `RotateItemCommand`; the angle is kept as an integer number of
degrees. -/
structure RotateItemCommand where
  sim : SimulationCommand
  m_itemID : Int
  m_degrees : Int
  deriving DecidableEq, Repr

/-- `RotateItemCommand::undo()`. -/
def RotateItemCommand.undo (env : Env) (self : RotateItemCommand) : List Event :=
  Event.sketch self.sim.base.m_sketchWidget
      (SketchCall.rotateItemForCommand self.m_itemID (-self.m_degrees)) ::
    SimulationCommand.undo env self.sim

/-- `RotateItemCommand::redo()`. -/
def RotateItemCommand.redo (env : Env) (self : RotateItemCommand) : List Event :=
  Event.sketch self.sim.base.m_sketchWidget
      (SketchCall.rotateItemForCommand self.m_itemID self.m_degrees) ::
    SimulationCommand.redo env self.sim

/-- The members of `TransformItemCommand`. -/
structure TransformItemCommand where
  sim : SimulationCommand
  m_itemID : Int
  m_oldMatrix : QTransform
  m_newMatrix : QTransform
  deriving DecidableEq, Repr

/-- `TransformItemCommand::undo()`. -/
def TransformItemCommand.undo (env : Env) (self : TransformItemCommand) : List Event :=
  Event.sketch self.sim.base.m_sketchWidget
      (SketchCall.transformItemForCommand self.m_itemID self.m_oldMatrix) ::
    SimulationCommand.undo env self.sim

/-- `TransformItemCommand::redo()`. -/
def TransformItemCommand.redo (env : Env) (self : TransformItemCommand) : List Event :=
  Event.sketch self.sim.base.m_sketchWidget
      (SketchCall.transformItemForCommand self.m_itemID self.m_newMatrix) ::
    SimulationCommand.redo env self.sim

/-- The members of `SetResistanceCommand`. -/
structure SetResistanceCommand where
  sim : SimulationCommand
  m_oldResistance : String
  m_newResistance : String
  m_oldPinSpacing : String
  m_newPinSpacing : String
  m_itemID : Int
  deriving DecidableEq, Repr

/-- `SetResistanceCommand::undo()`. -/
def SetResistanceCommand.undo (env : Env) (self : SetResistanceCommand) : List Event :=
  Event.sketch self.sim.base.m_sketchWidget
      (SketchCall.setResistance self.m_itemID self.m_oldResistance self.m_oldPinSpacing
        true) ::
    SimulationCommand.undo env self.sim

/-- `SetResistanceCommand::redo()`. -/
def SetResistanceCommand.redo (env : Env) (self : SetResistanceCommand) : List Event :=
  Event.sketch self.sim.base.m_sketchWidget
      (SketchCall.setResistance self.m_itemID self.m_newResistance self.m_newPinSpacing
        true) ::
    SimulationCommand.redo env self.sim

/-! ### Wire and leg geometry -/

/-- The members of `ChangeWireCurveCommand`; the curves are private copies or null. -/
structure ChangeWireCurveCommand where
  sim : SimulationCommand
  m_fromID : Int
  m_oldBezier : Option Bezier
  m_newBezier : Option Bezier
  m_wasAutoroutable : Bool
  deriving DecidableEq, Repr

/-- `ChangeWireCurveCommand::undo()`. -/
def ChangeWireCurveCommand.undo (env : Env) (self : ChangeWireCurveCommand) : List Event :=
  (if !self.sim.base.m_redoOnly then
    [Event.sketch self.sim.base.m_sketchWidget
      (SketchCall.changeWireCurveForCommand self.m_fromID self.m_oldBezier
        self.m_wasAutoroutable)]
   else []) ++
    SimulationCommand.undo env self.sim

/-- `ChangeWireCurveCommand::redo()`: the receiver afterwards and the calls made. The
skip flag is looked at, and cleared, only when `m_undoOnly` is not set. -/
def ChangeWireCurveCommand.redo (env : Env) (self : ChangeWireCurveCommand) :
    ChangeWireCurveCommand × List Event :=
  if !self.sim.base.m_undoOnly then
    if self.sim.base.m_skipFirstRedo then
      ({ self with sim := { self.sim with
          base := { self.sim.base with m_skipFirstRedo := false } } },
        SimulationCommand.redo env self.sim)
    else
      (self,
        Event.sketch self.sim.base.m_sketchWidget
            (SketchCall.changeWireCurveForCommand self.m_fromID self.m_newBezier false) ::
          SimulationCommand.redo env self.sim)
  else (self, SimulationCommand.redo env self.sim)

/-- The members of `ChangeLegCommand`; the constructor sets `m_simple` to false. -/
structure ChangeLegCommand where
  sim : SimulationCommand
  m_fromConnectorID : String
  m_fromID : Int
  m_newLeg : QPolygonF
  m_oldLeg : QPolygonF
  m_relative : Bool
  m_active : Bool
  m_why : String
  m_simple : Bool := false
  deriving DecidableEq, Repr

/-- `ChangeLegCommand::setSimple()`. -/
def ChangeLegCommand.setSimple (self : ChangeLegCommand) : ChangeLegCommand :=
  { self with m_simple := true }

/-- `ChangeLegCommand::undo()`. -/
def ChangeLegCommand.undo (env : Env) (self : ChangeLegCommand) : List Event :=
  (if !self.sim.base.m_redoOnly then
    [Event.sketch self.sim.base.m_sketchWidget
      (SketchCall.changeLegForCommand self.m_fromID self.m_fromConnectorID self.m_oldLeg
        self.m_relative self.m_why)]
   else []) ++
    SimulationCommand.undo env self.sim

/-- `ChangeLegCommand::redo()`. -/
def ChangeLegCommand.redo (env : Env) (self : ChangeLegCommand) : List Event :=
  (if !self.sim.base.m_undoOnly then
    (if self.m_simple then
      [Event.sketch self.sim.base.m_sketchWidget
        (SketchCall.changeLegForCommand self.m_fromID self.m_fromConnectorID self.m_newLeg
          self.m_relative self.m_why)]
     else
      [Event.sketch self.sim.base.m_sketchWidget
        (SketchCall.recalcLegForCommand self.m_fromID self.m_fromConnectorID self.m_newLeg
          self.m_relative self.m_active self.m_why)])
   else []) ++
    SimulationCommand.redo env self.sim

/-- The members of `MoveLegBendpointCommand`. -/
structure MoveLegBendpointCommand where
  sim : SimulationCommand
  m_fromID : Int
  m_fromConnectorID : String
  m_index : Int
  m_oldPos : QPointF
  m_newPos : QPointF
  deriving DecidableEq, Repr

/-- `MoveLegBendpointCommand::undo()`. -/
def MoveLegBendpointCommand.undo (env : Env) (self : MoveLegBendpointCommand) :
    List Event :=
  (if !self.sim.base.m_redoOnly then
    [Event.sketch self.sim.base.m_sketchWidget
      (SketchCall.moveLegBendpointForCommand self.m_fromID self.m_fromConnectorID
        self.m_index self.m_oldPos)]
   else []) ++
    SimulationCommand.undo env self.sim

/-- `MoveLegBendpointCommand::redo()`. -/
def MoveLegBendpointCommand.redo (env : Env) (self : MoveLegBendpointCommand) :
    List Event :=
  (if !self.sim.base.m_undoOnly then
    [Event.sketch self.sim.base.m_sketchWidget
      (SketchCall.moveLegBendpointForCommand self.m_fromID self.m_fromConnectorID
        self.m_index self.m_newPos)]
   else []) ++
    SimulationCommand.redo env self.sim

/-- The members of `ChangeLegCurveCommand`. -/
structure ChangeLegCurveCommand where
  sim : SimulationCommand
  m_fromID : Int
  m_fromConnectorID : String
  m_index : Int
  m_oldBezier : Option Bezier
  m_newBezier : Option Bezier
  deriving DecidableEq, Repr

/-- `ChangeLegCurveCommand::undo()`: the call is made whatever `m_redoOnly` is. -/
def ChangeLegCurveCommand.undo (env : Env) (self : ChangeLegCurveCommand) : List Event :=
  Event.sketch self.sim.base.m_sketchWidget
      (SketchCall.changeLegCurveForCommand self.m_fromID self.m_fromConnectorID
        self.m_index self.m_oldBezier) ::
    SimulationCommand.undo env self.sim

/-- `ChangeLegCurveCommand::redo()`: the receiver afterwards and the calls made. -/
def ChangeLegCurveCommand.redo (env : Env) (self : ChangeLegCurveCommand) :
    ChangeLegCurveCommand × List Event :=
  if self.sim.base.m_skipFirstRedo then
    ({ self with sim := { self.sim with
        base := { self.sim.base with m_skipFirstRedo := false } } },
      SimulationCommand.redo env self.sim)
  else if !self.sim.base.m_undoOnly then
    (self,
      Event.sketch self.sim.base.m_sketchWidget
          (SketchCall.changeLegCurveForCommand self.m_fromID self.m_fromConnectorID
            self.m_index self.m_newBezier) ::
        SimulationCommand.redo env self.sim)
  else (self, SimulationCommand.redo env self.sim)

/-- The members of `ChangeLegBendpointCommand` (a `BaseCommand`, `SingleView`). -/
structure ChangeLegBendpointCommand where
  base : BaseCommand
  m_fromID : Int
  m_fromConnectorID : String
  m_oldCount : Int
  m_newCount : Int
  m_index : Int
  m_pos : QPointF
  m_bezier0 : Option Bezier
  m_bezier1 : Option Bezier
  m_bezier2 : Option Bezier
  deriving DecidableEq, Repr

/-- `ChangeLegBendpointCommand::undo()`. -/
def ChangeLegBendpointCommand.undo (env : Env) (self : ChangeLegBendpointCommand) :
    List Event :=
  (if self.m_newCount < self.m_oldCount then
    Event.sketch self.base.m_sketchWidget
      (SketchCall.addLegBendpointForCommand self.m_fromID self.m_fromConnectorID
        self.m_index self.m_pos self.m_bezier0 self.m_bezier1)
   else
    Event.sketch self.base.m_sketchWidget
      (SketchCall.removeLegBendpointForCommand self.m_fromID self.m_fromConnectorID
        self.m_index self.m_bezier0)) ::
    BaseCommand.undo env self.base

/-- `ChangeLegBendpointCommand::redo()`: the receiver afterwards and the calls made. -/
def ChangeLegBendpointCommand.redo (env : Env) (self : ChangeLegBendpointCommand) :
    ChangeLegBendpointCommand × List Event :=
  if self.base.m_skipFirstRedo then
    ({ self with base := { self.base with m_skipFirstRedo := false } },
      BaseCommand.redo env self.base)
  else
    (self,
      (if self.m_newCount > self.m_oldCount then
        Event.sketch self.base.m_sketchWidget
          (SketchCall.addLegBendpointForCommand self.m_fromID self.m_fromConnectorID
            self.m_index self.m_pos self.m_bezier1 self.m_bezier2)
       else
        Event.sketch self.base.m_sketchWidget
          (SketchCall.removeLegBendpointForCommand self.m_fromID self.m_fromConnectorID
            self.m_index self.m_bezier2)) ::
        BaseCommand.redo env self.base)

/-! ### Incrementing a label -/

/-- The members of `IncLabelTextCommand` (a `BaseCommand`, `CrossView`). -/
structure IncLabelTextCommand where
  base : BaseCommand
  m_itemID : Int
  deriving DecidableEq, Repr

/-- `setSkipFirstRedo()` called on an `IncLabelTextCommand`. -/
def IncLabelTextCommand.setSkipFirstRedo (self : IncLabelTextCommand) :
    IncLabelTextCommand :=
  { self with base := self.base.setSkipFirstRedo }

/-- `IncLabelTextCommand::undo()`: only the base call. -/
def IncLabelTextCommand.undo (env : Env) (self : IncLabelTextCommand) : List Event :=
  BaseCommand.undo env self.base

/-- `IncLabelTextCommand::redo()`: the receiver afterwards and the calls made. No member
is assigned, so the receiver is handed back as it was. -/
def IncLabelTextCommand.redo (env : Env) (self : IncLabelTextCommand) :
    IncLabelTextCommand × List Event :=
  (self,
    (if !self.base.m_skipFirstRedo then
      [Event.sketch self.base.m_sketchWidget
        (SketchCall.incInstanceTitleForCommand self.m_itemID)]
     else []) ++
      BaseCommand.redo env self.base)

/-- The calls made by `n` consecutive calls of `IncLabelTextCommand::redo()`, one list per
call, first call first. -/
def IncLabelTextCommand.redoCalls (env : Env) : Nat → IncLabelTextCommand → List (List Event)
  | 0, _ => []
  | n + 1, c => (c.redo env).2 :: IncLabelTextCommand.redoCalls env n (c.redo env).1

/-! ### Part labels -/

/-- The members of `ChangeLabelTextCommand` (a `BaseCommand`, `CrossView`). -/
structure ChangeLabelTextCommand where
  base : BaseCommand
  m_itemID : Int
  m_oldText : String
  m_newText : String
  deriving DecidableEq, Repr

/-- `ChangeLabelTextCommand::undo()`: the new text goes first, the old text second. -/
def ChangeLabelTextCommand.undo (env : Env) (self : ChangeLabelTextCommand) : List Event :=
  Event.sketch self.base.m_sketchWidget
      (SketchCall.setInstanceTitleForCommand self.m_itemID self.m_newText self.m_oldText
        false true) ::
    BaseCommand.undo env self.base

/-- `ChangeLabelTextCommand::redo()`. -/
def ChangeLabelTextCommand.redo (env : Env) (self : ChangeLabelTextCommand) : List Event :=
  Event.sketch self.base.m_sketchWidget
      (SketchCall.setInstanceTitleForCommand self.m_itemID self.m_oldText self.m_newText
        false true) ::
    BaseCommand.redo env self.base

/-- The members of `MoveLabelCommand` (a `BaseCommand`, `SingleView`). -/
structure MoveLabelCommand where
  base : BaseCommand
  m_itemID : Int
  m_oldPos : QPointF
  m_newPos : QPointF
  m_oldOffset : QPointF
  m_newOffset : QPointF
  deriving DecidableEq, Repr

/-- `MoveLabelCommand::undo()`. -/
def MoveLabelCommand.undo (env : Env) (self : MoveLabelCommand) : List Event :=
  Event.sketch self.base.m_sketchWidget
      (SketchCall.movePartLabelForCommand self.m_itemID self.m_oldPos self.m_oldOffset) ::
    BaseCommand.undo env self.base

/-- `MoveLabelCommand::redo()`. -/
def MoveLabelCommand.redo (env : Env) (self : MoveLabelCommand) : List Event :=
  Event.sketch self.base.m_sketchWidget
      (SketchCall.movePartLabelForCommand self.m_itemID self.m_newPos self.m_newOffset) ::
    BaseCommand.redo env self.base

/-- The members of `RotateFlipLabelCommand` (a `BaseCommand`, `SingleView`); the angle
is kept as an integer number of degrees, the orientation is the value of the
`Qt::Orientations` flags. -/
structure RotateFlipLabelCommand where
  base : BaseCommand
  m_itemID : Int
  m_degrees : Int
  m_orientation : Nat
  deriving DecidableEq, Repr

/-- `RotateFlipLabelCommand::undo()`. -/
def RotateFlipLabelCommand.undo (env : Env) (self : RotateFlipLabelCommand) : List Event :=
  Event.sketch self.base.m_sketchWidget
      (SketchCall.rotateFlipPartLabelForCommand self.m_itemID (-self.m_degrees)
        self.m_orientation) ::
    BaseCommand.undo env self.base

/-- `RotateFlipLabelCommand::redo()`. -/
def RotateFlipLabelCommand.redo (env : Env) (self : RotateFlipLabelCommand) : List Event :=
  Event.sketch self.base.m_sketchWidget
      (SketchCall.rotateFlipPartLabelForCommand self.m_itemID self.m_degrees
        self.m_orientation) ::
    BaseCommand.redo env self.base

/-- The members of `RestoreLabelCommand` (a `BaseCommand`, `SingleView`); a
`QDomElement` is kept as its text. -/
structure RestoreLabelCommand where
  base : BaseCommand
  m_itemID : Int
  m_oldLabelGeometry : String
  m_newLabelGeometry : String
  deriving DecidableEq, Repr

/-- `RestoreLabelCommand::undo()`. -/
def RestoreLabelCommand.undo (env : Env) (self : RestoreLabelCommand) : List Event :=
  Event.sketch self.base.m_sketchWidget
      (SketchCall.restorePartLabelForCommand self.m_itemID self.m_oldLabelGeometry) ::
    BaseCommand.undo env self.base

/-- `RestoreLabelCommand::redo()`. -/
def RestoreLabelCommand.redo (env : Env) (self : RestoreLabelCommand) : List Event :=
  Event.sketch self.base.m_sketchWidget
      (SketchCall.restorePartLabelForCommand self.m_itemID self.m_newLabelGeometry) ::
    BaseCommand.redo env self.base

/-- The members of `ShowLabelFirstTimeCommand` (a `BaseCommand`). -/
structure ShowLabelFirstTimeCommand where
  base : BaseCommand
  m_itemID : Int
  m_oldVis : Bool
  m_newVis : Bool
  deriving DecidableEq, Repr

/-- `ShowLabelFirstTimeCommand::undo()`: only the base call. -/
def ShowLabelFirstTimeCommand.undo (env : Env) (self : ShowLabelFirstTimeCommand) :
    List Event :=
  BaseCommand.undo env self.base

/-- `ShowLabelFirstTimeCommand::redo()`. -/
def ShowLabelFirstTimeCommand.redo (env : Env) (self : ShowLabelFirstTimeCommand) :
    List Event :=
  Event.sketch self.base.m_sketchWidget
      (SketchCall.showLabelFirstTimeForCommand self.m_itemID self.m_newVis true) ::
    BaseCommand.redo env self.base

/-- The members of `ShowLabelCommand` (a `BaseCommand`, `SingleView`); `m_idStates` is
the hash from item id to the two bits set by `add` (2 for the previous visibility, 1 for
the new one), with distinct keys. -/
structure ShowLabelCommand where
  base : BaseCommand
  m_idStates : List (Int × Nat) := []
  deriving DecidableEq, Repr

/-- `ShowLabelCommand::add(id, prev, post)`: `QHash::insert` replaces the entry of a
key that is already there. -/
def ShowLabelCommand.add (self : ShowLabelCommand) (id : Int) (prev post : Bool) :
    ShowLabelCommand :=
  { self with
    m_idStates :=
      (self.m_idStates.filter (fun e => e.1 ≠ id)) ++
        [(id, (if prev then 2 else 0) + (if post then 1 else 0))] }

/-- `ShowLabelCommand::undo()`: for every key, `showPartLabelForCommand` with bit 2 of
its value. -/
def ShowLabelCommand.undo (env : Env) (self : ShowLabelCommand) : List Event :=
  self.m_idStates.map (fun e =>
      Event.sketch self.base.m_sketchWidget
        (SketchCall.showPartLabelForCommand e.1 (decide (e.2 &&& 2 ≠ 0)))) ++
    BaseCommand.undo env self.base

/-- `ShowLabelCommand::redo()`: for every key, `showPartLabelForCommand` with bit 1 of
its value. -/
def ShowLabelCommand.redo (env : Env) (self : ShowLabelCommand) : List Event :=
  self.m_idStates.map (fun e =>
      Event.sketch self.base.m_sketchWidget
        (SketchCall.showPartLabelForCommand e.1 (decide (e.2 &&& 1 ≠ 0)))) ++
    BaseCommand.redo env self.base

/-! ### Cleaning up wires and ratsnests -/

/-- `CleanUpWiresCommand::Direction`: the source names `UndoOnly` and `RedoOnly`; `Noop`
stands for any other value of the enumeration. -/
inductive Direction where
  | UndoOnly
  | RedoOnly
  | Noop
  deriving DecidableEq, Repr

/-- The members of `CleanUpRatsnestsCommand`; the constructor sets `m_undoOnly` for the
direction `UndoOnly` and `m_redoOnly` for `RedoOnly`. -/
structure CleanUpRatsnestsCommand where
  sim : SimulationCommand
  deriving DecidableEq, Repr

/-- `CleanUpRatsnestsCommand::undo()`. -/
def CleanUpRatsnestsCommand.undo (env : Env) (self : CleanUpRatsnestsCommand) :
    List Event :=
  (if self.sim.base.m_undoOnly then
    [Event.sketch self.sim.base.m_sketchWidget (SketchCall.cleanupRatsnestsForCommand true)]
   else []) ++
    SimulationCommand.undo env self.sim

/-- `CleanUpRatsnestsCommand::redo()`. -/
def CleanUpRatsnestsCommand.redo (env : Env) (self : CleanUpRatsnestsCommand) :
    List Event :=
  (if self.sim.base.m_redoOnly then
    [Event.sketch self.sim.base.m_sketchWidget (SketchCall.cleanupRatsnestsForCommand true)]
   else []) ++
    SimulationCommand.redo env self.sim

/-- The members of `WireColorChangeCommand` (a `BaseCommand`); opacities are kept as
integers. -/
structure WireColorChangeCommand where
  base : BaseCommand
  m_wireId : Int
  m_oldColor : String
  m_newColor : String
  m_oldOpacity : Int
  m_newOpacity : Int
  deriving DecidableEq, Repr

/-- `WireColorChangeCommand::undo()`. -/
def WireColorChangeCommand.undo (env : Env) (self : WireColorChangeCommand) : List Event :=
  Event.sketch self.base.m_sketchWidget
      (SketchCall.changeWireColorForCommand self.m_wireId self.m_oldColor
        self.m_oldOpacity) ::
    BaseCommand.undo env self.base

/-- `WireColorChangeCommand::redo()`. -/
def WireColorChangeCommand.redo (env : Env) (self : WireColorChangeCommand) : List Event :=
  Event.sketch self.base.m_sketchWidget
      (SketchCall.changeWireColorForCommand self.m_wireId self.m_newColor
        self.m_newOpacity) ::
    BaseCommand.redo env self.base

/-- The members of `WireWidthChangeCommand` (a `BaseCommand`); widths are kept as
integers. -/
structure WireWidthChangeCommand where
  base : BaseCommand
  m_wireId : Int
  m_oldWidth : Int
  m_newWidth : Int
  deriving DecidableEq, Repr

/-- `WireWidthChangeCommand::undo()`. -/
def WireWidthChangeCommand.undo (env : Env) (self : WireWidthChangeCommand) : List Event :=
  Event.sketch self.base.m_sketchWidget
      (SketchCall.changeWireWidthForCommand self.m_wireId self.m_oldWidth) ::
    BaseCommand.undo env self.base

/-- `WireWidthChangeCommand::redo()`. -/
def WireWidthChangeCommand.redo (env : Env) (self : WireWidthChangeCommand) : List Event :=
  Event.sketch self.base.m_sketchWidget
      (SketchCall.changeWireWidthForCommand self.m_wireId self.m_newWidth) ::
    BaseCommand.redo env self.base

/-- The members of `RoutingStatusCommand` (a `BaseCommand`). -/
structure RoutingStatusCommand where
  base : BaseCommand
  m_oldRoutingStatus : RoutingStatus
  m_newRoutingStatus : RoutingStatus
  deriving DecidableEq, Repr

/-- `RoutingStatusCommand::undo()`. -/
def RoutingStatusCommand.undo (env : Env) (self : RoutingStatusCommand) : List Event :=
  Event.sketch self.base.m_sketchWidget
      (SketchCall.forwardRoutingStatusForCommand self.m_oldRoutingStatus) ::
    BaseCommand.undo env self.base

/-- `RoutingStatusCommand::redo()`. -/
def RoutingStatusCommand.redo (env : Env) (self : RoutingStatusCommand) : List Event :=
  Event.sketch self.base.m_sketchWidget
      (SketchCall.forwardRoutingStatusForCommand self.m_newRoutingStatus) ::
    BaseCommand.redo env self.base

/-- A sub-command as `CleanUpWiresCommand` creates them in `addRoutingStatus` and
`addTrace`. -/
inductive OwnedCommand where
  | routingStatus (c : RoutingStatusCommand)
  | wireColorChange (c : WireColorChangeCommand)
  | wireWidthChange (c : WireWidthChangeCommand)
  | changeConnection (c : ChangeConnectionCommand)
  | deleteItem (c : DeleteItemCommand)
  deriving DecidableEq, Repr

/-- The virtual `undo()` of an owned sub-command; `added id` is what `addItemForCommand`
returns for item `id`. -/
def OwnedCommand.undo (env : Env) (added : Int → Option ItemBase) : OwnedCommand → List Event
  | OwnedCommand.routingStatus c => c.undo env
  | OwnedCommand.wireColorChange c => c.undo env
  | OwnedCommand.wireWidthChange c => c.undo env
  | OwnedCommand.changeConnection c => c.undo env
  | OwnedCommand.deleteItem c => c.undo env (added c.ad.m_itemID)

/-- The virtual `redo()` of an owned sub-command. -/
def OwnedCommand.redo (env : Env) : OwnedCommand → List Event
  | OwnedCommand.routingStatus c => c.redo env
  | OwnedCommand.wireColorChange c => c.redo env
  | OwnedCommand.wireWidthChange c => c.redo env
  | OwnedCommand.changeConnection c => c.redo env
  | OwnedCommand.deleteItem c => c.redo env

/-- The command objects owned by composite commands, addressed by pointer. -/
abbrev CommandHeap := Nat → Option OwnedCommand

/-- The dispatcher for `command->undo()` on the heap: the calls made are appended to
the log. -/
def CommandHeap.dispatchUndo (heap : CommandHeap) (env : Env)
    (added : Int → Option ItemBase) (command : Nat) (log : List Event) : List Event :=
  log ++ (match heap command with
          | some c => c.undo env added
          | none => [])

/-- The dispatcher for `command->redo()` on the heap. -/
def CommandHeap.dispatchRedo (heap : CommandHeap) (env : Env) (command : Nat)
    (log : List Event) : List Event :=
  log ++ (match heap command with
          | some c => c.redo env
          | none => [])

/-- An entry of `CleanUpWiresCommand::m_ratsnestConnectThings`. -/
structure RatsnestConnectThing where
  id : Int
  connectorID : String
  connect : Bool
  deriving DecidableEq, Repr

/-- The members of `CleanUpWiresCommand` (a `SimulationCommand`, `CrossView`);
`m_sketchWidgets` is the set of widgets for which a trace was added. -/
structure CleanUpWiresCommand where
  sim : SimulationCommand
  m_direction : Direction
  m_ratsnestConnectThings : List RatsnestConnectThing := []
  m_sketchWidgets : List Nat := []
  deriving DecidableEq, Repr

/-- `CleanUpWiresCommand::undo()`; the owned sub-commands live in `heap`. -/
def CleanUpWiresCommand.undo (env : Env) (heap : CommandHeap)
    (added : Int → Option ItemBase) (self : CleanUpWiresCommand) : List Event :=
  self.m_ratsnestConnectThings.map (fun rct =>
      Event.sketch self.sim.base.m_sketchWidget
        (SketchCall.ratsnestConnectForCommand rct.id rct.connectorID (!rct.connect) true)) ++
    (if self.m_sketchWidgets.length > 0 then
      BaseCommand.subUndo (heap.dispatchUndo env added) self.sim.base []
     else []) ++
    (if self.m_direction = Direction.UndoOnly then
      [Event.sketch self.sim.base.m_sketchWidget
        (SketchCall.cleanUpWiresForCommand
          (decide (self.sim.base.m_crossViewType = CrossViewType.CrossView)) false)]
     else []) ++
    SimulationCommand.undo env self.sim

/-- `CleanUpWiresCommand::redo()`. -/
def CleanUpWiresCommand.redo (env : Env) (heap : CommandHeap)
    (self : CleanUpWiresCommand) : List Event :=
  self.m_ratsnestConnectThings.map (fun rct =>
      Event.sketch self.sim.base.m_sketchWidget
        (SketchCall.ratsnestConnectForCommand rct.id rct.connectorID rct.connect true)) ++
    (if self.m_sketchWidgets.length > 0 then
      BaseCommand.subRedo (heap.dispatchRedo env) self.sim.base []
     else []) ++
    (if self.m_direction = Direction.RedoOnly then
      [Event.sketch self.sim.base.m_sketchWidget
        (SketchCall.cleanUpWiresForCommand
          (decide (self.sim.base.m_crossViewType = CrossViewType.CrossView)) true)]
     else []) ++
    SimulationCommand.redo env self.sim

/-- What `addTrace` reads from an entry of `connectedToItems()`: `attachedToID()` and
`connectorSharedID()`. -/
structure ConnectorItem where
  m_attachedToID : Int
  m_connectorSharedID : String
  deriving DecidableEq, Repr

/-- What `addTrace` reads from the `Wire*` it is handed: `id()`, `colorString()`,
`opacity()` and `width()` (kept as integers), the items connected to `connector0()` and
to `connector1()`, `viewLayerID()`, `viewLayerPlacement()`, `getViewGeometry()` and the
model index of its model part. -/
structure Wire where
  m_id : Int
  m_colorString : String
  m_opacity : Int
  m_width : Int
  m_connected0 : List ConnectorItem
  m_connected1 : List ConnectorItem
  m_viewLayerID : Nat
  m_viewLayerPlacement : Nat
  m_viewGeometry : ViewGeometry
  m_modelIndex : Int
  deriving DecidableEq, Repr

/-- What the constructors called by `addRoutingStatus` and `addTrace` look up outside
the command classes: the main window of a sketch widget (`none` when the `dynamic_cast`
of `nativeParentWidget()` yields null), `ViewLayer::specFromID`, and the constant
`ModuleIDNames::WireModuleIDName`. -/
structure SketchLookups where
  mainWindowOf : Nat → Option Nat
  specFromID : Nat → Nat
  wireModuleIDName : String

/-- The heap of owned command objects together with the pointer the next `new` hands
out; every pointer below `next` may be in use. -/
structure CommandStore where
  heap : CommandHeap
  next : Nat

/-- The constructor `CleanUpWiresCommand(sketchWidget, direction, parent)`. -/
def CleanUpWiresCommand.construct (lookups : SketchLookups) (sketchWidget : Nat)
    (direction : Direction) : CleanUpWiresCommand :=
  { sim := { base := { m_crossViewType := CrossViewType.CrossView,
                       m_sketchWidget := sketchWidget },
             m_mainWindow := lookups.mainWindowOf sketchWidget },
    m_direction := direction }

/-- The statement `addSubCommand(new C(...))` of a clean-up command: the new object is
put at the next free pointer and the pointer is appended to `m_commands`. -/
def CleanUpWiresCommand.addOwned (st : CommandStore × CleanUpWiresCommand)
    (command : OwnedCommand) : CommandStore × CleanUpWiresCommand :=
  ({ heap := Function.update st.1.heap st.1.next (some command), next := st.1.next + 1 },
   { st.2 with sim := { st.2.sim with base := st.2.sim.base.addSubCommand st.1.next } })

/-- The object `new RoutingStatusCommand(sketchWidget, oldRoutingStatus,
newRoutingStatus, nullptr)`. -/
def RoutingStatusCommand.construct (sketchWidget : Nat)
    (oldRoutingStatus newRoutingStatus : RoutingStatus) : RoutingStatusCommand :=
  { base := { m_crossViewType := CrossViewType.SingleView, m_sketchWidget := sketchWidget },
    m_oldRoutingStatus := oldRoutingStatus, m_newRoutingStatus := newRoutingStatus }

/-- `CleanUpWiresCommand::addRoutingStatus`: one routing-status sub-command is added;
`m_sketchWidgets` is not touched. -/
def CleanUpWiresCommand.addRoutingStatus (st : CommandStore × CleanUpWiresCommand)
    (sketchWidget : Nat) (oldRoutingStatus newRoutingStatus : RoutingStatus) :
    CommandStore × CleanUpWiresCommand :=
  CleanUpWiresCommand.addOwned st
    (OwnedCommand.routingStatus
      (RoutingStatusCommand.construct sketchWidget oldRoutingStatus newRoutingStatus))

/-- The object `new ChangeConnectionCommand(sketchWidget, CrossView,
toConnectorItem->attachedToID(), toConnectorItem->connectorSharedID(), wire->id(), end,
ViewLayer::specFromID(wire->viewLayerID()), false, nullptr)` of `addTrace`. -/
def traceDisconnect (lookups : SketchLookups) (sketchWidget : Nat) (wire : Wire)
    (wireEnd : String) (toConnectorItem : ConnectorItem) : OwnedCommand :=
  OwnedCommand.changeConnection
    { sim := { base := { m_crossViewType := CrossViewType.CrossView,
                         m_sketchWidget := sketchWidget },
               m_mainWindow := lookups.mainWindowOf sketchWidget },
      m_fromID := toConnectorItem.m_attachedToID,
      m_fromConnectorID := toConnectorItem.m_connectorSharedID,
      m_toID := wire.m_id, m_toConnectorID := wireEnd,
      m_viewLayerPlacement := lookups.specFromID wire.m_viewLayerID,
      m_connect := false }

/-- The objects `addTrace` creates for a wire, in the order of the `new` expressions:
colour, width, one disconnection per item at `connector0`, one per item at `connector1`,
and the deletion of the wire. -/
def traceCommands (lookups : SketchLookups) (sketchWidget : Nat) (wire : Wire) :
    List OwnedCommand :=
  [OwnedCommand.wireColorChange
     { base := { m_crossViewType := CrossViewType.SingleView,
                 m_sketchWidget := sketchWidget },
       m_wireId := wire.m_id, m_oldColor := wire.m_colorString,
       m_newColor := wire.m_colorString, m_oldOpacity := wire.m_opacity,
       m_newOpacity := wire.m_opacity },
   OwnedCommand.wireWidthChange
     { base := { m_crossViewType := CrossViewType.SingleView,
                 m_sketchWidget := sketchWidget },
       m_wireId := wire.m_id, m_oldWidth := wire.m_width, m_newWidth := wire.m_width }] ++
    wire.m_connected0.map (traceDisconnect lookups sketchWidget wire "connector0") ++
    wire.m_connected1.map (traceDisconnect lookups sketchWidget wire "connector1") ++
    [OwnedCommand.deleteItem
      { ad := { sim := { base := { m_crossViewType := CrossViewType.CrossView,
                                   m_sketchWidget := sketchWidget },
                         m_mainWindow := lookups.mainWindowOf sketchWidget },
                m_moduleID := lookups.wireModuleIDName, m_itemID := wire.m_id,
                m_viewGeometry := wire.m_viewGeometry, m_modelIndex := wire.m_modelIndex,
                m_viewLayerPlacement := wire.m_viewLayerPlacement } }]

/-- The test at the head of `addTrace`: there is a parent command and one of its
children is a `DeleteItemCommand` for the wire. `parentChildren` is `none` for a null
`m_parentCommand`, else it holds, child by child, the item id of a child that is a
`DeleteItemCommand` and `none` for a child of another class. -/
def wireDeletedByParent (parentChildren : Option (List (Option Int))) (wire : Wire) :
    Bool :=
  match parentChildren with
  | some children => children.contains (some wire.m_id)
  | none => false

/-- `QSet::insert` on the set `m_sketchWidgets`, kept as a list without repetition. -/
def insertSketchWidget (widgets : List Nat) (sketchWidget : Nat) : List Nat :=
  if widgets.contains sketchWidget then widgets else widgets ++ [sketchWidget]

/-- `CleanUpWiresCommand::addTrace`: nothing happens when the parent already deletes
the wire; otherwise the widget is inserted into `m_sketchWidgets` and the sub-commands
of `traceCommands` are created and added one by one. -/
def CleanUpWiresCommand.addTrace (lookups : SketchLookups)
    (parentChildren : Option (List (Option Int)))
    (st : CommandStore × CleanUpWiresCommand) (sketchWidget : Nat) (wire : Wire) :
    CommandStore × CleanUpWiresCommand :=
  if wireDeletedByParent parentChildren wire then st
  else
    (traceCommands lookups sketchWidget wire).foldl CleanUpWiresCommand.addOwned
      (st.1, { st.2 with
        m_sketchWidgets := insertSketchWidget st.2.m_sketchWidgets sketchWidget })

/-- A call that gives a clean-up command sub-commands. -/
inductive CleanUpOp where
  | addRoutingStatus (sketchWidget : Nat) (oldRoutingStatus newRoutingStatus : RoutingStatus)
  | addTrace (sketchWidget : Nat) (wire : Wire)
  deriving DecidableEq, Repr

/-- Executes one call. -/
def CleanUpOp.apply (lookups : SketchLookups) (parentChildren : Option (List (Option Int)))
    (st : CommandStore × CleanUpWiresCommand) : CleanUpOp → CommandStore × CleanUpWiresCommand
  | CleanUpOp.addRoutingStatus sketchWidget oldRoutingStatus newRoutingStatus =>
    CleanUpWiresCommand.addRoutingStatus st sketchWidget oldRoutingStatus newRoutingStatus
  | CleanUpOp.addTrace sketchWidget wire =>
    CleanUpWiresCommand.addTrace lookups parentChildren st sketchWidget wire

/-- The store and the clean-up command after construction followed by a sequence of
calls, first call first. -/
def buildCleanUp (lookups : SketchLookups) (parentChildren : Option (List (Option Int)))
    (store : CommandStore) (sketchWidget : Nat) (direction : Direction)
    (ops : List CleanUpOp) : CommandStore × CleanUpWiresCommand :=
  ops.foldl (CleanUpOp.apply lookups parentChildren)
    (store, CleanUpWiresCommand.construct lookups sketchWidget direction)

/-- The sub-command objects a call creates, in order: one for `addRoutingStatus`, those
of `traceCommands` for an `addTrace` that is not cut short, none for one that is. -/
def CleanUpOp.created (lookups : SketchLookups) (parentChildren : Option (List (Option Int))) :
    CleanUpOp → List OwnedCommand
  | CleanUpOp.addRoutingStatus sketchWidget oldRoutingStatus newRoutingStatus =>
    [OwnedCommand.routingStatus
      (RoutingStatusCommand.construct sketchWidget oldRoutingStatus newRoutingStatus)]
  | CleanUpOp.addTrace sketchWidget wire =>
    if wireDeletedByParent parentChildren wire then []
    else traceCommands lookups sketchWidget wire

/-- Whether a call is an `addTrace` that is not cut short. -/
def CleanUpOp.addsTrace (parentChildren : Option (List (Option Int))) : CleanUpOp → Bool
  | CleanUpOp.addRoutingStatus _ _ _ => false
  | CleanUpOp.addTrace _ wire => !wireDeletedByParent parentChildren wire

/-- The frame of a clean-up command: all members but `m_commands` and
`m_sketchWidgets`. -/
def CleanUpWiresCommand.frame (self : CleanUpWiresCommand) : CleanUpWiresCommand :=
  { self with
    sim := { self.sim with base := { self.sim.base with m_commands := [] } }
    m_sketchWidgets := [] }

/-- The tail of `CleanUpWiresCommand::redo()` after the replay of the sub-commands. -/
def CleanUpWiresCommand.redoTail (env : Env) (self : CleanUpWiresCommand) : List Event :=
  (if self.m_direction = Direction.RedoOnly then
    [Event.sketch self.sim.base.m_sketchWidget
      (SketchCall.cleanUpWiresForCommand
        (decide (self.sim.base.m_crossViewType = CrossViewType.CrossView)) true)]
   else []) ++
    SimulationCommand.redo env self.sim

/-- The tail of `CleanUpWiresCommand::undo()` after the replay of the sub-commands. -/
def CleanUpWiresCommand.undoTail (env : Env) (self : CleanUpWiresCommand) : List Event :=
  (if self.m_direction = Direction.UndoOnly then
    [Event.sketch self.sim.base.m_sketchWidget
      (SketchCall.cleanUpWiresForCommand
        (decide (self.sim.base.m_crossViewType = CrossViewType.CrossView)) false)]
   else []) ++
    SimulationCommand.undo env self.sim

/-! ### The editing surface -/

/-- Modelled from the spec: what the editing surface (class `SketchWidget`, whose code is
not among the sources) holds for one item. The spec gives the surface as synchronous
operations addressed by item id (`addItem(moduleId, placement, geometry, id,
modelIndex, ..)`, `moveItem(id, geometry, ..)`, `setProperty(id, key, value, ..)`) and
says that a command replays old and new snapshots through it; an item holds what these
operations and the other calls of the commands hand over: the data it was created from,
placement, rotation and transformation, flip state per orientation, property values,
resistance, wire line, position, curve, colour and width, leg polygon and leg curves per
connector, note text and size, and the title and label data. -/
structure Item where
  moduleID : String
  viewLayerPlacement : Nat
  modelIndex : Int
  geometry : ViewGeometry
  rotation : Int
  transform : QTransform
  flipped : Nat → Bool
  props : String → String
  resistance : String
  pinSpacing : String
  wireLine : QLineF
  wirePos : QPointF
  wireCurve : Option Bezier
  autoroutable : Bool
  wireColor : String
  wireOpacity : Int
  wireWidth : Int
  legs : String → QPolygonF
  legCurves : String → List (Option Bezier)
  noteText : String
  noteSize : QSizeF
  title : String
  labelPos : QPointF
  labelOffset : QPointF
  labelRotation : Int
  labelFlipped : Nat → Bool
  labelVisible : Bool
  labelGeometry : String

/-- Modelled from the spec: the state of the editing surface of one sketch widget: the
items that exist, by id (`none` for an id that does not exist), and the connection flag
per ordered pair of ports, as `changeConnection(fromId, fromPort, toId, toPort, ..,
connect, ..)` sets it. -/
structure Surface where
  items : Int → Option Item
  connected : (Int × String) × (Int × String) → Bool

/-- Modelled from the spec: the rules of the surface that the spec leaves open and that
the model does not fix: the item `addItem` creates from the data it is handed, what
`recalcLeg` and `rotateLeg` make of the polygon they are handed and the leg that is
there, and the next instance title. -/
structure SurfaceRules where
  create : String → Nat → ViewGeometry → Int → Int → Item
  recalcLeg : QPolygonF → Bool → Bool → QPolygonF → QPolygonF
  rotateLeg : QPolygonF → Bool → QPolygonF → QPolygonF
  incTitle : String → String

/-- Modelled from the spec: a call that addresses an item by id fails when the id does
not exist (`none`), else it changes that item and nothing else. -/
def Surface.modify (s : Surface) (id : Int) (f : Item → Item) : Option Surface :=
  match s.items id with
  | some item => some { s with items := Function.update s.items id (some (f item)) }
  | none => none

/-- Entry `index` of a list replaced; an index outside the list changes nothing. -/
def setAt {α : Type} (l : List α) (index : Int) (x : α) : List α :=
  if index < 0 then l else l.set index.toNat x

/-- A new entry put in at position `index`; an index outside `0 .. length` changes
nothing. -/
def insertAt {α : Type} (l : List α) (index : Int) (x : α) : List α :=
  if index < 0 ∨ (l.length : Int) < index then l
  else l.take index.toNat ++ x :: l.drop index.toNat

/-- Entry `index` of a list taken out; an index outside the list changes nothing. -/
def removeAt {α : Type} (l : List α) (index : Int) : List α :=
  if index < 0 then l else l.take index.toNat ++ l.drop (index.toNat + 1)

/-- The curves of a leg when a bendpoint is put in at `index`: the segment that ends
there is replaced by two segments with the curves handed over. -/
def splitCurve (curves : List (Option Bezier)) (index : Int) (bezierA bezierB : Option Bezier) :
    List (Option Bezier) :=
  if index < 1 then curves
  else curves.take (index.toNat - 1) ++ [bezierA, bezierB] ++ curves.drop index.toNat

/-- The curves of a leg when the bendpoint at `index` is taken out: the two segments
that meet there are replaced by one segment with the curve handed over. -/
def joinCurves (curves : List (Option Bezier)) (index : Int) (bezier : Option Bezier) :
    List (Option Bezier) :=
  if index < 1 then curves
  else curves.take (index.toNat - 1) ++ [bezier] ++ curves.drop (index.toNat + 1)

/-- Modelled from the spec: the effect of one call on the surface, `none` when the call
fails or is not covered by the model. `addItem` creates the item; `deleteItem` removes
an item that exists; a setter stores what it is handed in the addressed item; a flip
toggles; a rotation adds its angle; a bendpoint call puts a point into the leg polygon or
takes it out, with the curves of the segments next to it; `changeConnection` sets the
flag of the pair of ports when both items exist. Selection, `updateWire` (the geometry of
attached wires, which is derived from the items they are attached to), ratsnest, wire
clean-up and routing-status calls are not covered. -/
def Surface.exec (rules : SurfaceRules) (s : Surface) : SketchCall → Option Surface
  | SketchCall.addItemForCommand moduleID placement _ geometry id modelIndex =>
    some { s with items :=
      Function.update s.items id (some (rules.create moduleID placement geometry id modelIndex)) }
  | SketchCall.deleteItemForCommand id _ _ _ =>
    match s.items id with
    | some _ => some { s with items := Function.update s.items id none }
    | none => none
  | SketchCall.moveItemForCommand id g _ =>
    s.modify id (fun item => { item with geometry := g })
  | SketchCall.simpleMoveItemForCommand id p =>
    s.modify id (fun item => { item with geometry := { item.geometry with m_loc := p } })
  | SketchCall.moveItem id p _ =>
    s.modify id (fun item => { item with geometry := { item.geometry with m_loc := p } })
  | SketchCall.rotateItemForCommand id degrees =>
    s.modify id (fun item => { item with rotation := item.rotation + degrees })
  | SketchCall.transformItemForCommand id matrix =>
    s.modify id (fun item => { item with transform := matrix })
  | SketchCall.flipItemForCommand id orientation =>
    s.modify id (fun item =>
      { item with flipped :=
          (Function.update item.flipped orientation (!item.flipped orientation)) })
  | SketchCall.setProp id prop value _ _ =>
    s.modify id (fun item => { item with props := Function.update item.props prop value })
  | SketchCall.setResistance id resistance pinSpacing _ =>
    s.modify id (fun item => { item with resistance := resistance, pinSpacing := pinSpacing })
  | SketchCall.changeConnection fromID fromConnectorID toID toConnectorID _ connect _ _ =>
    match s.items fromID, s.items toID with
    | some _, some _ =>
      some { s with connected :=
        (Function.update s.connected ((fromID, fromConnectorID), (toID, toConnectorID))
          connect) }
    | _, _ => none
  | SketchCall.changeWireForCommand id line pos _ _ =>
    s.modify id (fun item => { item with wireLine := line, wirePos := pos })
  | SketchCall.changeWireCurveForCommand id bezier autoroutable =>
    s.modify id (fun item => { item with wireCurve := bezier, autoroutable := autoroutable })
  | SketchCall.changeWireColorForCommand id color opacity =>
    s.modify id (fun item => { item with wireColor := color, wireOpacity := opacity })
  | SketchCall.changeWireWidthForCommand id width =>
    s.modify id (fun item => { item with wireWidth := width })
  | SketchCall.changeLegForCommand id connectorID leg _ _ =>
    s.modify id (fun item => { item with legs := Function.update item.legs connectorID leg })
  | SketchCall.recalcLegForCommand id connectorID leg relative active _ =>
    s.modify id (fun item =>
      { item with legs :=
          (Function.update item.legs connectorID
            (rules.recalcLeg leg relative active (item.legs connectorID))) })
  | SketchCall.rotateLegForCommand id connectorID leg active =>
    s.modify id (fun item =>
      { item with legs :=
          (Function.update item.legs connectorID
            (rules.rotateLeg leg active (item.legs connectorID))) })
  | SketchCall.moveLegBendpointForCommand id connectorID index pos =>
    s.modify id (fun item =>
      { item with legs :=
          (Function.update item.legs connectorID (setAt (item.legs connectorID) index pos)) })
  | SketchCall.changeLegCurveForCommand id connectorID index bezier =>
    s.modify id (fun item =>
      { item with legCurves :=
          (Function.update item.legCurves connectorID
            (setAt (item.legCurves connectorID) index bezier)) })
  | SketchCall.addLegBendpointForCommand id connectorID index pos bezierA bezierB =>
    s.modify id (fun item =>
      { item with
        legs := Function.update item.legs connectorID (insertAt (item.legs connectorID) index pos)
        legCurves :=
          (Function.update item.legCurves connectorID
            (splitCurve (item.legCurves connectorID) index bezierA bezierB)) })
  | SketchCall.removeLegBendpointForCommand id connectorID index bezier =>
    s.modify id (fun item =>
      { item with
        legs := Function.update item.legs connectorID (removeAt (item.legs connectorID) index)
        legCurves :=
          (Function.update item.legCurves connectorID
            (joinCurves (item.legCurves connectorID) index bezier)) })
  | SketchCall.setNoteTextForCommand id text =>
    s.modify id (fun item => { item with noteText := text })
  | SketchCall.resizeNoteForCommand id size =>
    s.modify id (fun item => { item with noteSize := size })
  | SketchCall.incInstanceTitleForCommand id =>
    s.modify id (fun item => { item with title := rules.incTitle item.title })
  | SketchCall.setInstanceTitleForCommand id _ newText _ _ =>
    s.modify id (fun item => { item with title := newText })
  | SketchCall.movePartLabelForCommand id pos offset =>
    s.modify id (fun item => { item with labelPos := pos, labelOffset := offset })
  | SketchCall.rotateFlipPartLabelForCommand id degrees orientation =>
    s.modify id (fun item =>
      { item with
        labelRotation := item.labelRotation + degrees
        labelFlipped :=
          (Function.update item.labelFlipped orientation (!item.labelFlipped orientation)) })
  | SketchCall.showPartLabelForCommand id showIt =>
    s.modify id (fun item => { item with labelVisible := showIt })
  | SketchCall.restorePartLabelForCommand id labelGeometry =>
    s.modify id (fun item => { item with labelGeometry := labelGeometry })
  | SketchCall.showLabelFirstTimeForCommand id showIt _ =>
    s.modify id (fun item => { item with labelVisible := showIt })
  | SketchCall.clearSelection => none
  | SketchCall.selectItemForCommand _ _ _ _ => none
  | SketchCall.selectAllItems _ _ => none
  | SketchCall.updateWireForCommand _ _ _ => none
  | SketchCall.ratsnestConnectForCommand _ _ _ _ => none
  | SketchCall.cleanUpWiresForCommand _ _ => none
  | SketchCall.cleanupRatsnestsForCommand _ => none
  | SketchCall.forwardRoutingStatusForCommand _ => none

/-- The surface of sketch widget `widget` after one event: calls addressed to that widget
are executed, everything else (other widgets, progress signals, the simulator, calls on
connectors) leaves it unchanged. -/
def Surface.step (rules : SurfaceRules) (widget : Nat) (s : Surface) : Event → Option Surface
  | Event.sketch w call => if w = widget then s.exec rules call else some s
  | _ => some s

/-- The surface of sketch widget `widget` after a list of events, in order; `none` as
soon as one call fails. -/
def Surface.run (rules : SurfaceRules) (widget : Nat) (s : Surface) :
    List Event → Option Surface
  | [] => some s
  | e :: es =>
    match s.step rules widget e with
    | some t => t.run rules widget es
    | none => none

/-- The surface after `redo()` followed by `undo()`, given the events of each. -/
def Surface.redoUndo (rules : SurfaceRules) (widget : Nat) (redoEvents undoEvents : List Event)
    (s : Surface) : Option Surface :=
  match s.run rules widget redoEvents with
  | some t => t.run rules widget undoEvents
  | none => none

/-- A base command on widget 0. -/
def baseOnWidget0 : BaseCommand :=
  { m_crossViewType := CrossViewType.SingleView, m_sketchWidget := 0 }

/-- Item 4 moved from the origin to (5, 5). -/
def moveFromOrigin : MoveItemCommand :=
  { sim := { base := baseOnWidget0, m_mainWindow := some 0 },
    m_updateRatsnest := true, m_itemID := 4,
    m_old := ViewGeometry.mk (QPointF.mk 0 0) (QPointF.mk 0 0) (QPointF.mk 0 0),
    m_new := ViewGeometry.mk (QPointF.mk 5 5) (QPointF.mk 0 0) (QPointF.mk 0 0) }

/-- A select-listed command on widget 0 with redo list `[1]`. -/
def selListed : SelectItemCommand :=
  { base := { m_crossViewType := CrossViewType.CrossView, m_sketchWidget := 0,
              m_text := "Select" },
    m_type := SelectItemType.NormalSelect, m_undoIDs := [], m_redoIDs := [1] }

/-- A select-all command on widget 0, pushed after `selListed`. -/
def selAll : SelectItemCommand :=
  { base := { m_crossViewType := CrossViewType.CrossView, m_sketchWidget := 0,
              m_text := "Select All" },
    m_type := SelectItemType.SelectAll, m_undoIDs := [1], m_redoIDs := [] }

/-- A select-listed command on widget 1 with redo list `[2]`. -/
def selListedOther : SelectItemCommand :=
  { base := { m_crossViewType := CrossViewType.CrossView, m_sketchWidget := 1,
              m_text := "Select" },
    m_type := SelectItemType.NormalSelect, m_undoIDs := [1], m_redoIDs := [2] }

/-- A select-listed command on widget 0 with redo list `[2]`. -/
def selListedNext : SelectItemCommand :=
  { base := { m_crossViewType := CrossViewType.CrossView, m_sketchWidget := 0,
              m_text := "Select" },
    m_type := SelectItemType.NormalSelect, m_undoIDs := [1], m_redoIDs := [2] }

/-- Note 7 on widget 0: text `a` to `ab`, size 10x10 to 20x20. -/
def noteGrow : ChangeNoteTextCommand :=
  { base := { m_crossViewType := CrossViewType.CrossView, m_sketchWidget := 0 },
    m_itemID := 7, m_oldText := "a", m_newText := "ab",
    m_oldSize := { wd := 10, ht := 10 }, m_newSize := { wd := 20, ht := 20 } }

/-- Note 7 on widget 0, the next edit: text `ab` to `abc`, size 20x20 to 30x30. -/
def noteGrowMore : ChangeNoteTextCommand :=
  { base := { m_crossViewType := CrossViewType.CrossView, m_sketchWidget := 0 },
    m_itemID := 7, m_oldText := "ab", m_newText := "abc",
    m_oldSize := { wd := 20, ht := 20 }, m_newSize := { wd := 30, ht := 30 } }

/-- Note 7 on widget 0, the next edit: text `ab` to `a`, size 20x20 back to 10x10. -/
def noteShrink : ChangeNoteTextCommand :=
  { base := { m_crossViewType := CrossViewType.CrossView, m_sketchWidget := 0 },
    m_itemID := 7, m_oldText := "ab", m_newText := "a",
    m_oldSize := { wd := 20, ht := 20 }, m_newSize := { wd := 10, ht := 10 } }

/-- The command `noteGrow` with `setSkipFirstRedo()` called and no `redo()` yet. -/
def noteGrowSkip : ChangeNoteTextCommand :=
  { noteGrow with base := { noteGrow.base with m_skipFirstRedo := true } }

/-- The command `noteGrowMore` after `setCrossViewType(SingleView)`. -/
def noteGrowMoreSingleView : ChangeNoteTextCommand :=
  { noteGrowMore with base := noteGrowMore.base.setCrossViewType CrossViewType.SingleView }

/-- A deselect-all command on widget 0. -/
def deselAll : SelectItemCommand :=
  { base := { m_crossViewType := CrossViewType.CrossView, m_sketchWidget := 0,
              m_text := "Deselect All" },
    m_type := SelectItemType.DeselectAll, m_undoIDs := [1, 2], m_redoIDs := [] }

/-- Ports `pin0` of item 4 and `pin1` of item 9 get connected, on widget 0 with main
window 0. -/
def connect4to9 : ChangeConnectionCommand :=
  { sim := { base := { m_crossViewType := CrossViewType.CrossView, m_sketchWidget := 0 },
             m_mainWindow := some 0 },
    m_fromID := 4, m_fromConnectorID := "pin0", m_toID := 9, m_toConnectorID := "pin1",
    m_viewLayerPlacement := 1, m_connect := true }

/-- An add command for item 4 of module `resistor` on widget 0 with main window 0. -/
def addResistor : AddItemCommand :=
  { ad := { sim := { base := { m_crossViewType := CrossViewType.CrossView,
                               m_sketchWidget := 0 },
                     m_mainWindow := some 0 },
            m_moduleID := "resistor", m_itemID := 4,
            m_viewGeometry :=
              ViewGeometry.mk (QPointF.mk 5 5) (QPointF.mk 0 0) (QPointF.mk 0 0),
            m_modelIndex := 17, m_viewLayerPlacement := 1 },
    m_updateInfoView := true }

/-- A bendpoint command for the leg `pin0` of item 4: old count 3, new count 4, index 2. -/
def bendpoint3to4 : ChangeLegBendpointCommand :=
  { base := baseOnWidget0, m_fromID := 4, m_fromConnectorID := "pin0",
    m_oldCount := 3, m_newCount := 4, m_index := 2, m_pos := QPointF.mk 7 8,
    m_bezier0 := none, m_bezier1 := none, m_bezier2 := none }

/-- A delete command for the wire 12 on widget 0, as `addTrace` creates it: scope
`CrossView`, no local connector names. -/
def deleteWire12 : DeleteItemCommand :=
  { ad := { sim := { base := { m_crossViewType := CrossViewType.CrossView,
                               m_sketchWidget := 0 },
                     m_mainWindow := some 0 },
            m_moduleID := "WireModuleID", m_itemID := 12,
            m_viewGeometry :=
              ViewGeometry.mk (QPointF.mk 1 1) (QPointF.mk 0 0) (QPointF.mk 9 9),
            m_modelIndex := 30, m_viewLayerPlacement := 1 } }

/-- The three sub-commands `addTrace` creates for the wire 12, which has no
connections: colour, width and deletion, at the pointers 100, 101 and 102. -/
def traceHeap : CommandHeap := fun p =>
  if p = 100 then
    some (OwnedCommand.wireColorChange
      { base := baseOnWidget0, m_wireId := 12, m_oldColor := "blue", m_newColor := "blue",
        m_oldOpacity := 1, m_newOpacity := 1 })
  else if p = 101 then
    some (OwnedCommand.wireWidthChange
      { base := baseOnWidget0, m_wireId := 12, m_oldWidth := 2, m_newWidth := 2 })
  else if p = 102 then some (OwnedCommand.deleteItem deleteWire12)
  else none

/-- A clean-up command on widget 0 with main window 0 after `addTrace` for the wire 12. -/
def cleanUpOneTrace : CleanUpWiresCommand :=
  { sim := { base := { m_crossViewType := CrossViewType.CrossView, m_sketchWidget := 0,
                       m_commands := [100, 101, 102] },
             m_mainWindow := some 0 },
    m_direction := Direction.RedoOnly,
    m_sketchWidgets := [0] }

/-- A delete command for item 4 that carries the local name `VCC` of connector
`connector0`. -/
def deleteRenamed : DeleteItemCommand :=
  { ad := { sim := { base := { m_crossViewType := CrossViewType.CrossView,
                               m_sketchWidget := 0 },
                     m_mainWindow := some 0 },
            m_moduleID := "chip", m_itemID := 4,
            m_viewGeometry :=
              ViewGeometry.mk (QPointF.mk 5 5) (QPointF.mk 0 0) (QPointF.mk 0 0),
            m_modelIndex := 17, m_viewLayerPlacement := 1,
            m_localConnectors := some [("connector0", "VCC")] } }

/-- The item 4 as `addItemForCommand` hands it back: pin labels editable, connector
`connector0` at pointer 55, info graphics view 3. -/
def readdedItem4 : ItemBase :=
  { m_id := 4, m_modelPartProperties := some [("editable pin labels", "true")],
    m_connectors := [("connector0", 55)], m_infoGraphicsView := some 3 }


/-- A connector with shared data `threePinShared` that was renamed to `old label`. -/
def renamedConnector : Connector :=
  { m_connectorShared := some threePinShared, m_connectorLocalName := "old label" }


/-- The command `addResistor` with the scope `SingleView`. -/
def addResistorSingleView : AddItemCommand :=
  { addResistor with ad := { addResistor.ad with sim := { addResistor.ad.sim with
      base := addResistor.ad.sim.base.setCrossViewType CrossViewType.SingleView } } }

/-- A curve change for bendpoint 1 of the leg `pin0` of item 4, from a straight segment
to a curve, on widget 0 with main window 0, after `setRedoOnly()`. -/
def legCurveRedoOnly : ChangeLegCurveCommand :=
  { sim := { base := baseOnWidget0.setRedoOnly, m_mainWindow := some 0 },
    m_fromID := 4, m_fromConnectorID := "pin0", m_index := 1,
    m_oldBezier := none,
    m_newBezier := some (Bezier.mk (QPointF.mk 1 2) (QPointF.mk 3 4)) }

/-- The command `noteGrow` with the display text `Edit note`. -/
def noteGrowTitled : ChangeNoteTextCommand :=
  { noteGrow with base := { noteGrow.base with m_text := "Edit note" } }

/-- The command `noteGrowMore` with the display text `Resize note`. -/
def noteGrowMoreTitled : ChangeNoteTextCommand :=
  { noteGrowMore with base := { noteGrowMore.base with m_text := "Resize note" } }

/-- An increment-label command for item 4 on widget 0 after `setSkipFirstRedo()`. -/
def incLabel4Skip : IncLabelTextCommand :=
  IncLabelTextCommand.setSkipFirstRedo
    { base := { m_crossViewType := CrossViewType.CrossView, m_sketchWidget := 0 },
      m_itemID := 4 }


/-- Lookups for the examples: every widget sits in main window 0, a layer is placed on
side 1, and the wire module is called `WireModuleID`. -/
def exampleLookups : SketchLookups :=
  { mainWindowOf := fun _ => some 0, specFromID := fun _ => 1,
    wireModuleIDName := "WireModuleID" }

/-- A store in which nothing is allocated and the next pointer is 100. -/
def emptyStoreAt100 : CommandStore := { heap := fun _ => none, next := 100 }

/-- The wire 12: blue, opacity 1, width 2, nothing connected to either end. -/
def wire12 : Wire :=
  { m_id := 12, m_colorString := "blue", m_opacity := 1, m_width := 2,
    m_connected0 := [], m_connected1 := [], m_viewLayerID := 5, m_viewLayerPlacement := 1,
    m_viewGeometry := ViewGeometry.mk (QPointF.mk 1 1) (QPointF.mk 0 0) (QPointF.mk 9 9),
    m_modelIndex := 30 }

/-- A routing status with 3 nets of which `routed` are routed. -/
def routingStatusOf (routed : Int) : RoutingStatus :=
  { m_netCount := 3, m_netRoutedCount := routed, m_connectorsLeftToRoute := 0,
    m_jumperItemCount := 0 }


/-- The item 4 handed back with a model part that has no `editable pin labels`
property. -/
def readdedItem4Fixed : ItemBase :=
  { readdedItem4 with m_modelPartProperties := some [] }


/-- C3: `connectionIsAllowed` is symmetric for every pair of connectors, with or
without shared data. -/
theorem connectionIsAllowed_symm (a b : Connector) :
    a.connectionIsAllowed b = b.connectionIsAllowed a := by
  unfold Connector.connectionIsAllowed
  generalize a.connectorType = ta
  generalize b.connectorType = tb
  cases ta <;> cases tb <;> rfl

/-- C4: `connectionIsAllowed` holds exactly when neither type is `Unknown` and at
least one type is `Wire` or the two types differ; `Unknown`-`Unknown`, `Male`-`Male`,
`Female`-`Female` and `Pad`-`Pad` are refused and `Wire`-`Wire` is allowed. -/
theorem connectionIsAllowed_iff (a b : Connector) :
    (a.connectionIsAllowed b = true ↔
      (a.connectorType ≠ ConnectorType.Unknown ∧ b.connectorType ≠ ConnectorType.Unknown ∧
        (a.connectorType = ConnectorType.Wire ∨ b.connectorType = ConnectorType.Wire ∨
          a.connectorType ≠ b.connectorType))) ∧
    (a.connectorType = b.connectorType →
      (a.connectionIsAllowed b = true ↔ a.connectorType = ConnectorType.Wire)) ∧
    (a.m_connectorShared = none → a.connectionIsAllowed b = false ∧
      b.connectionIsAllowed a = false) := by
  unfold Connector.connectionIsAllowed
  refine ⟨?_, ?_, ?_⟩
  · generalize a.connectorType = ta
    generalize b.connectorType = tb
    cases ta <;> cases tb <;> simp
  · generalize a.connectorType = ta
    generalize b.connectorType = tb
    intro hab
    subst hab
    cases ta <;> simp
  · intro hnone
    have hU : a.connectorType = ConnectorType.Unknown := by
      simp [Connector.connectorType, hnone]
    rw [hU]
    generalize b.connectorType = tb
    cases tb <;> simp

/-! ## Theorems: the connection graph -/

section Graph

theorem toConnectors_setToConnectors (h : ConnectorHeap) (p k : Nat) (l : List Nat) :
    (h.setToConnectors p l).toConnectors k = if k = p then l else h.toConnectors k := by
  unfold ConnectorHeap.setToConnectors ConnectorHeap.toConnectors
  by_cases hk : k = p <;> simp [hk]

theorem shared_setToConnectors (h : ConnectorHeap) (p k : Nat) (l : List Nat) :
    (h.setToConnectors p l k).m_connectorShared = (h k).m_connectorShared := by
  unfold ConnectorHeap.setToConnectors
  by_cases hk : k = p <;> simp [hk]

theorem frame_setToConnectors (h : ConnectorHeap) (p k : Nat) (l : List Nat) :
    (h.setToConnectors p l k).frame = (h k).frame := by
  unfold ConnectorHeap.setToConnectors Connector.frame
  by_cases hk : k = p <;> simp [hk]

/-- Two heaps are equal when every object has the same list and the same other
members. -/
theorem heap_ext (h1 h2 : ConnectorHeap)
    (hs : ∀ k, (h1 k).frame = (h2 k).frame)
    (hl : ∀ k, h1.toConnectors k = h2.toConnectors k) : h1 = h2 := by
  funext k
  have e1 := hs k
  have e2 := hl k
  unfold ConnectorHeap.toConnectors at e2
  unfold Connector.frame at e1
  cases hk1 : h1 k
  cases hk2 : h2 k
  simp_all

/-- Setting a list to the value it already has changes nothing. -/
theorem setToConnectors_self (h : ConnectorHeap) (p : Nat) :
    h.setToConnectors p (h.toConnectors p) = h := by
  apply heap_ext
  · intro k
    exact frame_setToConnectors h p k _
  · intro k
    rw [toConnectors_setToConnectors]
    by_cases hk : k = p <;> simp [hk]

/-- The lists after `connectTo`, in closed form. -/
theorem toConnectors_connectTo (h : ConnectorHeap) (a b k : Nat) :
    (Connector.connectTo h a b).toConnectors k =
      if k = a then
        (if b ∈ h.toConnectors a then h.toConnectors a else h.toConnectors a ++ [b])
      else if k = b then
        (if a ∈ h.toConnectors b then h.toConnectors b else h.toConnectors b ++ [a])
      else h.toConnectors k := by
  unfold Connector.connectTo
  by_cases hab : a = b
  · subst hab
    by_cases hm : a ∈ h.toConnectors a <;> by_cases hk : k = a <;>
      simp [hm, hk, toConnectors_setToConnectors]
  · have hba : ¬ b = a := fun e => hab e.symm
    by_cases hm : b ∈ h.toConnectors a <;> by_cases hm2 : a ∈ h.toConnectors b <;>
      by_cases hk : k = a <;> by_cases hk2 : k = b <;>
      simp_all [toConnectors_setToConnectors]

theorem shared_connectTo (h : ConnectorHeap) (a b k : Nat) :
    (Connector.connectTo h a b k).m_connectorShared = (h k).m_connectorShared := by
  unfold Connector.connectTo
  split_ifs <;> simp [shared_setToConnectors]

theorem shared_disconnectFrom (h : ConnectorHeap) (a b k : Nat) :
    (Connector.disconnectFrom h a b k).m_connectorShared = (h k).m_connectorShared := by
  unfold Connector.disconnectFrom
  simp [shared_setToConnectors]

theorem frame_connectTo (h : ConnectorHeap) (a b k : Nat) :
    (Connector.connectTo h a b k).frame = (h k).frame := by
  unfold Connector.connectTo
  split_ifs <;> simp [frame_setToConnectors]

theorem frame_disconnectFrom (h : ConnectorHeap) (a b k : Nat) :
    (Connector.disconnectFrom h a b k).frame = (h k).frame := by
  unfold Connector.disconnectFrom
  simp [frame_setToConnectors]

/-- The lists after `disconnectFrom`, in closed form. -/
theorem toConnectors_disconnectFrom (h : ConnectorHeap) (a b k : Nat) :
    (Connector.disconnectFrom h a b).toConnectors k =
      if k = b then
        ((if b = a then (h.toConnectors a).erase b else h.toConnectors b).erase a)
      else if k = a then (h.toConnectors a).erase b
      else h.toConnectors k := by
  unfold Connector.disconnectFrom
  simp only [toConnectors_setToConnectors]

theorem mem_connectTo (h : ConnectorHeap) (a b k x : Nat) :
    x ∈ (Connector.connectTo h a b).toConnectors k ↔
      x ∈ h.toConnectors k ∨ (k = a ∧ x = b) ∨ (k = b ∧ x = a) := by
  rw [toConnectors_connectTo]
  split_ifs with h1 h2 h3 h4 <;> simp_all <;> aesop

theorem nodup_connectTo (h : ConnectorHeap) (a b k : Nat)
    (hn : (h.toConnectors k).Nodup) : ((Connector.connectTo h a b).toConnectors k).Nodup := by
  rw [toConnectors_connectTo]
  split_ifs with h1 h2 h3 h4
  · exact h1 ▸ hn
  · subst h1
    exact List.Nodup.append hn (List.nodup_singleton b) (by simpa using h2)
  · exact h3 ▸ hn
  · subst h3
    exact List.Nodup.append hn (List.nodup_singleton a) (by simpa using h4)
  · exact hn

theorem nodup_disconnectFrom (h : ConnectorHeap) (a b k : Nat)
    (hn : ∀ p, (h.toConnectors p).Nodup) :
    ((Connector.disconnectFrom h a b).toConnectors k).Nodup := by
  rw [toConnectors_disconnectFrom]
  split_ifs
  · exact ((hn a).erase b).erase a
  · exact (hn b).erase a
  · exact (hn a).erase b
  · exact hn k

theorem mem_disconnectFrom (h : ConnectorHeap) (a b k x : Nat)
    (hn : ∀ p, (h.toConnectors p).Nodup) :
    x ∈ (Connector.disconnectFrom h a b).toConnectors k ↔
      x ∈ h.toConnectors k ∧ ¬ (k = a ∧ x = b) ∧ ¬ (k = b ∧ x = a) := by
  rw [toConnectors_disconnectFrom]
  split_ifs with h1 h2 h3
  · subst h1
    subst h2
    rw [((hn k).erase k).mem_erase_iff, (hn k).mem_erase_iff]
    tauto
  · subst h1
    rw [(hn k).mem_erase_iff]
    have : ¬ k = a := h2
    tauto
  · subst h3
    rw [(hn k).mem_erase_iff]
    tauto
  · tauto

theorem graphInv_freshHeap (shared : Nat → Option ConnectorShared) :
    GraphInv (freshHeap shared) := by
  constructor
  · intro a b
    simp [freshHeap, ConnectorHeap.toConnectors]
  · intro a
    simp [freshHeap, ConnectorHeap.toConnectors]

theorem graphInv_connectTo (h : ConnectorHeap) (a b : Nat) (hi : GraphInv h) :
    GraphInv (Connector.connectTo h a b) := by
  obtain ⟨hs, hn⟩ := hi
  constructor
  · intro x y
    rw [mem_connectTo, mem_connectTo, hs x y]
    tauto
  · intro x
    exact nodup_connectTo h a b x (hn x)

theorem graphInv_disconnectFrom (h : ConnectorHeap) (a b : Nat) (hi : GraphInv h) :
    GraphInv (Connector.disconnectFrom h a b) := by
  obtain ⟨hs, hn⟩ := hi
  constructor
  · intro x y
    rw [mem_disconnectFrom h a b x y hn, mem_disconnectFrom h a b y x hn, hs x y]
    tauto
  · intro x
    exact nodup_disconnectFrom h a b x hn

theorem graphInv_foldl (ops : List GraphOp) (h : ConnectorHeap) (hi : GraphInv h) :
    GraphInv (ops.foldl GraphOp.apply h) := by
  induction ops generalizing h with
  | nil => exact hi
  | cons op rest ih =>
    rw [List.foldl_cons]
    apply ih
    cases op with
    | connectTo a b => exact graphInv_connectTo h a b hi
    | disconnectFrom a b => exact graphInv_disconnectFrom h a b hi

/-- Every heap reached from fresh connectors satisfies the graph invariant. -/
theorem graphInv_runOps (shared : Nat → Option ConnectorShared) (ops : List GraphOp) :
    GraphInv (runOps shared ops) :=
  graphInv_foldl ops _ (graphInv_freshHeap shared)

/-- Disconnecting two connectors that are not linked leaves the heap as it is. -/
theorem disconnectFrom_eq_self (h : ConnectorHeap) (a b : Nat) (hi : GraphInv h)
    (hnot : b ∉ h.toConnectors a) : Connector.disconnectFrom h a b = h := by
  have hnot2 : a ∉ h.toConnectors b := fun hm => hnot ((hi.1 a b).2 hm)
  apply heap_ext
  · intro k
    exact frame_disconnectFrom h a b k
  · intro k
    rw [toConnectors_disconnectFrom]
    split_ifs with h1 h2 h3
    · subst h1
      subst h2
      rw [List.erase_of_not_mem hnot, List.erase_of_not_mem hnot]
    · subst h1
      rw [List.erase_of_not_mem hnot2]
    · subst h3
      rw [List.erase_of_not_mem hnot]
    · rfl

/-- C5: in every heap reached from empty adjacency lists by `connectTo` and
`disconnectFrom` calls the links are symmetric: `b` is in the list of `a` exactly when
`a` is in the list of `b`. -/
theorem links_symmetric (shared : Nat → Option ConnectorShared) (ops : List GraphOp)
    (a b : Nat) :
    b ∈ (runOps shared ops).toConnectors a ↔ a ∈ (runOps shared ops).toConnectors b :=
  (graphInv_runOps shared ops).1 a b

/-- C6: from any heap, whatever the connector types, after `a.connectTo(b)` the list
of `a` contains `b` and the list of `b` contains `a`
(also when `connectionIsAllowed` is false), and a second `a.connectTo(b)` leaves the
whole heap unchanged. -/
theorem connectTo_links_idempotent (h : ConnectorHeap) (a b : Nat) :
    b ∈ (Connector.connectTo h a b).toConnectors a ∧
    a ∈ (Connector.connectTo h a b).toConnectors b ∧
    Connector.connectTo (Connector.connectTo h a b) a b = Connector.connectTo h a b := by
  have hb : b ∈ (Connector.connectTo h a b).toConnectors a := by
    rw [mem_connectTo]; exact Or.inr (Or.inl ⟨rfl, rfl⟩)
  have ha : a ∈ (Connector.connectTo h a b).toConnectors b := by
    rw [mem_connectTo]; exact Or.inr (Or.inr ⟨rfl, rfl⟩)
  refine ⟨hb, ha, ?_⟩
  apply heap_ext
  · intro k
    exact frame_connectTo _ a b k
  · intro k
    rw [toConnectors_connectTo (Connector.connectTo h a b) a b k]
    simp only [hb, ha, if_true]
    split_ifs with h1 h2
    · rw [h1]
    · rw [h2]
    · rfl

/-- C7: in every heap reached from empty adjacency lists, after `a.disconnectFrom(b)`
neither list contains the other connector; when `a` and `b` were not linked the call
changes nothing; and a second `a.disconnectFrom(b)` changes nothing. -/
theorem disconnectFrom_unlinks_idempotent (shared : Nat → Option ConnectorShared)
    (ops : List GraphOp) (a b : Nat) :
    b ∉ (Connector.disconnectFrom (runOps shared ops) a b).toConnectors a ∧
    a ∉ (Connector.disconnectFrom (runOps shared ops) a b).toConnectors b ∧
    (b ∉ (runOps shared ops).toConnectors a →
      Connector.disconnectFrom (runOps shared ops) a b = runOps shared ops) ∧
    Connector.disconnectFrom (Connector.disconnectFrom (runOps shared ops) a b) a b =
      Connector.disconnectFrom (runOps shared ops) a b := by
  have hi := graphInv_runOps shared ops
  have hb : b ∉ (Connector.disconnectFrom (runOps shared ops) a b).toConnectors a := by
    rw [mem_disconnectFrom _ a b a b hi.2]
    tauto
  have ha : a ∉ (Connector.disconnectFrom (runOps shared ops) a b).toConnectors b := by
    rw [mem_disconnectFrom _ a b b a hi.2]
    tauto
  exact ⟨hb, ha, fun hnot => disconnectFrom_eq_self _ a b hi hnot,
    disconnectFrom_eq_self _ a b (graphInv_disconnectFrom _ a b hi) hb⟩

/-- C8: in every heap reached from empty adjacency lists by `connectTo` and
`disconnectFrom` calls, self-connections included, no list holds the same connector
more than once. -/
theorem no_multi_edge (shared : Nat → Option ConnectorShared) (ops : List GraphOp)
    (a c : Nat) : ((runOps shared ops).toConnectors a).count c ≤ 1 :=
  List.nodup_iff_count_le_one.1 ((graphInv_runOps shared ops).2 a) c

/-- A self-connection `a.connectTo(a)` stores `a` once; disconnecting it empties the list. -/
theorem self_connection_example :
    (runOps (fun _ => none) [GraphOp.connectTo 1 1]).toConnectors 1 = [1] ∧
    (runOps (fun _ => none) [GraphOp.connectTo 1 1, GraphOp.connectTo 1 1]).toConnectors 1
      = [1] ∧
    (runOps (fun _ => none)
      [GraphOp.connectTo 1 1, GraphOp.disconnectFrom 1 1]).toConnectors 1 = [] ∧
    (runOps (fun _ => none)
      [GraphOp.connectTo 1 2, GraphOp.connectTo 2 1, GraphOp.connectTo 1 3]).toConnectors 1
      = [2, 3] := by
  decide

end Graph

/-! ## Theorems: sub-command order -/

section SubCommands

theorem foldl_addSubCommand_commands (subs : List Nat) (c : BaseCommand) :
    (subs.foldl BaseCommand.addSubCommand c).m_commands = c.m_commands ++ subs := by
  induction subs generalizing c with
  | nil => simp
  | cons s rest ih =>
    rw [List.foldl_cons, ih]
    simp [BaseCommand.addSubCommand]

theorem foldl_recordRedo (cmds : List Nat) (log : List Invocation) :
    cmds.foldl (fun acc command => recordRedo command acc) log
      = log ++ cmds.map Invocation.redo := by
  induction cmds generalizing log with
  | nil => simp
  | cons c rest ih =>
    rw [List.foldl_cons, ih]
    simp [recordRedo]

/-- The downward loop over the first `n` entries calls `undo` on them last to first. -/
theorem subUndoLoop_recordUndo (cmds : List Nat) (n : Nat) (hn : n ≤ cmds.length)
    (log : List Invocation) :
    BaseCommand.subUndoLoop recordUndo cmds n log
      = log ++ ((cmds.take n).reverse.map Invocation.undo) := by
  induction n generalizing log with
  | zero => simp [BaseCommand.subUndoLoop]
  | succ i ih =>
    have hi : i < cmds.length := hn
    rw [BaseCommand.subUndoLoop, List.getElem?_eq_getElem hi]
    simp only []
    rw [ih (Nat.le_of_lt hi), List.take_succ, List.getElem?_eq_getElem hi]
    simp only [recordUndo, Option.toList, List.reverse_append, List.reverse_cons,
      List.reverse_nil, List.nil_append, List.map_append, List.map_cons, List.map_nil,
      List.append_assoc, List.singleton_append]

/-- C1: when the sub-commands `s1, ..., sn` were added with `addSubCommand` in that
order, `subRedo()` calls `redo()` on `s1, ..., sn` in that order, each once, and
`subUndo()` calls `undo()` on `sn, ..., s1`, each once. -/
theorem subRedo_subUndo_order (c : BaseCommand) (hc : c.m_commands = []) (subs : List Nat)
    (log : List Invocation) :
    BaseCommand.subRedo recordRedo (subs.foldl BaseCommand.addSubCommand c) log
      = log ++ subs.map Invocation.redo ∧
    BaseCommand.subUndo recordUndo (subs.foldl BaseCommand.addSubCommand c) log
      = log ++ subs.reverse.map Invocation.undo := by
  have hcmds : (subs.foldl BaseCommand.addSubCommand c).m_commands = subs := by
    rw [foldl_addSubCommand_commands, hc, List.nil_append]
  constructor
  · unfold BaseCommand.subRedo
    rw [hcmds, foldl_recordRedo]
  · unfold BaseCommand.subUndo
    rw [hcmds, subUndoLoop_recordUndo subs subs.length (Nat.le_refl _), List.take_length]

/-- C1, the sub-commands 1, 2, 3: redo order 1, 2, 3 and undo order 3, 2, 1. -/
theorem subRedo_subUndo_order_witness :
    (BaseCommand.mk CrossViewType.SingleView 0 "" false false false []).m_commands = [] ∧
    BaseCommand.subRedo recordRedo
      ([1, 2, 3].foldl BaseCommand.addSubCommand
        (BaseCommand.mk CrossViewType.SingleView 0 "" false false false [])) []
      = [Invocation.redo 1, Invocation.redo 2, Invocation.redo 3] ∧
    BaseCommand.subUndo recordUndo
      ([1, 2, 3].foldl BaseCommand.addSubCommand
        (BaseCommand.mk CrossViewType.SingleView 0 "" false false false [])) []
      = [Invocation.undo 3, Invocation.undo 2, Invocation.undo 1] :=
  ⟨rfl, subRedo_subUndo_order _ rfl [1, 2, 3] []⟩

end SubCommands

/-! ## Theorems: merging -/

section Merge

theorem copyIDs_aux (src acc : List Int) :
    src.foldl (fun acc id => acc ++ [id]) acc = acc ++ src := by
  induction src generalizing acc with
  | nil => simp
  | cons x rest ih =>
    rw [List.foldl_cons, ih]
    simp

/-- Clearing a list and appending every id of another list copies that list. -/
theorem copyIDs_eq (src : List Int) : copyIDs src = src := by
  unfold copyIDs
  rw [copyIDs_aux, List.nil_append]

/-- The result of merging two selection commands of equal scope. -/
theorem selectItem_mergeWith_same_scope (a b : SelectItemCommand)
    (hscope : a.base.crossViewType = b.base.crossViewType) :
    a.mergeWith (UndoCommand.selectItem b) =
      (true,
        { a with
          m_redoIDs := b.m_redoIDs
          base := { a.base with m_text := b.base.m_text } }) := by
  unfold SelectItemCommand.mergeWith
  simp [UndoCommand.id, SelectItemCommand.id, hscope, copyIDs_eq]

/-- C9: for two selection commands `a` (earlier) and `b` (later) of the same propagation
scope, `a.mergeWith(b)` returns true and afterwards the redo-id list of `a` is exactly
the redo-id list of `b`: replaced, not joined with the previous list of `a`. -/
theorem selectItem_merge_replaces_redo (a b : SelectItemCommand)
    (hscope : a.base.crossViewType = b.base.crossViewType) :
    (a.mergeWith (UndoCommand.selectItem b)).1 = true ∧
    (a.mergeWith (UndoCommand.selectItem b)).2.m_redoIDs = b.m_redoIDs := by
  rw [selectItem_mergeWith_same_scope a b hscope]
  exact ⟨rfl, rfl⟩

/-- C9 at redo lists `[1, 2]` (earlier) and `[3]` (later): the merged list is `[3]`. -/
theorem selectItem_merge_replaces_redo_witness :
    ((SelectItemCommand.mk (BaseCommand.mk CrossViewType.CrossView 0 "a" false false false [])
        SelectItemType.NormalSelect [] [1, 2] false).mergeWith
      (UndoCommand.selectItem
        (SelectItemCommand.mk (BaseCommand.mk CrossViewType.CrossView 0 "b" false false false [])
          SelectItemType.NormalSelect [1, 2] [3] false))).1 = true ∧
    ((SelectItemCommand.mk (BaseCommand.mk CrossViewType.CrossView 0 "a" false false false [])
        SelectItemType.NormalSelect [] [1, 2] false).mergeWith
      (UndoCommand.selectItem
        (SelectItemCommand.mk (BaseCommand.mk CrossViewType.CrossView 0 "b" false false false [])
          SelectItemType.NormalSelect [1, 2] [3] false))).2.m_redoIDs = [3] :=
  selectItem_merge_replaces_redo _ _ rfl

/-- The result of merging two note-text commands for the same note. -/
theorem changeNoteText_mergeWith_same_item (a b : ChangeNoteTextCommand)
    (hitem : b.m_itemID = a.m_itemID) :
    a.mergeWith (UndoCommand.changeNoteText b) =
      (true, { a with m_newSize := b.m_newSize, m_newText := b.m_newText }) := by
  unfold ChangeNoteTextCommand.mergeWith
  simp [UndoCommand.id, ChangeNoteTextCommand.id, hitem]

/-- A successful merge of selection commands implies equal scope. -/
theorem selectItem_scope_of_merge (a b : SelectItemCommand)
    (hm : (a.mergeWith (UndoCommand.selectItem b)).1 = true) :
    a.base.crossViewType = b.base.crossViewType := by
  by_contra hne
  have hne2 : ¬ b.base.crossViewType = a.base.crossViewType := fun e => hne e.symm
  unfold SelectItemCommand.mergeWith at hm
  simp [UndoCommand.id, SelectItemCommand.id, hne2] at hm

/-- A successful merge of note-text commands implies the same note. -/
theorem changeNoteText_item_of_merge (a b : ChangeNoteTextCommand)
    (hm : (a.mergeWith (UndoCommand.changeNoteText b)).1 = true) :
    b.m_itemID = a.m_itemID := by
  by_contra hne
  unfold ChangeNoteTextCommand.mergeWith at hm
  simp [UndoCommand.id, ChangeNoteTextCommand.id, hne] at hm

/-- C10, as the code has it: after a successful merge the calls made by `a.redo()` are
those `b.redo()` made before the merge, for selection commands of the same select type
on the same sketch widget, and for note-text commands on the same sketch widget with
equal `m_skipFirstRedo` flags whose resize tests agree: `a.m_oldSize != b.m_newSize` has
the outcome of `b.m_oldSize != b.m_newSize`, under the `!=` of `QSizeF`. -/
theorem merge_redo_law (env : Env) :
    (∀ a b : SelectItemCommand,
      (a.mergeWith (UndoCommand.selectItem b)).1 = true →
      a.m_type = b.m_type →
      a.base.m_sketchWidget = b.base.m_sketchWidget →
      (a.mergeWith (UndoCommand.selectItem b)).2.redo env = b.redo env) ∧
    (∀ a b : ChangeNoteTextCommand,
      (a.mergeWith (UndoCommand.changeNoteText b)).1 = true →
      a.base.m_sketchWidget = b.base.m_sketchWidget →
      a.base.m_skipFirstRedo = b.base.m_skipFirstRedo →
      env.sizesDiffer a.m_oldSize b.m_newSize = env.sizesDiffer b.m_oldSize b.m_newSize →
      ((a.mergeWith (UndoCommand.changeNoteText b)).2.redo env).2 = (b.redo env).2) := by
  constructor
  · intro a b hm htype hw
    have hscope := selectItem_scope_of_merge a b hm
    rw [selectItem_mergeWith_same_scope a b hscope]
    have hscope2 : a.base.m_crossViewType = b.base.m_crossViewType := hscope
    unfold SelectItemCommand.redo SelectItemCommand.selectAllFromStack BaseCommand.redo
    simp only [htype, hw, hscope2]
  · intro a b hm hw hskip hguard
    have hitem := changeNoteText_item_of_merge a b hm
    rw [changeNoteText_mergeWith_same_item a b hitem]
    unfold ChangeNoteTextCommand.redo BaseCommand.redo
    simp only [hw, hskip, ← hitem]
    by_cases hs : b.base.m_skipFirstRedo = true
    · simp [hs]
    · simp [hs, hguard]

/-- C10 at concrete inputs. -/
theorem merge_redo_law_witness :
    (selListed.mergeWith (UndoCommand.selectItem selListedNext)).2.redo (Env.mk true fuzzySizesDiffer)
      = selListedNext.redo (Env.mk true fuzzySizesDiffer) ∧
    ((noteGrow.mergeWith (UndoCommand.changeNoteText noteGrowMore)).2.redo (Env.mk true fuzzySizesDiffer)).2
      = (noteGrowMore.redo (Env.mk true fuzzySizesDiffer)).2 :=
  ⟨(merge_redo_law (Env.mk true fuzzySizesDiffer)).1 selListed selListedNext (by decide) (by decide)
      (by decide),
    (merge_redo_law (Env.mk true fuzzySizesDiffer)).2 noteGrow noteGrowMore (by decide) (by decide)
      (by decide) (by decide)⟩

/-- C10 fails as stated. (1) A select-listed command absorbs a select-all command and
keeps its own type: its `redo()` clears the selection and selects the (empty) list,
where the select-all `redo()` selected everything. (2) A note command that grew the note
absorbs one that shrinks it back: its `redo()` no longer resizes, where the absorbed
`redo()` did. (3) A note command with `m_skipFirstRedo` still set absorbs one without:
its `redo()` makes no call. (4) A selection command absorbs one of another sketch widget:
its `redo()` calls its own widget. -/
theorem merge_redo_law_counterexample :
    ((selListed.mergeWith (UndoCommand.selectItem selAll)).1 = true ∧
      (selListed.mergeWith (UndoCommand.selectItem selAll)).2.redo (Env.mk false fuzzySizesDiffer)
        = [Event.sketch 0 SketchCall.clearSelection] ∧
      selAll.redo (Env.mk false fuzzySizesDiffer)
        = [Event.sketch 0 (SketchCall.selectAllItems true true)]) ∧
    ((noteGrow.mergeWith (UndoCommand.changeNoteText noteShrink)).1 = true ∧
      ((noteGrow.mergeWith (UndoCommand.changeNoteText noteShrink)).2.redo (Env.mk false fuzzySizesDiffer)).2
        = [Event.sketch 0 (SketchCall.setNoteTextForCommand 7 "a")] ∧
      (noteShrink.redo (Env.mk false fuzzySizesDiffer)).2
        = [Event.sketch 0 (SketchCall.setNoteTextForCommand 7 "a"),
           Event.sketch 0 (SketchCall.resizeNoteForCommand 7 (QSizeF.mk 10 10))]) ∧
    ((noteGrowSkip.mergeWith (UndoCommand.changeNoteText noteGrowMore)).1 = true ∧
      ((noteGrowSkip.mergeWith (UndoCommand.changeNoteText noteGrowMore)).2.redo
          (Env.mk false fuzzySizesDiffer)).2 = [] ∧
      (noteGrowMore.redo (Env.mk false fuzzySizesDiffer)).2
        = [Event.sketch 0 (SketchCall.setNoteTextForCommand 7 "abc"),
           Event.sketch 0 (SketchCall.resizeNoteForCommand 7 (QSizeF.mk 30 30))]) ∧
    ((selListed.mergeWith (UndoCommand.selectItem selListedOther)).1 = true ∧
      (selListed.mergeWith (UndoCommand.selectItem selListedOther)).2.redo (Env.mk false fuzzySizesDiffer)
        = [Event.sketch 0 SketchCall.clearSelection,
           Event.sketch 0 (SketchCall.selectItemForCommand 2 true true true)] ∧
      selListedOther.redo (Env.mk false fuzzySizesDiffer)
        = [Event.sketch 1 SketchCall.clearSelection,
           Event.sketch 1 (SketchCall.selectItemForCommand 2 true true true)]) := by
  refine ⟨⟨?_, ?_, ?_⟩, ⟨?_, ?_, ?_⟩, ⟨?_, ?_, ?_⟩, ⟨?_, ?_, ?_⟩⟩ <;> decide

end Merge

/-! ## Theorems: redo followed by undo -/

section RedoUndo

theorem sketchCalls_baseUndo (env : Env) (b : BaseCommand) :
    sketchCalls (BaseCommand.undo env b) = [] := by
  unfold BaseCommand.undo sketchCalls
  split_ifs <;> rfl

theorem sketchCalls_baseRedo (env : Env) (b : BaseCommand) :
    sketchCalls (BaseCommand.redo env b) = [] := by
  unfold BaseCommand.redo sketchCalls
  split_ifs <;> rfl

theorem sketchCalls_append (es fs : List Event) :
    sketchCalls (es ++ fs) = sketchCalls es ++ sketchCalls fs := by
  unfold sketchCalls
  rw [List.filterMap_append]

theorem sketchCalls_cons_sketch (w : Nat) (call : SketchCall) (es : List Event) :
    sketchCalls (Event.sketch w call :: es) = (w, call) :: sketchCalls es := by
  unfold sketchCalls
  rw [List.filterMap_cons]

theorem sketchCalls_simUndo (env : Env) (c : SimulationCommand) :
    sketchCalls (SimulationCommand.undo env c) = [] := by
  unfold SimulationCommand.undo
  rw [sketchCalls_append, sketchCalls_baseUndo]
  cases c.m_mainWindow <;> rfl

theorem sketchCalls_simRedo (env : Env) (c : SimulationCommand) :
    sketchCalls (SimulationCommand.redo env c) = [] := by
  unfold SimulationCommand.redo
  rw [sketchCalls_append, sketchCalls_baseRedo]
  cases c.m_mainWindow <;> rfl

theorem surface_run_nil (rules : SurfaceRules) (w : Nat) (s : Surface) :
    s.run rules w [] = some s := rfl

/-- A `redo()` and an `undo()` that make no call. -/
theorem redoUndo_none_none (rules : SurfaceRules) (w : Nat) (s : Surface)
    (redoTail undoTail : List Event)
    (hr : ∀ t : Surface, t.run rules w redoTail = some t)
    (hu : ∀ t : Surface, t.run rules w undoTail = some t) :
    Surface.redoUndo rules w redoTail undoTail s = some s := by
  unfold Surface.redoUndo
  rw [hr s]
  exact hu s

end RedoUndo


/-! ## Theorems: merging, undo part and rejection -/

section MergeMore

/-- The flag returned by `SelectItemCommand::mergeWith`, in closed form. -/
theorem selectItem_mergeWith_true_iff (a : SelectItemCommand) (other : UndoCommand) :
    (a.mergeWith other).1 = true ↔
      ∃ b, other = UndoCommand.selectItem b ∧ b.base.crossViewType = a.base.crossViewType := by
  unfold SelectItemCommand.mergeWith
  cases other with
  | selectItem b =>
    by_cases hs : b.base.crossViewType = a.base.crossViewType
    · simp [UndoCommand.id, SelectItemCommand.id, hs]
    · simp [UndoCommand.id, SelectItemCommand.id, hs]
  | changeNoteText b =>
    simp [UndoCommand.id, SelectItemCommand.id, ChangeNoteTextCommand.id,
      SelectItemCommand.selectItemCommandID, ChangeNoteTextCommand.changeNoteTextCommandID]
  | otherClass id =>
    by_cases hid : id = a.id <;> simp [UndoCommand.id, hid]

/-- A refused merge leaves the selection command as it was. -/
theorem selectItem_mergeWith_false (a : SelectItemCommand) (other : UndoCommand)
    (hf : (a.mergeWith other).1 = false) : (a.mergeWith other).2 = a := by
  unfold SelectItemCommand.mergeWith at hf ⊢
  cases other with
  | selectItem b =>
    by_cases hs : b.base.crossViewType = a.base.crossViewType
    · simp [UndoCommand.id, SelectItemCommand.id, hs] at hf
    · simp [UndoCommand.id, SelectItemCommand.id, hs]
  | changeNoteText b =>
    simp [UndoCommand.id, SelectItemCommand.id, ChangeNoteTextCommand.id,
      SelectItemCommand.selectItemCommandID, ChangeNoteTextCommand.changeNoteTextCommandID]
  | otherClass id =>
    by_cases hid : id = a.id <;> simp [UndoCommand.id, hid]

/-- The flag returned by `ChangeNoteTextCommand::mergeWith`, in closed form. -/
theorem changeNoteText_mergeWith_true_iff (a : ChangeNoteTextCommand) (other : UndoCommand) :
    (a.mergeWith other).1 = true ↔
      ∃ b, other = UndoCommand.changeNoteText b ∧ b.m_itemID = a.m_itemID := by
  unfold ChangeNoteTextCommand.mergeWith
  cases other with
  | selectItem b =>
    simp [UndoCommand.id, SelectItemCommand.id, ChangeNoteTextCommand.id,
      SelectItemCommand.selectItemCommandID, ChangeNoteTextCommand.changeNoteTextCommandID]
  | changeNoteText b =>
    by_cases hs : b.m_itemID = a.m_itemID
    · simp [UndoCommand.id, ChangeNoteTextCommand.id, hs]
    · simp [UndoCommand.id, ChangeNoteTextCommand.id, hs]
  | otherClass id =>
    by_cases hid : id = a.id <;> simp [UndoCommand.id, hid]

/-- A refused merge leaves the note-text command as it was. -/
theorem changeNoteText_mergeWith_false (a : ChangeNoteTextCommand) (other : UndoCommand)
    (hf : (a.mergeWith other).1 = false) : (a.mergeWith other).2 = a := by
  unfold ChangeNoteTextCommand.mergeWith at hf ⊢
  cases other with
  | selectItem b =>
    simp [UndoCommand.id, SelectItemCommand.id, ChangeNoteTextCommand.id,
      SelectItemCommand.selectItemCommandID, ChangeNoteTextCommand.changeNoteTextCommandID]
  | changeNoteText b =>
    by_cases hs : b.m_itemID = a.m_itemID
    · simp [UndoCommand.id, ChangeNoteTextCommand.id, hs] at hf
    · simp [UndoCommand.id, ChangeNoteTextCommand.id, hs]
  | otherClass id =>
    by_cases hid : id = a.id <;> simp [UndoCommand.id, hid]

/-- C12, as the code has it: `mergeWith` never faults and refuses (returning false and
leaving the receiver as it was) whenever the other command has a different `id()` or is of
another class. A selection command accepts exactly the selection commands of its own
propagation scope; it has no target item and compares no id list. A note-text command
accepts exactly the note-text commands for its own note; it does not compare scopes. -/
theorem mergeWith_accepts_iff :
    (∀ (a : SelectItemCommand) (other : UndoCommand),
      ((a.mergeWith other).1 = true ↔
        ∃ b, other = UndoCommand.selectItem b ∧
          b.base.crossViewType = a.base.crossViewType) ∧
      ((a.mergeWith other).1 = false → (a.mergeWith other).2 = a) ∧
      (other.id ≠ a.id → (a.mergeWith other).1 = false)) ∧
    (∀ (a : ChangeNoteTextCommand) (other : UndoCommand),
      ((a.mergeWith other).1 = true ↔
        ∃ b, other = UndoCommand.changeNoteText b ∧ b.m_itemID = a.m_itemID) ∧
      ((a.mergeWith other).1 = false → (a.mergeWith other).2 = a) ∧
      (other.id ≠ a.id → (a.mergeWith other).1 = false)) := by
  constructor
  · intro a other
    refine ⟨selectItem_mergeWith_true_iff a other, selectItem_mergeWith_false a other, ?_⟩
    intro hid
    unfold SelectItemCommand.mergeWith
    simp [hid]
  · intro a other
    refine ⟨changeNoteText_mergeWith_true_iff a other,
      changeNoteText_mergeWith_false a other, ?_⟩
    intro hid
    unfold ChangeNoteTextCommand.mergeWith
    simp [hid]

/-- C12 at concrete inputs: a selection command refuses a note-text command (other
kind) and a selection command of the other scope, a note-text command refuses one for
another note; each time the receiver is unchanged. -/
theorem mergeWith_accepts_iff_witness :
    (selListed.mergeWith (UndoCommand.changeNoteText noteGrow)).1 = false ∧
    (selListed.mergeWith (UndoCommand.changeNoteText noteGrow)).2 = selListed ∧
    (selListed.mergeWith (UndoCommand.selectItem
      { selListedNext with
        base := selListedNext.base.setCrossViewType CrossViewType.SingleView })).2
      = selListed ∧
    (noteGrow.mergeWith (UndoCommand.changeNoteText
      { noteGrowMore with m_itemID := 8 })).2 = noteGrow :=
  ⟨(mergeWith_accepts_iff.1 selListed (UndoCommand.changeNoteText noteGrow)).2.2
      (by decide),
    (mergeWith_accepts_iff.1 selListed (UndoCommand.changeNoteText noteGrow)).2.1
      (by decide),
    (mergeWith_accepts_iff.1 selListed _).2.1 (by decide),
    (mergeWith_accepts_iff.2 noteGrow _).2.1 (by decide)⟩

/-- C12 fails as stated. (1) A note-text command of scope `CrossView` absorbs a note-text
command of scope `SingleView` for the same note: the scopes are not compared. (2) A
selection command whose redo list addresses item 1 absorbs one that addresses item 2:
there is no subject to compare. -/
theorem mergeWith_accepts_counterexample :
    (noteGrow.base.crossViewType = CrossViewType.CrossView ∧
      noteGrowMoreSingleView.base.crossViewType = CrossViewType.SingleView ∧
      (noteGrow.mergeWith (UndoCommand.changeNoteText noteGrowMoreSingleView)).1 = true) ∧
    (selListed.m_redoIDs = [1] ∧ selListedNext.m_redoIDs = [2] ∧
      (selListed.mergeWith (UndoCommand.selectItem selListedNext)).1 = true) := by
  refine ⟨⟨?_, ?_, ?_⟩, ?_, ?_, ?_⟩ <;> decide

/-- On two selection commands `mergeWith` returns false and leaves `a` unchanged exactly
when the propagation scopes differ; when they are equal it returns true and the redo-id
list of `a` becomes that of `b`. The select types are not looked at. -/
theorem selectItem_merge_by_scope (a b : SelectItemCommand) :
    ((a.mergeWith (UndoCommand.selectItem b)).1 = true ↔
      a.base.crossViewType = b.base.crossViewType) ∧
    (a.base.crossViewType ≠ b.base.crossViewType →
      a.mergeWith (UndoCommand.selectItem b) = (false, a)) ∧
    (a.base.crossViewType = b.base.crossViewType →
      (a.mergeWith (UndoCommand.selectItem b)).2.m_redoIDs = b.m_redoIDs) := by
  refine ⟨?_, ?_, ?_⟩
  · constructor
    · exact selectItem_scope_of_merge a b
    · intro hs
      rw [selectItem_mergeWith_same_scope a b hs]
  · intro hne
    have hne2 : ¬ b.base.crossViewType = a.base.crossViewType := fun e => hne e.symm
    unfold SelectItemCommand.mergeWith
    simp [UndoCommand.id, SelectItemCommand.id, hne2]
  · intro hs
    rw [selectItem_mergeWith_same_scope a b hs]

/-- C13: `SelectItemCommand::mergeWith` never reads `m_type`. The select-listed
command `selListed` absorbs the select-all command `selAll`: the call returns true, the
receiver takes over the empty redo-id list and the text `Select All` and keeps its own
type, so that its `redo()` clears the selection where `selAll.redo()` selects
everything. The select-all command absorbs the deselect-all command `deselAll` in the
same way. For any two selection commands of equal scope the call returns true and the
receiver keeps its type. -/
theorem selectAll_merge_failing_input :
    (selListed.m_type = SelectItemType.NormalSelect ∧
      selAll.m_type = SelectItemType.SelectAll ∧
      selListed.mergeWith (UndoCommand.selectItem selAll) =
        (true, { selListed with
          m_redoIDs := []
          base := { selListed.base with m_text := "Select All" } }) ∧
      (selListed.mergeWith (UndoCommand.selectItem selAll)).2.redo
          (Env.mk false fuzzySizesDiffer)
        = [Event.sketch 0 SketchCall.clearSelection] ∧
      selAll.redo (Env.mk false fuzzySizesDiffer)
        = [Event.sketch 0 (SketchCall.selectAllItems true true)]) ∧
    (deselAll.m_type = SelectItemType.DeselectAll ∧
      (selAll.mergeWith (UndoCommand.selectItem deselAll)).1 = true ∧
      (selAll.mergeWith (UndoCommand.selectItem deselAll)).2.m_type
        = SelectItemType.SelectAll ∧
      (selAll.mergeWith (UndoCommand.selectItem deselAll)).2.base.m_text
        = "Deselect All" ∧
      (selAll.mergeWith (UndoCommand.selectItem deselAll)).2.redo
          (Env.mk false fuzzySizesDiffer)
        = [Event.sketch 0 (SketchCall.selectAllItems true true)] ∧
      deselAll.redo (Env.mk false fuzzySizesDiffer)
        = [Event.sketch 0 (SketchCall.selectAllItems false true)]) ∧
    (∀ a b : SelectItemCommand, a.base.crossViewType = b.base.crossViewType →
      (a.mergeWith (UndoCommand.selectItem b)).1 = true ∧
      (a.mergeWith (UndoCommand.selectItem b)).2.m_type = a.m_type) := by
  refine ⟨⟨?_, ?_, ?_, ?_, ?_⟩, ⟨?_, ?_, ?_, ?_, ?_, ?_⟩, ?_⟩
  · decide
  · decide
  · decide
  · decide
  · decide
  · decide
  · decide
  · decide
  · decide
  · decide
  · decide
  · intro a b hs
    rw [selectItem_mergeWith_same_scope a b hs]
    exact ⟨rfl, rfl⟩

end MergeMore

/-! ## Theorems: disabling a connection change -/

section Disable

/-- C14: after `disable()` a connection-change command makes no call at all on
`undo()` and `redo()`: no `changeConnection`, no simulator trigger, no progress signal;
neither method changes the command, so this holds for every later call. While enabled,
`redo()` makes exactly one call on the sketch widget, `changeConnection` with the stored
endpoints and the stored connect flag, and `undo()` exactly one with the same endpoints
and the negated flag. -/
theorem changeConnection_disable (env : Env) (c : ChangeConnectionCommand) :
    (c.disable.undo env = [] ∧ c.disable.redo env = []) ∧
    (c.m_enabled = true →
      sketchCalls (c.redo env) =
        [(c.sim.base.m_sketchWidget,
          SketchCall.changeConnection c.m_fromID c.m_fromConnectorID c.m_toID
            c.m_toConnectorID c.m_viewLayerPlacement c.m_connect
            (decide (c.sim.base.m_crossViewType = CrossViewType.CrossView))
            c.m_updateConnections)] ∧
      sketchCalls (c.undo env) =
        [(c.sim.base.m_sketchWidget,
          SketchCall.changeConnection c.m_fromID c.m_fromConnectorID c.m_toID
            c.m_toConnectorID c.m_viewLayerPlacement (!c.m_connect)
            (decide (c.sim.base.m_crossViewType = CrossViewType.CrossView))
            c.m_updateConnections)]) := by
  refine ⟨⟨?_, ?_⟩, ?_⟩
  · simp [ChangeConnectionCommand.undo, ChangeConnectionCommand.disable]
  · simp [ChangeConnectionCommand.redo, ChangeConnectionCommand.disable]
  · intro he
    unfold ChangeConnectionCommand.redo ChangeConnectionCommand.undo
    simp only [he, if_true, sketchCalls_cons_sketch, sketchCalls_simRedo,
      sketchCalls_simUndo, and_self]

/-- C14 at a concrete command: connecting `pin0` of item 4 to `pin1` of item 9. -/
theorem changeConnection_disable_witness :
    connect4to9.m_enabled = true ∧
    (connect4to9.disable.undo (Env.mk true fuzzySizesDiffer) = [] ∧
      connect4to9.disable.redo (Env.mk true fuzzySizesDiffer) = []) ∧
    sketchCalls (connect4to9.redo (Env.mk true fuzzySizesDiffer)) =
      [(0, SketchCall.changeConnection 4 "pin0" 9 "pin1" 1 true true true)] ∧
    sketchCalls (connect4to9.undo (Env.mk true fuzzySizesDiffer)) =
      [(0, SketchCall.changeConnection 4 "pin0" 9 "pin1" 1 false true true)] :=
  ⟨by decide, (changeConnection_disable (Env.mk true fuzzySizesDiffer) connect4to9).1,
    (changeConnection_disable (Env.mk true fuzzySizesDiffer) connect4to9).2 (by decide)⟩

end Disable


/-! ## Theorems: skipping the first redo, bendpoint counts -/

section SkipFirstRedo

/-- With the flag clear, `AddItemCommand::redo()` leaves the command as it is and makes
the one `addItemForCommand` call. -/
theorem addItem_redo_flag_clear (env : Env) (c : AddItemCommand)
    (h : c.skipFirstRedo = false) :
    (c.redo env).1 = c ∧
    sketchCalls (c.redo env).2 =
      [(c.ad.sim.base.m_sketchWidget,
        SketchCall.addItemForCommand c.ad.m_moduleID c.ad.m_viewLayerPlacement
          c.ad.sim.base.m_crossViewType c.ad.m_viewGeometry c.ad.m_itemID
          c.ad.m_modelIndex)] := by
  unfold AddItemCommand.skipFirstRedo at h
  constructor
  · unfold AddItemCommand.redo
    simp only [← h]
  · unfold AddItemCommand.redo AddDeleteItemCommand.addItemCall
    simp only [h, Bool.not_false, if_true, List.singleton_append, sketchCalls_cons_sketch,
      sketchCalls_simRedo]

/-- With the flag set, `AddItemCommand::redo()` makes no call on the sketch widget and
clears the flag, changing nothing else. -/
theorem addItem_redo_flag_set (env : Env) (c : AddItemCommand) :
    sketchCalls (c.setSkipFirstRedo.redo env).2 = [] ∧
    (c.setSkipFirstRedo.redo env).1.skipFirstRedo = false ∧
    (c.setSkipFirstRedo.redo env).1.ad.addItemCall = c.ad.addItemCall := by
  unfold AddItemCommand.redo AddItemCommand.setSkipFirstRedo BaseCommand.setSkipFirstRedo
    AddItemCommand.skipFirstRedo
  refine ⟨?_, rfl, rfl⟩
  simp only [Bool.not_true, Bool.false_eq_true, if_false, List.nil_append,
    sketchCalls_simRedo]

theorem addItem_redoCalls_flag_clear (env : Env) (n : Nat) (c : AddItemCommand)
    (h : c.skipFirstRedo = false) :
    (AddItemCommand.redoCalls env n c).map sketchCalls =
      List.replicate n
        [(c.ad.sim.base.m_sketchWidget,
          SketchCall.addItemForCommand c.ad.m_moduleID c.ad.m_viewLayerPlacement
            c.ad.sim.base.m_crossViewType c.ad.m_viewGeometry c.ad.m_itemID
            c.ad.m_modelIndex)] := by
  induction n with
  | zero => rfl
  | succ k ih =>
    rw [AddItemCommand.redoCalls, List.map_cons, (addItem_redo_flag_clear env c h).1,
      (addItem_redo_flag_clear env c h).2, ih, List.replicate_succ]

/-- C17: after `setSkipFirstRedo()` the first `redo()` of an add command makes no
`addItemForCommand` call and clears the flag, and each of the `n` following `redo()`
calls makes exactly one, with the stored module id, placement, scope, geometry, item id
and model index; without the flag each of `n` `redo()` calls makes exactly that call. -/
theorem addItem_skipFirstRedo (env : Env) (c : AddItemCommand) (n : Nat) :
    (sketchCalls (c.setSkipFirstRedo.redo env).2 = [] ∧
      (c.setSkipFirstRedo.redo env).1.skipFirstRedo = false) ∧
    (AddItemCommand.redoCalls env (n + 1) c.setSkipFirstRedo).map sketchCalls =
      [] :: List.replicate n
        [(c.ad.sim.base.m_sketchWidget,
          SketchCall.addItemForCommand c.ad.m_moduleID c.ad.m_viewLayerPlacement
            c.ad.sim.base.m_crossViewType c.ad.m_viewGeometry c.ad.m_itemID
            c.ad.m_modelIndex)] ∧
    (c.skipFirstRedo = false →
      (AddItemCommand.redoCalls env n c).map sketchCalls =
        List.replicate n
          [(c.ad.sim.base.m_sketchWidget,
            SketchCall.addItemForCommand c.ad.m_moduleID c.ad.m_viewLayerPlacement
              c.ad.sim.base.m_crossViewType c.ad.m_viewGeometry c.ad.m_itemID
              c.ad.m_modelIndex)]) := by
  have hset := addItem_redo_flag_set env c
  refine ⟨⟨hset.1, hset.2.1⟩, ?_, addItem_redoCalls_flag_clear env n c⟩
  rw [AddItemCommand.redoCalls, List.map_cons, hset.1,
    addItem_redoCalls_flag_clear env n _ hset.2.1]
  rfl

/-- C17 at a concrete command: three `redo()` calls after `setSkipFirstRedo()`, and two
without it. -/
theorem addItem_skipFirstRedo_witness :
    (AddItemCommand.redoCalls (Env.mk true fuzzySizesDiffer) 3 addResistor.setSkipFirstRedo).map sketchCalls =
      [[],
       [(0, SketchCall.addItemForCommand "resistor" 1 CrossViewType.CrossView
          (ViewGeometry.mk (QPointF.mk 5 5) (QPointF.mk 0 0) (QPointF.mk 0 0)) 4 17)],
       [(0, SketchCall.addItemForCommand "resistor" 1 CrossViewType.CrossView
          (ViewGeometry.mk (QPointF.mk 5 5) (QPointF.mk 0 0) (QPointF.mk 0 0)) 4 17)]] ∧
    (AddItemCommand.redoCalls (Env.mk true fuzzySizesDiffer) 2 addResistor).map sketchCalls =
      [[(0, SketchCall.addItemForCommand "resistor" 1 CrossViewType.CrossView
          (ViewGeometry.mk (QPointF.mk 5 5) (QPointF.mk 0 0) (QPointF.mk 0 0)) 4 17)],
       [(0, SketchCall.addItemForCommand "resistor" 1 CrossViewType.CrossView
          (ViewGeometry.mk (QPointF.mk 5 5) (QPointF.mk 0 0) (QPointF.mk 0 0)) 4 17)]] :=
  ⟨(addItem_skipFirstRedo (Env.mk true fuzzySizesDiffer) addResistor 2).2.1,
    (addItem_skipFirstRedo (Env.mk true fuzzySizesDiffer) addResistor 2).2.2 (by decide)⟩

/-- C18: for a bendpoint command without `m_skipFirstRedo`, when the new count exceeds
the old one `redo()` inserts a bendpoint at the stored index and `undo()` removes the one
at that index; when the new count is below the old one `redo()` removes and `undo()`
inserts, at the stored index. -/
theorem legBendpoint_insert_remove (env : Env) (c : ChangeLegBendpointCommand)
    (hskip : c.base.m_skipFirstRedo = false) :
    (c.m_newCount > c.m_oldCount →
      sketchCalls (c.redo env).2 =
        [(c.base.m_sketchWidget,
          SketchCall.addLegBendpointForCommand c.m_fromID c.m_fromConnectorID c.m_index
            c.m_pos c.m_bezier1 c.m_bezier2)] ∧
      sketchCalls (c.undo env) =
        [(c.base.m_sketchWidget,
          SketchCall.removeLegBendpointForCommand c.m_fromID c.m_fromConnectorID c.m_index
            c.m_bezier0)]) ∧
    (c.m_newCount < c.m_oldCount →
      sketchCalls (c.redo env).2 =
        [(c.base.m_sketchWidget,
          SketchCall.removeLegBendpointForCommand c.m_fromID c.m_fromConnectorID c.m_index
            c.m_bezier2)] ∧
      sketchCalls (c.undo env) =
        [(c.base.m_sketchWidget,
          SketchCall.addLegBendpointForCommand c.m_fromID c.m_fromConnectorID c.m_index
            c.m_pos c.m_bezier0 c.m_bezier1)]) := by
  unfold ChangeLegBendpointCommand.redo ChangeLegBendpointCommand.undo
  constructor
  · intro hgt
    have hnlt : ¬ c.m_newCount < c.m_oldCount := by omega
    simp only [hskip, Bool.false_eq_true, if_false, hgt, hnlt, if_true,
      sketchCalls_cons_sketch, sketchCalls_baseRedo, sketchCalls_baseUndo, and_self]
  · intro hlt
    have hngt : ¬ c.m_newCount > c.m_oldCount := by omega
    simp only [hskip, Bool.false_eq_true, if_false, hlt, hngt, if_true,
      sketchCalls_cons_sketch, sketchCalls_baseRedo, sketchCalls_baseUndo, and_self]

/-- C18 at old count 3, new count 4, index 2: `redo()` inserts at 2, `undo()` removes
at 2. -/
theorem legBendpoint_insert_remove_witness :
    bendpoint3to4.base.m_skipFirstRedo = false ∧
    bendpoint3to4.m_newCount > bendpoint3to4.m_oldCount ∧
    sketchCalls (bendpoint3to4.redo (Env.mk true fuzzySizesDiffer)).2 =
      [(0, SketchCall.addLegBendpointForCommand 4 "pin0" 2 (QPointF.mk 7 8) none none)] ∧
    sketchCalls (bendpoint3to4.undo (Env.mk true fuzzySizesDiffer)) =
      [(0, SketchCall.removeLegBendpointForCommand 4 "pin0" 2 none)] :=
  ⟨by decide, by decide,
    (legBendpoint_insert_remove (Env.mk true fuzzySizesDiffer) bendpoint3to4 (by decide)).1 (by decide)⟩

end SkipFirstRedo


/-! ## Theorems: saving a connector -/

section SaveAsPart

/-- A loop that appends to the writer writes the concatenation of what each round
appends. -/
theorem foldl_append_flatMap {α : Type} (f : α → List XmlToken) (l : List α)
    (w : List XmlToken) :
    l.foldl (fun acc x => acc ++ f x) w = w ++ l.flatMap f := by
  induction l generalizing w with
  | nil => simp
  | cons x rest ih =>
    rw [List.foldl_cons, ih, List.flatMap_cons, List.append_assoc]

/-- One round of the inner loop of `saveAsPart` appends the pin record of the spec. -/
theorem saveAsPart_pin_round (names : ViewLayerNames) (view : ViewID) (pin : SvgIdLayer)
    (w : XmlWriter) :
    (Connector.writeTerminalIdAttr
        (Connector.writeSvgIdAttr
          (Connector.writeLayerAttr names (w.writeStartElement "p") pin.m_svgViewLayerID)
          view pin.m_svgId)
        view pin.m_terminalId).writeEndElement
      = w ++ specPinRecord names view pin := by
  unfold Connector.writeTerminalIdAttr Connector.writeSvgIdAttr Connector.writeLayerAttr
    XmlWriter.writeStartElement XmlWriter.writeAttribute XmlWriter.writeEndElement
    specPinRecord
  split_ifs <;> simp

/-- The writer after `saveAsPart`, in closed form. -/
theorem saveAsPart_eq_spec (names : ViewLayerNames) (c : Connector) (cs : ConnectorShared)
    (h : c.m_connectorShared = some cs) (writer : XmlWriter) :
    c.saveAsPart names writer = some (writer ++ specConnectorElement names cs) := by
  unfold Connector.saveAsPart
  rw [h]
  simp only [saveAsPart_pin_round]
  have hinner : ∀ (view : ViewID) (w : XmlWriter),
      (cs.values view).foldl (fun acc pin => acc ++ specPinRecord names view pin)
        (w.writeStartElement (names.viewIDXmlName view))
      = w ++ XmlToken.startElement (names.viewIDXmlName view) ::
          (cs.values view).flatMap (specPinRecord names view) := by
    intro view w
    rw [foldl_append_flatMap]
    simp [XmlWriter.writeStartElement]
  simp only [hinner]
  have houter : ∀ (w : XmlWriter),
      cs.uniqueKeys.foldl (fun acc view =>
        XmlWriter.writeEndElement
          (acc ++ XmlToken.startElement (names.viewIDXmlName view) ::
            (cs.values view).flatMap (specPinRecord names view))) w
      = w ++ cs.pinRecords.flatMap (specViewElement names) := by
    intro w
    have hbody : (fun (acc : XmlWriter) (view : ViewID) =>
        XmlWriter.writeEndElement
          (acc ++ XmlToken.startElement (names.viewIDXmlName view) ::
            (cs.values view).flatMap (specPinRecord names view)))
        = fun acc view => acc ++ specViewElement names (view, cs.values view) := by
      funext acc view
      simp [XmlWriter.writeEndElement, specViewElement]
    rw [hbody, foldl_append_flatMap]
    unfold ConnectorShared.pinRecords
    rw [List.flatMap_map]
  rw [houter]
  simp [XmlWriter.writeStartElement, XmlWriter.writeAttribute, XmlWriter.writeTextElement,
    XmlWriter.writeEndElement, specConnectorElement]

theorem mem_values_iff (cs : ConnectorShared) (view : ViewID) (pin : SvgIdLayer) :
    pin ∈ cs.values view ↔ (view, pin) ∈ cs.m_pins := by
  unfold ConnectorShared.values
  simp only [List.mem_map, List.mem_filter, decide_eq_true_eq]
  constructor
  · rintro ⟨⟨v, p⟩, ⟨hmem, hv⟩, hp⟩
    simp only at hv hp
    subst hv
    subst hp
    exact hmem
  · intro hmem
    exact ⟨(view, pin), ⟨hmem, rfl⟩, rfl⟩

theorem mem_uniqueKeys_iff (cs : ConnectorShared) (view : ViewID) :
    view ∈ cs.uniqueKeys ↔ ∃ pin, (view, pin) ∈ cs.m_pins := by
  unfold ConnectorShared.uniqueKeys
  simp only [List.mem_dedup, List.mem_map]
  constructor
  · rintro ⟨⟨v, p⟩, hmem, hv⟩
    simp only at hv
    subst hv
    exact ⟨p, hmem⟩
  · rintro ⟨p, hmem⟩
    exact ⟨(view, p), hmem, rfl⟩

/-- For a connector with shared data, `saveAsPart` writes the connector element of the
spec: inside `views` one element per view that has a pin, each view once, and inside it
one pin record per pin of that view; every pin record carries `layer` and `svgId`, and it
carries `terminalId` exactly when the view is breadboard or schematic and the terminal id
is not empty. -/
theorem saveAsPart_shared_structure (names : ViewLayerNames) (c : Connector)
    (cs : ConnectorShared) (h : c.m_connectorShared = some cs) (writer : XmlWriter) :
    c.saveAsPart names writer = some (writer ++ specConnectorElement names cs) ∧
    (cs.pinRecords.map Prod.fst).Nodup ∧
    (∀ entry ∈ cs.m_pins, ∃ r ∈ cs.pinRecords, r.1 = entry.1 ∧ entry.2 ∈ r.2) ∧
    (∀ r ∈ cs.pinRecords, ∀ pin ∈ r.2, (r.1, pin) ∈ cs.m_pins) ∧
    (∀ (view : ViewID) (pin : SvgIdLayer),
      (XmlToken.attribute "layer" (names.viewLayerXmlNameFromID pin.m_svgViewLayerID)
          ∈ specPinRecord names view pin ∧
        XmlToken.attribute "svgId" pin.m_svgId ∈ specPinRecord names view pin) ∧
      ((∃ t, XmlToken.attribute "terminalId" t ∈ specPinRecord names view pin) ↔
        ((view = ViewID.BreadboardView ∨ view = ViewID.SchematicView) ∧
          pin.m_terminalId ≠ ""))) := by
  refine ⟨saveAsPart_eq_spec names c cs h writer, ?_, ?_, ?_, ?_⟩
  · unfold ConnectorShared.pinRecords
    rw [List.map_map]
    have hid : (Prod.fst ∘ fun view => (view, cs.values view)) = id := by
      funext view
      rfl
    rw [hid, List.map_id]
    exact List.nodup_dedup _
  · intro entry hmem
    refine ⟨(entry.1, cs.values entry.1), ?_, rfl, ?_⟩
    · unfold ConnectorShared.pinRecords
      exact List.mem_map.2 ⟨entry.1, (mem_uniqueKeys_iff cs entry.1).2 ⟨entry.2, hmem⟩, rfl⟩
    · exact (mem_values_iff cs entry.1 entry.2).2 hmem
  · intro r hr pin hpin
    unfold ConnectorShared.pinRecords at hr
    obtain ⟨view, -, hview⟩ := List.mem_map.1 hr
    subst hview
    exact (mem_values_iff cs view pin).1 hpin
  · intro view pin
    unfold specPinRecord
    by_cases hc : (view = ViewID.BreadboardView ∨ view = ViewID.SchematicView) ∧
        pin.m_terminalId ≠ ""
    · simp [hc]
    · simp [hc]

/-- The connector with two schematic pins (terminal ids `T1`, `T2`) and one pcb pin:
three pin records, `terminalId` on the two schematic ones only. -/
theorem saveAsPart_three_pins :
    (Connector.mk (some threePinShared) [] "" none false).saveAsPart exampleNames [] =
      some
        [XmlToken.startElement "connector",
         XmlToken.attribute "id" "connector0",
         XmlToken.attribute "type" "male",
         XmlToken.attribute "name" "pin 0",
         XmlToken.textElement "description" "",
         XmlToken.textElement "replacedby" "",
         XmlToken.startElement "views",
         XmlToken.startElement "schematicView",
         XmlToken.startElement "p",
         XmlToken.attribute "layer" "ll",
         XmlToken.attribute "svgId" "connector0pin",
         XmlToken.attribute "terminalId" "T1",
         XmlToken.endElement,
         XmlToken.startElement "p",
         XmlToken.attribute "layer" "ll",
         XmlToken.attribute "svgId" "connector0pinB",
         XmlToken.attribute "terminalId" "T2",
         XmlToken.endElement,
         XmlToken.endElement,
         XmlToken.startElement "pcbView",
         XmlToken.startElement "p",
         XmlToken.attribute "layer" "lll",
         XmlToken.attribute "svgId" "connector0pad",
         XmlToken.endElement,
         XmlToken.endElement,
         XmlToken.endElement,
         XmlToken.endElement] :=
  ((saveAsPart_shared_structure exampleNames
    (Connector.mk (some threePinShared) [] "" none false) threePinShared rfl []).1).trans
    (by decide)

/-- C20: a connector constructed without shared data answers `connectorSharedName()`
with the empty string, but `saveAsPart` dereferences the null `connectorShared()` in its
second statement and emits nothing: there is no element per view and no pin record. For
a connector with shared data the output is the connector element of the spec: one
element per view that has a pin, each view once, one pin record per pin of the view, each
with `layer` and `svgId`, and with `terminalId` exactly when the view is breadboard or
schematic and the terminal id is not empty. -/
theorem saveAsPart_without_shared_data :
    ((Connector.mk none [] "" none false).connectorSharedName = "" ∧
      (Connector.mk none [] "" none false).connectorType = ConnectorType.Unknown ∧
      (Connector.mk none [] "" none false).saveAsPart exampleNames [] = none) ∧
    (∀ (names : ViewLayerNames) (c : Connector) (writer : XmlWriter),
      c.m_connectorShared = none → c.saveAsPart names writer = none) ∧
    (∀ (names : ViewLayerNames) (c : Connector) (cs : ConnectorShared) (writer : XmlWriter),
      c.m_connectorShared = some cs →
      c.saveAsPart names writer = some (writer ++ specConnectorElement names cs) ∧
      (cs.pinRecords.map Prod.fst).Nodup ∧
      (∀ entry ∈ cs.m_pins, ∃ r ∈ cs.pinRecords, r.1 = entry.1 ∧ entry.2 ∈ r.2) ∧
      (∀ r ∈ cs.pinRecords, ∀ pin ∈ r.2, (r.1, pin) ∈ cs.m_pins) ∧
      (∀ (view : ViewID) (pin : SvgIdLayer),
        (XmlToken.attribute "layer" (names.viewLayerXmlNameFromID pin.m_svgViewLayerID)
            ∈ specPinRecord names view pin ∧
          XmlToken.attribute "svgId" pin.m_svgId ∈ specPinRecord names view pin) ∧
        ((∃ t, XmlToken.attribute "terminalId" t ∈ specPinRecord names view pin) ↔
          ((view = ViewID.BreadboardView ∨ view = ViewID.SchematicView) ∧
            pin.m_terminalId ≠ "")))) := by
  refine ⟨⟨rfl, rfl, rfl⟩, ?_, ?_⟩
  · intro names c writer hnone
    unfold Connector.saveAsPart
    rw [hnone]
  · intro names c cs writer hsome
    exact saveAsPart_shared_structure names c cs hsome writer

/-- Two pin records of one view followed by equal output are records of the same pin,
when the layer names are distinct and neither pin has a terminal id that is dropped. -/
theorem specPinRecord_cancel (names : ViewLayerNames)
    (hlayer : Function.Injective names.viewLayerXmlNameFromID) (view : ViewID)
    (p q : SvgIdLayer) (r1 r2 : List XmlToken)
    (hp : ¬ (view = ViewID.BreadboardView ∨ view = ViewID.SchematicView) →
      p.m_terminalId = "")
    (hq : ¬ (view = ViewID.BreadboardView ∨ view = ViewID.SchematicView) →
      q.m_terminalId = "")
    (heq : specPinRecord names view p ++ r1 = specPinRecord names view q ++ r2) :
    p = q ∧ r1 = r2 := by
  obtain ⟨pl, ps, pt⟩ := p
  obtain ⟨ql, qs, qt⟩ := q
  unfold specPinRecord at heq
  simp only at hp hq heq
  by_cases hv : view = ViewID.BreadboardView ∨ view = ViewID.SchematicView
  · by_cases h1 : pt = "" <;> by_cases h2 : qt = ""
    · simp [hv, h1, h2] at heq
      obtain ⟨hl, hs, hr⟩ := heq
      exact ⟨by rw [hlayer hl, hs, h1, h2], hr⟩
    · simp [hv, h1, h2] at heq
    · simp [hv, h1, h2] at heq
    · simp [hv, h1, h2] at heq
      obtain ⟨hl, hs, ht, hr⟩ := heq
      exact ⟨by rw [hlayer hl, hs, ht], hr⟩
  · have h1 := hp hv
    have h2 := hq hv
    simp [hv] at heq
    obtain ⟨hl, hs, hr⟩ := heq
    exact ⟨by rw [hlayer hl, hs, h1, h2], hr⟩

/-- The pin records of a view element, up to its end tag, determine the pins. -/
theorem specPinRecords_cancel (names : ViewLayerNames)
    (hlayer : Function.Injective names.viewLayerXmlNameFromID) (view : ViewID)
    (ps qs : List SvgIdLayer) (r1 r2 : List XmlToken)
    (hp : ∀ p ∈ ps, ¬ (view = ViewID.BreadboardView ∨ view = ViewID.SchematicView) →
      p.m_terminalId = "")
    (hq : ∀ q ∈ qs, ¬ (view = ViewID.BreadboardView ∨ view = ViewID.SchematicView) →
      q.m_terminalId = "")
    (heq : ps.flatMap (specPinRecord names view) ++ XmlToken.endElement :: r1
      = qs.flatMap (specPinRecord names view) ++ XmlToken.endElement :: r2) :
    ps = qs ∧ r1 = r2 := by
  induction ps generalizing qs with
  | nil =>
    cases qs with
    | nil =>
      simp at heq
      exact ⟨rfl, heq⟩
    | cons q rest =>
      simp [List.flatMap_cons, specPinRecord] at heq
  | cons p prest ih =>
    cases qs with
    | nil =>
      simp [List.flatMap_cons, specPinRecord] at heq
    | cons q qrest =>
      rw [List.flatMap_cons, List.flatMap_cons, List.append_assoc, List.append_assoc] at heq
      obtain ⟨hpq, hrest⟩ := specPinRecord_cancel names hlayer view p q _ _
        (hp p (List.mem_cons_self _ _)) (hq q (List.mem_cons_self _ _)) heq
      obtain ⟨hps, hr⟩ := ih qrest
        (fun x hx => hp x (List.mem_cons_of_mem _ hx))
        (fun x hx => hq x (List.mem_cons_of_mem _ hx)) hrest
      exact ⟨by rw [hpq, hps], hr⟩

/-- The view elements inside `views`, up to the two closing end tags, determine the
per-view pin records. -/
theorem specViewElements_cancel (names : ViewLayerNames)
    (hview : Function.Injective names.viewIDXmlName)
    (hlayer : Function.Injective names.viewLayerXmlNameFromID)
    (rs ss : List (ViewID × List SvgIdLayer))
    (hr : ∀ r ∈ rs, ∀ p ∈ r.2,
      ¬ (r.1 = ViewID.BreadboardView ∨ r.1 = ViewID.SchematicView) → p.m_terminalId = "")
    (hs : ∀ r ∈ ss, ∀ p ∈ r.2,
      ¬ (r.1 = ViewID.BreadboardView ∨ r.1 = ViewID.SchematicView) → p.m_terminalId = "")
    (heq : rs.flatMap (specViewElement names) ++ [XmlToken.endElement, XmlToken.endElement]
      = ss.flatMap (specViewElement names) ++ [XmlToken.endElement, XmlToken.endElement]) :
    rs = ss := by
  induction rs generalizing ss with
  | nil =>
    cases ss with
    | nil => rfl
    | cons s rest =>
      simp [List.flatMap_cons, specViewElement] at heq
  | cons r rrest ih =>
    cases ss with
    | nil =>
      simp [List.flatMap_cons, specViewElement] at heq
    | cons s srest =>
      obtain ⟨rv, rp⟩ := r
      obtain ⟨sv, sp⟩ := s
      rw [List.flatMap_cons, List.flatMap_cons] at heq
      unfold specViewElement at heq
      simp only [List.cons_append, List.append_assoc, List.singleton_append,
        List.cons.injEq, XmlToken.startElement.injEq] at heq
      obtain ⟨hname, hrest⟩ := heq
      have hv : rv = sv := hview hname
      subst hv
      obtain ⟨hpins, htail⟩ := specPinRecords_cancel names hlayer rv rp sp _ _
        (hr (rv, rp) (List.mem_cons_self _ _)) (hs (rv, sp) (List.mem_cons_self _ _)) hrest
      have hih := ih srest (fun x hx => hr x (List.mem_cons_of_mem _ hx))
        (fun x hx => hs x (List.mem_cons_of_mem _ hx))
        (by simpa [specViewElement] using htail)
      rw [hpins, hih]

/-- The pins of a record are pins of the connector, so they inherit
`terminalIdsWritable`. -/
theorem terminalIdsWritable_records (cs : ConnectorShared) (hw : cs.terminalIdsWritable) :
    ∀ r ∈ cs.pinRecords, ∀ p ∈ r.2,
      ¬ (r.1 = ViewID.BreadboardView ∨ r.1 = ViewID.SchematicView) → p.m_terminalId = "" := by
  intro r hr p hp hv
  unfold ConnectorShared.pinRecords at hr
  obtain ⟨view, -, hview⟩ := List.mem_map.1 hr
  subst hview
  exact hw (view, p) ((mem_values_iff cs view p).1 hp) hv

/-- C19, as the code has it: for connectors whose pins outside the breadboard and
schematic views have an empty terminal id, and with distinct names for distinct views and
layers, the structure written by `saveAsPart` determines the per-view pin records: two
connectors that write the same structure hold the same views and, per view, the same pins
with the same layer, svg id and terminal id. -/
theorem saveAsPart_determines_pins (names : ViewLayerNames)
    (hview : Function.Injective names.viewIDXmlName)
    (hlayer : Function.Injective names.viewLayerXmlNameFromID)
    (c1 c2 : Connector) (cs1 cs2 : ConnectorShared)
    (h1 : c1.m_connectorShared = some cs1) (h2 : c2.m_connectorShared = some cs2)
    (hw1 : cs1.terminalIdsWritable) (hw2 : cs2.terminalIdsWritable)
    (heq : c1.saveAsPart names [] = c2.saveAsPart names []) :
    cs1.pinRecords = cs2.pinRecords := by
  rw [saveAsPart_eq_spec names c1 cs1 h1, saveAsPart_eq_spec names c2 cs2 h2] at heq
  simp only [List.nil_append, Option.some.injEq] at heq
  unfold specConnectorElement at heq
  simp only [List.cons_append, List.nil_append, List.cons.injEq] at heq
  exact specViewElements_cancel names hview hlayer _ _
    (terminalIdsWritable_records cs1 hw1) (terminalIdsWritable_records cs2 hw2)
    heq.2.2.2.2.2.2.2

theorem exampleNames_view_injective : Function.Injective exampleNames.viewIDXmlName := by
  intro a b hab
  cases a <;> cases b <;> first | rfl | (exact absurd hab (by decide))

theorem exampleNames_layer_injective :
    Function.Injective exampleNames.viewLayerXmlNameFromID := by
  intro a b hab
  have hl : List.replicate a 'l' = List.replicate b 'l' := congrArg String.data hab
  have hlen := congrArg List.length hl
  rw [List.length_replicate, List.length_replicate] at hlen
  exact hlen

theorem threePinShared_writable : threePinShared.terminalIdsWritable := by
  intro entry hmem
  simp only [threePinShared, List.mem_cons, List.mem_singleton, List.not_mem_nil,
    or_false] at hmem
  rcases hmem with h | h | h <;> subst h <;> simp

/-- C19 at the connector with two schematic pins and one pcb pin: a connector that
writes the same structure holds the same three pin records. -/
theorem saveAsPart_determines_pins_witness :
    threePinShared.terminalIdsWritable ∧
    ∀ (c2 : Connector) (cs2 : ConnectorShared), c2.m_connectorShared = some cs2 →
      cs2.terminalIdsWritable →
      (Connector.mk (some threePinShared) [] "" none false).saveAsPart exampleNames []
        = c2.saveAsPart exampleNames [] →
      cs2.pinRecords =
        [(ViewID.SchematicView,
            [SvgIdLayer.mk 2 "connector0pin" "T1", SvgIdLayer.mk 2 "connector0pinB" "T2"]),
         (ViewID.PCBView, [SvgIdLayer.mk 3 "connector0pad" ""])] :=
  ⟨threePinShared_writable, fun c2 cs2 h2 hw2 heq =>
    (saveAsPart_determines_pins exampleNames exampleNames_view_injective
      exampleNames_layer_injective (Connector.mk (some threePinShared) [] "" none false) c2
      threePinShared cs2 rfl h2 threePinShared_writable hw2 heq).symm.trans (by decide)⟩

/-- C19 fails as stated: a connector whose pcb pin has the terminal id `T1` and one whose
pcb pin has none write the same structure, the terminal id being written for breadboard
and schematic pins only; nothing that reads the structure can tell the two apart. -/
theorem saveAsPart_roundtrip_counterexample :
    (Connector.mk (some pcbTerminalShared) [] "" none false).saveAsPart exampleNames []
      = (Connector.mk (some pcbPlainShared) [] "" none false).saveAsPart exampleNames [] ∧
    pcbTerminalShared.pinRecords
      = [(ViewID.PCBView, [SvgIdLayer.mk 3 "connector0pad" "T1"])] ∧
    pcbPlainShared.pinRecords
      = [(ViewID.PCBView, [SvgIdLayer.mk 3 "connector0pad" ""])] ∧
    pcbTerminalShared.pinRecords ≠ pcbPlainShared.pinRecords := by
  refine ⟨?_, ?_, ?_, ?_⟩ <;> decide

end SaveAsPart


/-! ## Theorems: the simulator trigger -/

section Trigger

theorem triggerCount_nil : triggerCount [] = 0 := rfl

theorem triggerCount_append (es fs : List Event) :
    triggerCount (es ++ fs) = triggerCount es + triggerCount fs := by
  unfold triggerCount
  rw [List.countP_append]

theorem triggerCount_cons_sketch (w : Nat) (call : SketchCall) (es : List Event) :
    triggerCount (Event.sketch w call :: es) = triggerCount es := by
  unfold triggerCount
  rw [List.countP_cons]
  simp

theorem triggerCount_singleton_sketch (w : Nat) (call : SketchCall) :
    triggerCount [Event.sketch w call] = 0 := by
  rw [triggerCount_cons_sketch, triggerCount_nil]

/-- A list of calls on sketch widgets holds no simulator trigger. -/
theorem triggerCount_map_sketch {α : Type} (l : List α) (w : α → Nat) (f : α → SketchCall) :
    triggerCount (l.map (fun x => Event.sketch (w x) (f x))) = 0 := by
  induction l with
  | nil => rfl
  | cons x rest ih => rw [List.map_cons, triggerCount_cons_sketch, ih]

theorem triggerCount_baseUndo (env : Env) (b : BaseCommand) :
    triggerCount (BaseCommand.undo env b) = 0 := by
  unfold BaseCommand.undo
  split_ifs <;> rfl

theorem triggerCount_baseRedo (env : Env) (b : BaseCommand) :
    triggerCount (BaseCommand.redo env b) = 0 := by
  unfold BaseCommand.redo
  split_ifs <;> rfl

/-- `SimulationCommand::undo()` of a command attached to a main window fires the
trigger once. -/
theorem triggerCount_simUndo (env : Env) (c : SimulationCommand)
    (h : c.m_mainWindow.isSome = true) : triggerCount (SimulationCommand.undo env c) = 1 := by
  unfold SimulationCommand.undo
  rw [triggerCount_append, triggerCount_baseUndo]
  cases hmw : c.m_mainWindow with
  | none => simp [hmw] at h
  | some mw => rfl

theorem triggerCount_simRedo (env : Env) (c : SimulationCommand)
    (h : c.m_mainWindow.isSome = true) : triggerCount (SimulationCommand.redo env c) = 1 := by
  unfold SimulationCommand.redo
  rw [triggerCount_append, triggerCount_baseRedo]
  cases hmw : c.m_mainWindow with
  | none => simp [hmw] at h
  | some mw => rfl

theorem triggerCount_restoreLocalNames (lc : List (String × String)) (item : ItemBase) :
    triggerCount (DeleteItemCommand.restoreLocalNames lc item) = 0 := by
  unfold DeleteItemCommand.restoreLocalNames
  induction lc.map Prod.fst with
  | nil => rfl
  | cons id rest ih =>
    rw [List.filterMap_cons]
    cases item.m_connectors.lookup id with
    | none => simpa using ih
    | some connector =>
      simp only
      unfold triggerCount at ih ⊢
      rw [List.countP_cons, ih]
      rfl

theorem triggerCount_deleteItem_undo (env : Env) (item : Option ItemBase)
    (c : DeleteItemCommand) (h : c.ad.sim.m_mainWindow.isSome = true) :
    triggerCount (c.undo env item) = 1 := by
  unfold DeleteItemCommand.undo AddDeleteItemCommand.addItemCall
  simp only [triggerCount_append, triggerCount_singleton_sketch, triggerCount_simUndo env _ h,
    triggerCount_baseUndo]
  cases c.ad.m_localConnectors with
  | none => rfl
  | some lc =>
    cases item with
    | none => rfl
    | some it =>
      simp only
      cases it.m_modelPartProperties with
      | none => rfl
      | some props =>
        simp only
        split_ifs
        · rw [triggerCount_append, triggerCount_restoreLocalNames]
          cases it.m_infoGraphicsView <;> rfl
        · rfl

/-- C15, as the code has it. For a command of each subclass of `SimulationCommand` that
is attached to a main window, the events of one `undo()` and of one `redo()` hold exactly
one `triggerSimulator()`, with two exceptions: a `ChangeConnectionCommand` fires once
while enabled and not at all once disabled, and a `CleanUpWiresCommand` for which a trace
was added fires once itself on top of what its owned sub-commands fire while it replays
them. -/
theorem simulation_trigger_count (env : Env) :
    (∀ c : AddItemCommand, c.ad.sim.m_mainWindow.isSome = true →
      triggerCount (c.undo env) = 1 ∧ triggerCount (c.redo env).2 = 1) ∧
    (∀ (c : DeleteItemCommand) (item : Option ItemBase),
      c.ad.sim.m_mainWindow.isSome = true →
      triggerCount (c.undo env item) = 1 ∧ triggerCount (c.redo env) = 1) ∧
    (∀ c : MoveItemCommand, c.sim.m_mainWindow.isSome = true →
      triggerCount (c.undo env) = 1 ∧ triggerCount (c.redo env) = 1) ∧
    (∀ c : SimpleMoveItemCommand, c.sim.m_mainWindow.isSome = true →
      triggerCount (c.undo env) = 1 ∧ triggerCount (c.redo env) = 1) ∧
    (∀ c : MoveItemsCommand, c.sim.m_mainWindow.isSome = true →
      triggerCount (c.undo env) = 1 ∧ triggerCount (c.redo env) = 1) ∧
    (∀ c : RotateItemCommand, c.sim.m_mainWindow.isSome = true →
      triggerCount (c.undo env) = 1 ∧ triggerCount (c.redo env) = 1) ∧
    (∀ c : ChangeWireCommand, c.sim.m_mainWindow.isSome = true →
      triggerCount (c.undo env) = 1 ∧ triggerCount (c.redo env) = 1) ∧
    (∀ c : ChangeWireCurveCommand, c.sim.m_mainWindow.isSome = true →
      triggerCount (c.undo env) = 1 ∧ triggerCount (c.redo env).2 = 1) ∧
    (∀ c : ChangeLegCommand, c.sim.m_mainWindow.isSome = true →
      triggerCount (c.undo env) = 1 ∧ triggerCount (c.redo env) = 1) ∧
    (∀ c : MoveLegBendpointCommand, c.sim.m_mainWindow.isSome = true →
      triggerCount (c.undo env) = 1 ∧ triggerCount (c.redo env) = 1) ∧
    (∀ c : ChangeLegCurveCommand, c.sim.m_mainWindow.isSome = true →
      triggerCount (c.undo env) = 1 ∧ triggerCount (c.redo env).2 = 1) ∧
    (∀ c : RotateLegCommand, c.sim.m_mainWindow.isSome = true →
      triggerCount (c.undo env) = 1 ∧ triggerCount (c.redo env) = 1) ∧
    (∀ c : CleanUpRatsnestsCommand, c.sim.m_mainWindow.isSome = true →
      triggerCount (c.undo env) = 1 ∧ triggerCount (c.redo env) = 1) ∧
    (∀ c : TransformItemCommand, c.sim.m_mainWindow.isSome = true →
      triggerCount (c.undo env) = 1 ∧ triggerCount (c.redo env) = 1) ∧
    (∀ c : SetResistanceCommand, c.sim.m_mainWindow.isSome = true →
      triggerCount (c.undo env) = 1 ∧ triggerCount (c.redo env) = 1) ∧
    (∀ c : SetPropCommand, c.sim.m_mainWindow.isSome = true →
      triggerCount (c.undo env) = 1 ∧ triggerCount (c.redo env) = 1) ∧
    (∀ c : ChangeConnectionCommand, c.sim.m_mainWindow.isSome = true →
      triggerCount (c.undo env) = (if c.m_enabled then 1 else 0) ∧
      triggerCount (c.redo env) = (if c.m_enabled then 1 else 0)) ∧
    (∀ (c : CleanUpWiresCommand) (heap : CommandHeap) (added : Int → Option ItemBase),
      c.sim.m_mainWindow.isSome = true →
      triggerCount (c.undo env heap added) =
        (if c.m_sketchWidgets.length > 0 then
          triggerCount (BaseCommand.subUndo (heap.dispatchUndo env added) c.sim.base [])
         else 0) + 1 ∧
      triggerCount (c.redo env heap) =
        (if c.m_sketchWidgets.length > 0 then
          triggerCount (BaseCommand.subRedo (heap.dispatchRedo env) c.sim.base [])
         else 0) + 1) := by
  refine ⟨?_, ?_, ?_, ?_, ?_, ?_, ?_, ?_, ?_, ?_, ?_, ?_, ?_, ?_, ?_, ?_, ?_, ?_⟩
  · intro c h
    constructor
    · simp [AddItemCommand.undo, triggerCount_cons_sketch, triggerCount_simUndo env _ h]
    · unfold AddItemCommand.redo AddDeleteItemCommand.addItemCall
      simp only [triggerCount_append, triggerCount_simRedo env _ h]
      split_ifs <;> simp [triggerCount_singleton_sketch, triggerCount_nil]
  · intro c item h
    exact ⟨triggerCount_deleteItem_undo env item c h, by
      simp [DeleteItemCommand.redo, triggerCount_cons_sketch, triggerCount_simRedo env _ h]⟩
  · intro c h
    exact ⟨by simp [MoveItemCommand.undo, triggerCount_cons_sketch,
        triggerCount_simUndo env _ h],
      by simp [MoveItemCommand.redo, triggerCount_cons_sketch,
        triggerCount_simRedo env _ h]⟩
  · intro c h
    exact ⟨by simp [SimpleMoveItemCommand.undo, triggerCount_cons_sketch,
        triggerCount_simUndo env _ h],
      by simp [SimpleMoveItemCommand.redo, triggerCount_cons_sketch,
        triggerCount_simRedo env _ h]⟩
  · intro c h
    constructor
    · unfold MoveItemsCommand.undo MoveItemsCommand.wireCalls
      rw [triggerCount_append, triggerCount_append, triggerCount_map_sketch,
        triggerCount_map_sketch, triggerCount_simUndo env _ h]
    · unfold MoveItemsCommand.redo MoveItemsCommand.wireCalls
      rw [triggerCount_append, triggerCount_append, triggerCount_map_sketch,
        triggerCount_map_sketch, triggerCount_simRedo env _ h]
  · intro c h
    exact ⟨by simp [RotateItemCommand.undo, triggerCount_cons_sketch,
        triggerCount_simUndo env _ h],
      by simp [RotateItemCommand.redo, triggerCount_cons_sketch,
        triggerCount_simRedo env _ h]⟩
  · intro c h
    constructor
    · unfold ChangeWireCommand.undo
      rw [triggerCount_append, triggerCount_simUndo env _ h]
      split_ifs <;> simp [triggerCount_singleton_sketch, triggerCount_nil]
    · unfold ChangeWireCommand.redo
      rw [triggerCount_append, triggerCount_simRedo env _ h]
      split_ifs <;> simp [triggerCount_singleton_sketch, triggerCount_nil]
  · intro c h
    constructor
    · unfold ChangeWireCurveCommand.undo
      rw [triggerCount_append, triggerCount_simUndo env _ h]
      split_ifs <;> simp [triggerCount_singleton_sketch, triggerCount_nil]
    · unfold ChangeWireCurveCommand.redo
      split_ifs <;> simp [triggerCount_cons_sketch, triggerCount_simRedo env _ h]
  · intro c h
    constructor
    · unfold ChangeLegCommand.undo
      rw [triggerCount_append, triggerCount_simUndo env _ h]
      split_ifs <;> simp [triggerCount_singleton_sketch, triggerCount_nil]
    · unfold ChangeLegCommand.redo
      rw [triggerCount_append, triggerCount_simRedo env _ h]
      split_ifs <;> simp [triggerCount_singleton_sketch, triggerCount_nil]
  · intro c h
    constructor
    · unfold MoveLegBendpointCommand.undo
      rw [triggerCount_append, triggerCount_simUndo env _ h]
      split_ifs <;> simp [triggerCount_singleton_sketch, triggerCount_nil]
    · unfold MoveLegBendpointCommand.redo
      rw [triggerCount_append, triggerCount_simRedo env _ h]
      split_ifs <;> simp [triggerCount_singleton_sketch, triggerCount_nil]
  · intro c h
    constructor
    · simp [ChangeLegCurveCommand.undo, triggerCount_cons_sketch,
        triggerCount_simUndo env _ h]
    · unfold ChangeLegCurveCommand.redo
      split_ifs <;> simp [triggerCount_cons_sketch, triggerCount_simRedo env _ h]
  · intro c h
    exact ⟨by simp [RotateLegCommand.undo, triggerCount_simUndo env _ h],
      by simp [RotateLegCommand.redo, triggerCount_cons_sketch,
        triggerCount_simRedo env _ h]⟩
  · intro c h
    constructor
    · unfold CleanUpRatsnestsCommand.undo
      rw [triggerCount_append, triggerCount_simUndo env _ h]
      split_ifs <;> simp [triggerCount_singleton_sketch, triggerCount_nil]
    · unfold CleanUpRatsnestsCommand.redo
      rw [triggerCount_append, triggerCount_simRedo env _ h]
      split_ifs <;> simp [triggerCount_singleton_sketch, triggerCount_nil]
  · intro c h
    exact ⟨by simp [TransformItemCommand.undo, triggerCount_cons_sketch,
        triggerCount_simUndo env _ h],
      by simp [TransformItemCommand.redo, triggerCount_cons_sketch,
        triggerCount_simRedo env _ h]⟩
  · intro c h
    exact ⟨by simp [SetResistanceCommand.undo, triggerCount_cons_sketch,
        triggerCount_simUndo env _ h],
      by simp [SetResistanceCommand.redo, triggerCount_cons_sketch,
        triggerCount_simRedo env _ h]⟩
  · intro c h
    exact ⟨by simp [SetPropCommand.undo, triggerCount_cons_sketch,
        triggerCount_simUndo env _ h],
      by simp [SetPropCommand.redo, triggerCount_cons_sketch,
        triggerCount_simRedo env _ h]⟩
  · intro c h
    unfold ChangeConnectionCommand.undo ChangeConnectionCommand.redo
    by_cases he : c.m_enabled = true
    · simp [he, triggerCount_cons_sketch, triggerCount_simUndo env _ h,
        triggerCount_simRedo env _ h]
    · simp [he, triggerCount_nil]
  · intro c heap added h
    constructor
    · unfold CleanUpWiresCommand.undo
      rw [triggerCount_append, triggerCount_append, triggerCount_append,
        triggerCount_map_sketch, triggerCount_simUndo env _ h]
      split_ifs <;> simp [triggerCount_singleton_sketch, triggerCount_nil]
    · unfold CleanUpWiresCommand.redo
      rw [triggerCount_append, triggerCount_append, triggerCount_append,
        triggerCount_map_sketch, triggerCount_simRedo env _ h]
      split_ifs <;> simp [triggerCount_singleton_sketch, triggerCount_nil]

/-- C15 at concrete commands: moving item 4 fires the trigger once on `undo()` and once
on `redo()`; so does the enabled connection change. -/
theorem simulation_trigger_count_witness :
    (triggerCount (moveFromOrigin.undo (Env.mk true fuzzySizesDiffer)) = 1 ∧
      triggerCount (moveFromOrigin.redo (Env.mk true fuzzySizesDiffer)) = 1) ∧
    (triggerCount (connect4to9.undo (Env.mk true fuzzySizesDiffer)) = 1 ∧
      triggerCount (connect4to9.redo (Env.mk true fuzzySizesDiffer)) = 1) :=
  ⟨(simulation_trigger_count (Env.mk true fuzzySizesDiffer)).2.2.1 moveFromOrigin (by decide),
    (simulation_trigger_count (Env.mk true fuzzySizesDiffer)).2.2.2.2.2.2.2.2.2.2.2.2.2.2.2.2.1 connect4to9
      (by decide)⟩

/-- C15 fails as stated. (1) A disabled connection change attached to main window 0
fires no trigger on `undo()` or `redo()`. (2) A clean-up command attached to main window
0 that owns the three sub-commands of one trace fires the trigger twice on `redo()` and
twice on `undo()`: once itself, once through the owned delete command. -/
theorem simulation_trigger_counterexample :
    (connect4to9.disable.sim.m_mainWindow = some 0 ∧
      triggerCount (connect4to9.disable.undo (Env.mk true fuzzySizesDiffer)) = 0 ∧
      triggerCount (connect4to9.disable.redo (Env.mk true fuzzySizesDiffer)) = 0) ∧
    (cleanUpOneTrace.sim.m_mainWindow = some 0 ∧
      triggerCount (cleanUpOneTrace.redo (Env.mk true fuzzySizesDiffer) traceHeap) = 2 ∧
      triggerCount (cleanUpOneTrace.undo (Env.mk true fuzzySizesDiffer) traceHeap (fun _ => none)) = 2 ∧
      cleanUpOneTrace.redo (Env.mk false fuzzySizesDiffer) traceHeap =
        [Event.sketch 0 (SketchCall.changeWireColorForCommand 12 "blue" 1),
         Event.sketch 0 (SketchCall.changeWireWidthForCommand 12 2),
         Event.sketch 0 (SketchCall.deleteItemForCommand 12 true true false),
         Event.triggerSimulator 0,
         Event.sketch 0 (SketchCall.cleanUpWiresForCommand true true),
         Event.triggerSimulator 0]) := by
  refine ⟨⟨?_, ?_, ?_⟩, ?_, ?_, ?_, ?_⟩ <;> decide

end Trigger


/-! ## Theorems: progress signals -/

section Progress

/-- C16 at the failing inputs, with the progress object active. (1) A note-text command
on which `setSkipFirstRedo()` was called makes no call at all on its first `redo()`: it
returns before `BaseCommand::redo()` and no `incRedo` is emitted. An add command with the
same flag, which also skips its work, does emit `incRedo`. (2) `undo()` of a delete
command that carries local connector names emits `incUndo` twice: once through
`SimulationCommand::undo()` before the local names are restored, once through
`BaseCommand::undo()` at the end. `undo()` of an add command emits it once. -/
theorem progress_signal_failing_inputs :
    (noteGrowSkip.base.m_skipFirstRedo = true ∧
      (noteGrowSkip.redo (Env.mk true fuzzySizesDiffer)).2 = [] ∧
      progressSignals (noteGrowSkip.redo (Env.mk true fuzzySizesDiffer)).2 = [] ∧
      progressSignals (addResistor.setSkipFirstRedo.redo (Env.mk true fuzzySizesDiffer)).2
        = [Event.incRedo]) ∧
    (deleteRenamed.undo (Env.mk true fuzzySizesDiffer) (some readdedItem4) =
        [Event.sketch 0
          (SketchCall.addItemForCommand "chip" 1 CrossViewType.CrossView
            (ViewGeometry.mk (QPointF.mk 5 5) (QPointF.mk 0 0) (QPointF.mk 0 0)) 4 17),
         Event.incUndo,
         Event.triggerSimulator 0,
         Event.setConnectorLocalName 55 "VCC",
         Event.changePinLabels 3 4,
         Event.incUndo] ∧
      progressSignals (deleteRenamed.undo (Env.mk true fuzzySizesDiffer) (some readdedItem4))
        = [Event.incUndo, Event.incUndo] ∧
      progressSignals (deleteWire12.undo (Env.mk true fuzzySizesDiffer) none)
        = [Event.incUndo, Event.incUndo] ∧
      progressSignals (addResistor.undo (Env.mk true fuzzySizesDiffer)) = [Event.incUndo]) := by
  refine ⟨⟨?_, ?_, ?_, ?_⟩, ?_, ?_, ?_, ?_⟩ <;> decide

end Progress


/-! ## Theorems: local names and bus binding -/

section Names

theorem setConnectorLocalName_toConnectors (c : Connector) (name : String) :
    (c.setConnectorLocalName name).m_toConnectors = c.m_toConnectors := by
  unfold Connector.setConnectorLocalName
  split
  · split_ifs <;> rfl
  · rfl

theorem setConnectorLocalName_shared (c : Connector) (name : String) :
    (c.setConnectorLocalName name).m_connectorShared = c.m_connectorShared := by
  unfold Connector.setConnectorLocalName
  split
  · split_ifs <;> rfl
  · rfl

/-- The local name after `setConnectorLocalName` on a connector with shared data. -/
theorem localName_setConnectorLocalName (c : Connector) (cs : ConnectorShared)
    (name : String) (hs : c.m_connectorShared = some cs) :
    (c.setConnectorLocalName name).connectorLocalName =
      if name = cs.sharedName then "" else name := by
  unfold Connector.setConnectorLocalName Connector.connectorLocalName
  rw [hs]
  by_cases hn : name = cs.sharedName <;> simp [hn]

/-- C22: on a connector with shared data, `setConnectorLocalName(name)` leaves the local
name empty when `name` equals the shared name, whatever it was before, and stores `name`
otherwise; in both cases `connectorSharedName()` afterwards returns `name` whenever
`name` is not empty. -/
theorem setConnectorLocalName_collapse (c : Connector) (cs : ConnectorShared)
    (name : String) (hs : c.m_connectorShared = some cs) :
    (name = cs.sharedName → (c.setConnectorLocalName name).connectorLocalName = "") ∧
    (name ≠ cs.sharedName → (c.setConnectorLocalName name).connectorLocalName = name) ∧
    (name ≠ "" → (c.setConnectorLocalName name).connectorSharedName = name) := by
  have hl := localName_setConnectorLocalName c cs name hs
  have hsh := setConnectorLocalName_shared c name
  refine ⟨?_, ?_, ?_⟩
  · intro hn
    rw [hl, if_pos hn]
  · intro hn
    rw [hl, if_neg hn]
  · intro hne
    unfold Connector.connectorLocalName at hl
    unfold Connector.connectorSharedName
    rw [hsh, hs]
    simp only [hl]
    by_cases hn : name = cs.sharedName
    · simp [hn]
    · simp [hn, hne]

theorem setConnectorLocalName_collapse_witness :
    renamedConnector.m_connectorShared = some threePinShared ∧
    (renamedConnector.setConnectorLocalName "pin 0").connectorLocalName = "" ∧
    (renamedConnector.setConnectorLocalName "pin 0").connectorSharedName = "pin 0" :=
  ⟨rfl,
   (setConnectorLocalName_collapse renamedConnector threePinShared "pin 0" rfl).1 rfl,
   (setConnectorLocalName_collapse renamedConnector threePinShared "pin 0" rfl).2.2
     (by decide)⟩

/-- C24: after `setSubBus(b)`, `removeSubBus()` detaches the connector (`bus()` is null,
`busID()` is empty, the sub-bus flag is false); after `setBus(b)`, `removeSubBus()`
changes nothing and `bus()` is still `b`; and a second `removeSubBus()` changes
nothing. -/
theorem removeSubBus_detaches (busIdOf : Nat → String) (c : Connector) (b : Option Nat) :
    ((c.setSubBus b).removeSubBus.bus = none ∧
      (c.setSubBus b).removeSubBus.busID busIdOf = "" ∧
      (c.setSubBus b).removeSubBus.m_isSubBus = false) ∧
    ((c.setBus b).removeSubBus = c.setBus b ∧ (c.setBus b).removeSubBus.bus = b) ∧
    c.removeSubBus.removeSubBus = c.removeSubBus := by
  refine ⟨⟨?_, ?_, ?_⟩, ⟨?_, ?_⟩, ?_⟩
  · simp [Connector.setSubBus, Connector.removeSubBus, Connector.bus]
  · simp [Connector.setSubBus, Connector.removeSubBus, Connector.busID]
  · simp [Connector.setSubBus, Connector.removeSubBus]
  · simp [Connector.setBus, Connector.removeSubBus]
  · simp [Connector.setBus, Connector.removeSubBus, Connector.bus]
  · unfold Connector.removeSubBus
    by_cases hf : c.m_isSubBus = true <;> simp [hf]

end Names

/-! ## Theorems: connect then disconnect -/

section ConnectDisconnect

theorem erase_append_singleton (l : List Nat) (x : Nat) (hx : x ∉ l) :
    (l ++ [x]).erase x = l := by
  rw [List.erase_append_right _ hx]
  simp

/-- C30: in a heap reached from fresh connectors by `connectTo` and `disconnectFrom`
calls in which `a` and `b` are not linked, `a.connectTo(b)` followed by
`a.disconnectFrom(b)` gives back the same heap: the lists of `a` and `b` have the same
elements in the same order and every other list is unchanged. -/
theorem connect_disconnect_restores (shared : Nat → Option ConnectorShared)
    (ops : List GraphOp) (a b : Nat)
    (hab : b ∉ (runOps shared ops).toConnectors a) :
    Connector.disconnectFrom (Connector.connectTo (runOps shared ops) a b) a b
        = runOps shared ops ∧
    ∀ k, (Connector.disconnectFrom (Connector.connectTo (runOps shared ops) a b) a b
        ).toConnectors k = (runOps shared ops).toConnectors k := by
  have hinv := graphInv_runOps shared ops
  generalize runOps shared ops = h at hab hinv
  have hba : a ∉ h.toConnectors b := fun hm => hab ((hinv.1 a b).2 hm)
  have hl : ∀ k, (Connector.disconnectFrom (Connector.connectTo h a b) a b).toConnectors k
      = h.toConnectors k := by
    intro k
    rw [toConnectors_disconnectFrom]
    simp only [toConnectors_connectTo, if_neg hab, if_neg hba, if_true]
    by_cases hk : k = b
    · subst hk
      by_cases he : k = a
      · subst he
        simp only [if_true]
        rw [erase_append_singleton _ _ hab, List.erase_of_not_mem hab]
      · have he2 : ¬ a = k := fun e => he e.symm
        simp only [if_true, if_neg he]
        exact erase_append_singleton _ _ hba
    · by_cases he : k = a
      · subst he
        simp only [if_neg hk, if_true]
        exact erase_append_singleton _ _ hab
      · simp only [if_neg hk, if_neg he]
  refine ⟨?_, hl⟩
  apply heap_ext
  · intro k
    rw [frame_disconnectFrom, frame_connectTo]
  · exact hl

theorem connect_disconnect_restores_witness :
    (3 : Nat) ∉ (runOps (fun _ => none) [GraphOp.connectTo 1 2]).toConnectors 1 ∧
    Connector.disconnectFrom
        (Connector.connectTo (runOps (fun _ => none) [GraphOp.connectTo 1 2]) 1 3) 1 3
      = runOps (fun _ => none) [GraphOp.connectTo 1 2] :=
  ⟨by decide,
   (connect_disconnect_restores (fun _ => none) [GraphOp.connectTo 1 2] 1 3
     (by decide)).1⟩

end ConnectDisconnect


/-! ## Theorems: indexed sub-command calls -/

section Indexed

/-- C23: for a command with `n` owned sub-commands and an index `i` with `i < 0` or
`i >= n`, `subUndo(i)` and `subRedo(i)` call no sub-command (the world and the log of
invocations are left as they were) and `subCommand(i)` is null; for `0 <= k < n`,
`subUndo(k)` and `subRedo(k)` make exactly one call, `undo()` respectively `redo()` on
the `k`-th sub-command, and `subCommand(k)` is that sub-command. -/
theorem indexed_sub_dispatch {σ : Type} (undo redo : Nat → σ → σ) (self : BaseCommand)
    (w : σ) (log : List Invocation) :
    (∀ i : Int, (i < 0 ∨ i ≥ self.m_commands.length) →
      BaseCommand.subUndoAt undo self i w = w ∧
      BaseCommand.subRedoAt redo self i w = w ∧
      BaseCommand.subUndoAt recordUndo self i log = log ∧
      BaseCommand.subRedoAt recordRedo self i log = log ∧
      self.subCommand i = none) ∧
    (∀ (k : Nat) (hk : k < self.m_commands.length),
      BaseCommand.subUndoAt undo self k w = undo self.m_commands[k] w ∧
      BaseCommand.subRedoAt redo self k w = redo self.m_commands[k] w ∧
      BaseCommand.subUndoAt recordUndo self k log
        = log ++ [Invocation.undo self.m_commands[k]] ∧
      BaseCommand.subRedoAt recordRedo self k log
        = log ++ [Invocation.redo self.m_commands[k]] ∧
      self.subCommand k = some self.m_commands[k]) := by
  constructor
  · intro i hi
    have hc : i < 0 ∨ i ≥ self.subCommandCount := hi
    refine ⟨?_, ?_, ?_, ?_, ?_⟩
    · unfold BaseCommand.subUndoAt
      rw [if_pos hc]
    · unfold BaseCommand.subRedoAt
      rw [if_pos hc]
    · unfold BaseCommand.subUndoAt
      rw [if_pos hc]
    · unfold BaseCommand.subRedoAt
      rw [if_pos hc]
    · unfold BaseCommand.subCommand
      rcases hc with h0 | hn
      · rw [if_pos h0]
      · by_cases h0 : i < 0
        · rw [if_pos h0]
        · rw [if_neg h0, if_pos hn]
  · intro k hk
    have hc : ¬ ((k : Int) < 0 ∨ (k : Int) ≥ self.subCommandCount) := by
      unfold BaseCommand.subCommandCount
      omega
    have h0 : ¬ ((k : Int) < 0) := by omega
    have hn : ¬ ((k : Int) ≥ self.subCommandCount) := by
      unfold BaseCommand.subCommandCount
      omega
    have hget : self.m_commands[(k : Int).toNat]? = some self.m_commands[k] := by
      rw [Int.toNat_ofNat]
      exact List.getElem?_eq_getElem hk
    refine ⟨?_, ?_, ?_, ?_, ?_⟩
    · unfold BaseCommand.subUndoAt
      rw [if_neg hc, hget]
    · unfold BaseCommand.subRedoAt
      rw [if_neg hc, hget]
    · unfold BaseCommand.subUndoAt
      rw [if_neg hc, hget]
      rfl
    · unfold BaseCommand.subRedoAt
      rw [if_neg hc, hget]
      rfl
    · unfold BaseCommand.subCommand
      rw [if_neg h0, if_neg hn, hget]

end Indexed

/-! ## Theorems: scope, direction flags, merged text and skipped redo -/

section Flags

/-- C25: `DeleteItemCommand::redo()` passes `scope == CrossView` as the cross-view
argument of `deleteItemForCommand`, whereas `AddItemCommand::undo()` passes `true`
whatever the scope is: the `SingleView` command `addResistorSingleView` makes the call
`deleteItemForCommand(4, true, true, false)`. -/
theorem addItem_undo_crossView_constant :
    (∀ (env : Env) (c : DeleteItemCommand),
      sketchCalls (c.redo env) =
        [(c.ad.sim.base.m_sketchWidget,
          SketchCall.deleteItemForCommand c.ad.m_itemID true
            (decide (c.ad.sim.base.crossViewType = CrossViewType.CrossView)) false)]) ∧
    (∀ (env : Env) (c : AddItemCommand),
      sketchCalls (c.undo env) =
        [(c.ad.sim.base.m_sketchWidget,
          SketchCall.deleteItemForCommand c.ad.m_itemID true true false)]) ∧
    addResistorSingleView.ad.sim.base.crossViewType = CrossViewType.SingleView ∧
    sketchCalls (addResistorSingleView.undo { progressActive := false }) =
      [(0, SketchCall.deleteItemForCommand 4 true true false)] := by
  refine ⟨?_, ?_, rfl, by decide⟩
  · intro env c
    unfold DeleteItemCommand.redo BaseCommand.crossViewType
    rw [sketchCalls_cons_sketch, sketchCalls_simRedo]
  · intro env c
    unfold AddItemCommand.undo
    rw [sketchCalls_cons_sketch, sketchCalls_simUndo]

/-- C26: `ChangeLegCurveCommand::undo()` calls `changeLegCurveForCommand` with the old
curve whatever `m_redoOnly` is, so the command `legCurveRedoOnly`, on which
`setRedoOnly()` was called, still makes that call; the undo of the four other wire and
leg commands makes no surface call once `m_redoOnly` is set, and the redo of all five
makes none once `m_undoOnly` is set. -/
theorem legCurve_undo_ignores_redoOnly :
    (legCurveRedoOnly.sim.base.m_redoOnly = true ∧
      sketchCalls (legCurveRedoOnly.undo { progressActive := true }) =
        [(0, SketchCall.changeLegCurveForCommand 4 "pin0" 1 none)]) ∧
    (∀ (env : Env) (c : ChangeLegCurveCommand),
      sketchCalls (c.undo env) =
        [(c.sim.base.m_sketchWidget,
          SketchCall.changeLegCurveForCommand c.m_fromID c.m_fromConnectorID c.m_index
            c.m_oldBezier)]) ∧
    (∀ (env : Env) (c : ChangeWireCommand),
      c.sim.base.m_redoOnly = true → sketchCalls (c.undo env) = []) ∧
    (∀ (env : Env) (c : ChangeWireCurveCommand),
      c.sim.base.m_redoOnly = true → sketchCalls (c.undo env) = []) ∧
    (∀ (env : Env) (c : ChangeLegCommand),
      c.sim.base.m_redoOnly = true → sketchCalls (c.undo env) = []) ∧
    (∀ (env : Env) (c : MoveLegBendpointCommand),
      c.sim.base.m_redoOnly = true → sketchCalls (c.undo env) = []) ∧
    (∀ (env : Env) (c : ChangeWireCommand),
      c.sim.base.m_undoOnly = true → sketchCalls (c.redo env) = []) ∧
    (∀ (env : Env) (c : ChangeWireCurveCommand),
      c.sim.base.m_undoOnly = true → sketchCalls (c.redo env).2 = []) ∧
    (∀ (env : Env) (c : ChangeLegCommand),
      c.sim.base.m_undoOnly = true → sketchCalls (c.redo env) = []) ∧
    (∀ (env : Env) (c : MoveLegBendpointCommand),
      c.sim.base.m_undoOnly = true → sketchCalls (c.redo env) = []) ∧
    (∀ (env : Env) (c : ChangeLegCurveCommand),
      c.sim.base.m_undoOnly = true → sketchCalls (c.redo env).2 = []) := by
  refine ⟨⟨rfl, by decide⟩, ?_, ?_, ?_, ?_, ?_, ?_, ?_, ?_, ?_, ?_⟩
  · intro env c
    unfold ChangeLegCurveCommand.undo
    rw [sketchCalls_cons_sketch, sketchCalls_simUndo]
  · intro env c h
    unfold ChangeWireCommand.undo
    rw [sketchCalls_append, sketchCalls_simUndo, h]
    rfl
  · intro env c h
    unfold ChangeWireCurveCommand.undo
    rw [sketchCalls_append, sketchCalls_simUndo, h]
    rfl
  · intro env c h
    unfold ChangeLegCommand.undo
    rw [sketchCalls_append, sketchCalls_simUndo, h]
    rfl
  · intro env c h
    unfold MoveLegBendpointCommand.undo
    rw [sketchCalls_append, sketchCalls_simUndo, h]
    rfl
  · intro env c h
    unfold ChangeWireCommand.redo
    rw [sketchCalls_append, sketchCalls_simRedo, h]
    rfl
  · intro env c h
    unfold ChangeWireCurveCommand.redo
    simp only [h, Bool.not_true, Bool.false_eq_true, if_false]
    exact sketchCalls_simRedo env c.sim
  · intro env c h
    unfold ChangeLegCommand.redo
    rw [sketchCalls_append, sketchCalls_simRedo, h]
    rfl
  · intro env c h
    unfold MoveLegBendpointCommand.redo
    rw [sketchCalls_append, sketchCalls_simRedo, h]
    rfl
  · intro env c h
    unfold ChangeLegCurveCommand.redo
    by_cases hs : c.sim.base.m_skipFirstRedo = true
    · simp only [hs, if_true]
      exact sketchCalls_simRedo env c.sim
    · simp only [hs, h, Bool.not_true, Bool.false_eq_true, if_false]
      exact sketchCalls_simRedo env c.sim

/-- C28: `ChangeNoteTextCommand::mergeWith` leaves the display text of the receiver as
it was: merging `noteGrowMoreTitled` (text `Resize note`) into `noteGrowTitled` (text
`Edit note`) succeeds and the text stays `Edit note`; `SelectItemCommand::mergeWith`
takes over the text of the other command on success. -/
theorem noteMerge_keeps_text :
    ((noteGrowTitled.mergeWith (UndoCommand.changeNoteText noteGrowMoreTitled)).1 = true ∧
      (noteGrowTitled.mergeWith (UndoCommand.changeNoteText noteGrowMoreTitled)).2.base.m_text
        = "Edit note" ∧
      noteGrowMoreTitled.base.m_text = "Resize note") ∧
    (∀ (a : ChangeNoteTextCommand) (other : UndoCommand),
      (a.mergeWith other).2.base.m_text = a.base.m_text) ∧
    (∀ (a b : SelectItemCommand),
      (a.mergeWith (UndoCommand.selectItem b)).1 = true →
        (a.mergeWith (UndoCommand.selectItem b)).2.base.m_text = b.base.m_text) := by
  refine ⟨⟨by decide, by decide, rfl⟩, ?_, ?_⟩
  · intro a other
    unfold ChangeNoteTextCommand.mergeWith
    split_ifs
    · rfl
    · cases other with
      | selectItem c => rfl
      | changeNoteText c =>
        simp only []
        split_ifs <;> rfl
      | otherClass id => rfl
  · intro a b
    unfold SelectItemCommand.mergeWith
    by_cases hid : (UndoCommand.selectItem b).id ≠ a.id
    · simp [hid]
    · by_cases hsc : b.base.crossViewType ≠ a.base.crossViewType
      · simp [hid, hsc]
      · simp [hid, hsc]

theorem incLabel_redoCalls_skip (env : Env) (n : Nat) (c : IncLabelTextCommand)
    (hs : c.base.m_skipFirstRedo = true) :
    ∀ evs ∈ IncLabelTextCommand.redoCalls env n c, sketchCalls evs = [] := by
  induction n with
  | zero =>
    intro evs hm
    simp [IncLabelTextCommand.redoCalls] at hm
  | succ k ih =>
    intro evs hm
    unfold IncLabelTextCommand.redoCalls at hm
    rcases List.mem_cons.1 hm with h1 | h2
    · rw [h1]
      unfold IncLabelTextCommand.redo
      simp only [hs, Bool.not_true, Bool.false_eq_true, if_false, List.nil_append]
      exact sketchCalls_baseRedo env c.base
    · exact ih evs h2

/-- C29: `IncLabelTextCommand::redo()` never clears the skip flag, so after
`setSkipFirstRedo()` no `redo()` at all makes an `incInstanceTitleForCommand` call: for
the command `incLabel4Skip` the first and the second `redo()` both make no surface
call. -/
theorem incLabel_redo_always_suppressed :
    (IncLabelTextCommand.redoCalls { progressActive := false } 2 incLabel4Skip).map
        sketchCalls = [[], []] ∧
    (∀ (env : Env) (c : IncLabelTextCommand) (n : Nat),
      ∀ evs ∈ IncLabelTextCommand.redoCalls env n c.setSkipFirstRedo,
        sketchCalls evs = []) ∧
    (∀ (env : Env) (c : IncLabelTextCommand), (c.redo env).1 = c) := by
  refine ⟨by decide, ?_, ?_⟩
  · intro env c n
    exact incLabel_redoCalls_skip env n c.setSkipFirstRedo rfl
  · intro env c
    rfl

end Flags


/-! ## Theorems: building and replaying a clean-up command -/

section CleanUpBuild

theorem foldl_append_flatMap_events {α : Type} (f : α → List Event) (l : List α)
    (w : List Event) :
    l.foldl (fun acc x => acc ++ f x) w = w ++ l.flatMap f := by
  induction l generalizing w with
  | nil => simp
  | cons x rest ih =>
    rw [List.foldl_cons, ih, List.flatMap_cons, List.append_assoc]

/-- The replay of `subRedo()` through the heap: the calls of the sub-commands, first
to last. -/
theorem subRedo_dispatchRedo (heap : CommandHeap) (env : Env) (base : BaseCommand)
    (log : List Event) :
    BaseCommand.subRedo (heap.dispatchRedo env) base log
      = log ++ base.m_commands.flatMap (fun p =>
          match heap p with
          | some c => c.redo env
          | none => []) := by
  unfold BaseCommand.subRedo
  exact foldl_append_flatMap_events _ _ _

theorem subUndoLoop_dispatchUndo (heap : CommandHeap) (env : Env)
    (added : Int → Option ItemBase) (cmds : List Nat) (n : Nat) (hn : n ≤ cmds.length)
    (log : List Event) :
    BaseCommand.subUndoLoop (heap.dispatchUndo env added) cmds n log
      = log ++ (cmds.take n).reverse.flatMap (fun p =>
          match heap p with
          | some c => c.undo env added
          | none => []) := by
  induction n generalizing log with
  | zero => simp [BaseCommand.subUndoLoop]
  | succ i ih =>
    have hi : i < cmds.length := hn
    rw [BaseCommand.subUndoLoop, List.getElem?_eq_getElem hi]
    simp only []
    rw [ih (Nat.le_of_lt hi), List.take_succ, List.getElem?_eq_getElem hi]
    simp only [CommandHeap.dispatchUndo, Option.toList, List.reverse_append,
      List.reverse_cons, List.reverse_nil, List.nil_append, List.flatMap_append,
      List.flatMap_cons, List.flatMap_nil, List.append_assoc, List.singleton_append,
      List.append_nil, List.cons_append]

/-- The replay of `subUndo()` through the heap: the calls of the sub-commands, last to
first. -/
theorem subUndo_dispatchUndo (heap : CommandHeap) (env : Env)
    (added : Int → Option ItemBase) (base : BaseCommand) (log : List Event) :
    BaseCommand.subUndo (heap.dispatchUndo env added) base log
      = log ++ base.m_commands.reverse.flatMap (fun p =>
          match heap p with
          | some c => c.undo env added
          | none => []) := by
  unfold BaseCommand.subUndo
  rw [subUndoLoop_dispatchUndo heap env added _ _ (Nat.le_refl _), List.take_length]

theorem flatMap_through_heap (heap : CommandHeap) (g : OwnedCommand → List Event)
    (l : List Nat) (subs : List OwnedCommand) (h : l.map heap = subs.map some) :
    l.flatMap (fun p =>
        match heap p with
        | some c => g c
        | none => []) = subs.flatMap g := by
  induction l generalizing subs with
  | nil =>
    cases subs with
    | nil => rfl
    | cons s rest => simp at h
  | cons p ps ih =>
    cases subs with
    | nil => simp at h
    | cons s rest =>
      rw [List.map_cons, List.map_cons, List.cons.injEq] at h
      rw [List.flatMap_cons, List.flatMap_cons, ih rest h.2, h.1]

theorem addOwned_store (st : CommandStore × CleanUpWiresCommand) (command : OwnedCommand)
    (subs : List OwnedCommand)
    (h1 : st.2.sim.base.m_commands.map st.1.heap = subs.map some)
    (h2 : ∀ p ∈ st.2.sim.base.m_commands, p < st.1.next) :
    (CleanUpWiresCommand.addOwned st command).2.sim.base.m_commands.map
        (CleanUpWiresCommand.addOwned st command).1.heap = (subs ++ [command]).map some ∧
    ∀ p ∈ (CleanUpWiresCommand.addOwned st command).2.sim.base.m_commands,
      p < (CleanUpWiresCommand.addOwned st command).1.next := by
  unfold CleanUpWiresCommand.addOwned BaseCommand.addSubCommand
  simp only []
  constructor
  · rw [List.map_append, List.map_append, ← h1]
    congr 1
    · apply List.map_congr_left
      intro p hp
      have hlt := h2 p hp
      exact Function.update_noteq (Nat.ne_of_lt hlt) _ _
    · simp
  · intro p hp
    rcases List.mem_append.1 hp with hm | hm
    · exact Nat.lt_succ_of_lt (h2 p hm)
    · rw [List.mem_singleton.1 hm]
      exact Nat.lt_succ_self _

theorem foldl_addOwned_store (commands : List OwnedCommand)
    (st : CommandStore × CleanUpWiresCommand) (subs : List OwnedCommand)
    (h1 : st.2.sim.base.m_commands.map st.1.heap = subs.map some)
    (h2 : ∀ p ∈ st.2.sim.base.m_commands, p < st.1.next) :
    (commands.foldl CleanUpWiresCommand.addOwned st).2.sim.base.m_commands.map
        (commands.foldl CleanUpWiresCommand.addOwned st).1.heap
      = (subs ++ commands).map some ∧
    ∀ p ∈ (commands.foldl CleanUpWiresCommand.addOwned st).2.sim.base.m_commands,
      p < (commands.foldl CleanUpWiresCommand.addOwned st).1.next := by
  induction commands generalizing st subs with
  | nil => simpa using ⟨h1, h2⟩
  | cons c rest ih =>
    have hstep := addOwned_store st c subs h1 h2
    have hrest := ih (CleanUpWiresCommand.addOwned st c) (subs ++ [c]) hstep.1 hstep.2
    rw [List.foldl_cons]
    simpa using hrest

theorem foldl_addOwned_frame (commands : List OwnedCommand)
    (st : CommandStore × CleanUpWiresCommand) :
    (commands.foldl CleanUpWiresCommand.addOwned st).2.frame = st.2.frame ∧
    (commands.foldl CleanUpWiresCommand.addOwned st).2.m_sketchWidgets
      = st.2.m_sketchWidgets := by
  induction commands generalizing st with
  | nil => exact ⟨rfl, rfl⟩
  | cons c rest ih =>
    rw [List.foldl_cons]
    exact ⟨(ih _).1.trans rfl, (ih _).2.trans rfl⟩

theorem insertSketchWidget_pos (widgets : List Nat) (sketchWidget : Nat) :
    (insertSketchWidget widgets sketchWidget).length > 0 := by
  unfold insertSketchWidget
  split_ifs with h
  · have hm : sketchWidget ∈ widgets := by simpa using h
    exact List.length_pos_of_mem hm
  · simp

theorem apply_store (lookups : SketchLookups) (parentChildren : Option (List (Option Int)))
    (op : CleanUpOp) (st : CommandStore × CleanUpWiresCommand) (subs : List OwnedCommand)
    (h1 : st.2.sim.base.m_commands.map st.1.heap = subs.map some)
    (h2 : ∀ p ∈ st.2.sim.base.m_commands, p < st.1.next) :
    (CleanUpOp.apply lookups parentChildren st op).2.sim.base.m_commands.map
        (CleanUpOp.apply lookups parentChildren st op).1.heap
      = (subs ++ CleanUpOp.created lookups parentChildren op).map some ∧
    ∀ p ∈ (CleanUpOp.apply lookups parentChildren st op).2.sim.base.m_commands,
      p < (CleanUpOp.apply lookups parentChildren st op).1.next := by
  cases op with
  | addRoutingStatus w o n =>
    exact addOwned_store st _ subs h1 h2
  | addTrace w wire =>
    unfold CleanUpOp.apply CleanUpOp.created CleanUpWiresCommand.addTrace
    by_cases hd : wireDeletedByParent parentChildren wire = true
    · simp only [hd, if_true, List.append_nil]
      exact ⟨h1, h2⟩
    · simp only [hd, if_false]
      exact foldl_addOwned_store _ _ subs h1 h2

theorem apply_frame (lookups : SketchLookups) (parentChildren : Option (List (Option Int)))
    (op : CleanUpOp) (st : CommandStore × CleanUpWiresCommand) :
    (CleanUpOp.apply lookups parentChildren st op).2.frame = st.2.frame ∧
    ((CleanUpOp.apply lookups parentChildren st op).2.m_sketchWidgets.length > 0 ↔
      (st.2.m_sketchWidgets.length > 0 ∨ op.addsTrace parentChildren = true)) := by
  cases op with
  | addRoutingStatus w o n =>
    constructor
    · rfl
    · simp [CleanUpOp.apply, CleanUpWiresCommand.addRoutingStatus,
        CleanUpWiresCommand.addOwned, CleanUpOp.addsTrace]
  | addTrace w wire =>
    unfold CleanUpOp.apply CleanUpOp.addsTrace CleanUpWiresCommand.addTrace
    by_cases hd : wireDeletedByParent parentChildren wire = true
    · simp [hd]
    · have hd2 : wireDeletedByParent parentChildren wire = false := by simpa using hd
      simp only [hd2, Bool.false_eq_true, if_false, Bool.not_false]
      constructor
      · rw [(foldl_addOwned_frame _ _).1]
        rfl
      · rw [(foldl_addOwned_frame _ _).2]
        simp [insertSketchWidget_pos]

theorem foldl_apply_store (lookups : SketchLookups)
    (parentChildren : Option (List (Option Int))) (ops : List CleanUpOp)
    (st : CommandStore × CleanUpWiresCommand) (subs : List OwnedCommand)
    (h1 : st.2.sim.base.m_commands.map st.1.heap = subs.map some)
    (h2 : ∀ p ∈ st.2.sim.base.m_commands, p < st.1.next) :
    (ops.foldl (CleanUpOp.apply lookups parentChildren) st).2.sim.base.m_commands.map
        (ops.foldl (CleanUpOp.apply lookups parentChildren) st).1.heap
      = (subs ++ ops.flatMap (CleanUpOp.created lookups parentChildren)).map some := by
  induction ops generalizing st subs with
  | nil => simpa using h1
  | cons op rest ih =>
    have hstep := apply_store lookups parentChildren op st subs h1 h2
    have hrest := ih _ _ hstep.1 hstep.2
    rw [List.foldl_cons, List.flatMap_cons, ← List.append_assoc]
    exact hrest

theorem foldl_apply_frame (lookups : SketchLookups)
    (parentChildren : Option (List (Option Int))) (ops : List CleanUpOp)
    (st : CommandStore × CleanUpWiresCommand) :
    (ops.foldl (CleanUpOp.apply lookups parentChildren) st).2.frame = st.2.frame ∧
    ((ops.foldl (CleanUpOp.apply lookups parentChildren) st).2.m_sketchWidgets.length > 0 ↔
      (st.2.m_sketchWidgets.length > 0 ∨
        ops.any (CleanUpOp.addsTrace parentChildren) = true)) := by
  induction ops generalizing st with
  | nil => simp
  | cons op rest ih =>
    have hstep := apply_frame lookups parentChildren op st
    have hrest := ih (CleanUpOp.apply lookups parentChildren st op)
    rw [List.foldl_cons]
    constructor
    · rw [hrest.1, hstep.1]
    · rw [hrest.2, hstep.2, List.any_cons, Bool.or_eq_true, or_assoc]

/-- A clean-up command whose frame is that of a fresh command: the events of `redo()`
and `undo()` in closed form. -/
theorem cleanUp_events (env : Env) (heap : CommandHeap) (added : Int → Option ItemBase)
    (c : CleanUpWiresCommand) (subs : List OwnedCommand)
    (hr : c.m_ratsnestConnectThings = [])
    (h1 : c.sim.base.m_commands.map heap = subs.map some) :
    c.redo env heap =
      (if c.m_sketchWidgets.length > 0 then subs.flatMap (OwnedCommand.redo env) else []) ++
        c.redoTail env ∧
    c.undo env heap added =
      (if c.m_sketchWidgets.length > 0 then
        subs.reverse.flatMap (OwnedCommand.undo env added) else []) ++
        c.undoTail env := by
  have h1r : c.sim.base.m_commands.reverse.map heap = subs.reverse.map some := by
    rw [List.map_reverse, h1, List.map_reverse]
  constructor
  · unfold CleanUpWiresCommand.redo CleanUpWiresCommand.redoTail
    rw [hr, subRedo_dispatchRedo, flatMap_through_heap heap _ _ subs h1]
    simp only [List.map_nil, List.nil_append, List.append_assoc]
  · unfold CleanUpWiresCommand.undo CleanUpWiresCommand.undoTail
    rw [hr, subUndo_dispatchUndo, flatMap_through_heap heap _ _ subs.reverse h1r]
    simp only [List.map_nil, List.nil_append, List.append_assoc]

/-- C27: a clean-up command built by `addRoutingStatus` and `addTrace` calls owns the
sub-commands these calls created, in the order of creation. When at least one
`addTrace` call was not cut short, `redo()` replays `redo()` of the sub-commands first
to last and `undo()` replays `undo()` of them last to first, before the tail of the
method; when there was none (only `addRoutingStatus` calls, or traces of wires the
parent already deletes), neither method calls any sub-command. -/
theorem cleanUp_replay_needs_trace (lookups : SketchLookups)
    (parentChildren : Option (List (Option Int))) (store : CommandStore)
    (sketchWidget : Nat) (direction : Direction) (ops : List CleanUpOp) (env : Env)
    (added : Int → Option ItemBase) :
    (buildCleanUp lookups parentChildren store sketchWidget direction ops
        ).2.sim.base.m_commands.map
        (buildCleanUp lookups parentChildren store sketchWidget direction ops).1.heap
      = (ops.flatMap (CleanUpOp.created lookups parentChildren)).map some ∧
    (ops.any (CleanUpOp.addsTrace parentChildren) = true →
      (buildCleanUp lookups parentChildren store sketchWidget direction ops).2.redo env
          (buildCleanUp lookups parentChildren store sketchWidget direction ops).1.heap
        = (ops.flatMap (CleanUpOp.created lookups parentChildren)).flatMap
            (OwnedCommand.redo env) ++
          (buildCleanUp lookups parentChildren store sketchWidget direction ops
            ).2.redoTail env ∧
      (buildCleanUp lookups parentChildren store sketchWidget direction ops).2.undo env
          (buildCleanUp lookups parentChildren store sketchWidget direction ops).1.heap
          added
        = (ops.flatMap (CleanUpOp.created lookups parentChildren)).reverse.flatMap
            (OwnedCommand.undo env added) ++
          (buildCleanUp lookups parentChildren store sketchWidget direction ops
            ).2.undoTail env) ∧
    (ops.any (CleanUpOp.addsTrace parentChildren) = false →
      (buildCleanUp lookups parentChildren store sketchWidget direction ops).2.redo env
          (buildCleanUp lookups parentChildren store sketchWidget direction ops).1.heap
        = (buildCleanUp lookups parentChildren store sketchWidget direction ops
            ).2.redoTail env ∧
      (buildCleanUp lookups parentChildren store sketchWidget direction ops).2.undo env
          (buildCleanUp lookups parentChildren store sketchWidget direction ops).1.heap
          added
        = (buildCleanUp lookups parentChildren store sketchWidget direction ops
            ).2.undoTail env) ∧
    (buildCleanUp lookups parentChildren store sketchWidget direction ops).2.frame
      = CleanUpWiresCommand.construct lookups sketchWidget direction := by
  have hstore := foldl_apply_store lookups parentChildren ops
    (store, CleanUpWiresCommand.construct lookups sketchWidget direction) []
    rfl (by intro p hp; cases hp)
  have hframe := foldl_apply_frame lookups parentChildren ops
    (store, CleanUpWiresCommand.construct lookups sketchWidget direction)
  rw [List.nil_append] at hstore
  have hfr : (buildCleanUp lookups parentChildren store sketchWidget direction ops).2.frame
      = CleanUpWiresCommand.construct lookups sketchWidget direction := hframe.1
  have hw : (buildCleanUp lookups parentChildren store sketchWidget direction ops
      ).2.m_sketchWidgets.length > 0 ↔
      ops.any (CleanUpOp.addsTrace parentChildren) = true := by
    have h := hframe.2
    simpa [CleanUpWiresCommand.construct, buildCleanUp] using h
  have hrats : (buildCleanUp lookups parentChildren store sketchWidget direction ops
      ).2.m_ratsnestConnectThings = [] :=
    congrArg CleanUpWiresCommand.m_ratsnestConnectThings hfr
  have hev := cleanUp_events env
    (buildCleanUp lookups parentChildren store sketchWidget direction ops).1.heap added
    (buildCleanUp lookups parentChildren store sketchWidget direction ops).2
    (ops.flatMap (CleanUpOp.created lookups parentChildren)) hrats hstore
  refine ⟨hstore, ?_, ?_, hfr⟩
  · intro ht
    have hpos := hw.2 ht
    rw [hev.1, hev.2, if_pos hpos, if_pos hpos]
    exact ⟨rfl, rfl⟩
  · intro ht
    have hneg : ¬ (buildCleanUp lookups parentChildren store sketchWidget direction ops
        ).2.m_sketchWidgets.length > 0 := by
      intro hpos
      rw [hw.1 hpos] at ht
      cases ht
    rw [hev.1, hev.2, if_neg hneg, if_neg hneg]
    exact ⟨rfl, rfl⟩

theorem cleanUp_replay_needs_trace_witness :
    [CleanUpOp.addRoutingStatus 0 (routingStatusOf 1) (routingStatusOf 2),
      CleanUpOp.addTrace 0 wire12].any (CleanUpOp.addsTrace none) = true ∧
    sketchCalls ((buildCleanUp exampleLookups none emptyStoreAt100 0 Direction.Noop
        [CleanUpOp.addRoutingStatus 0 (routingStatusOf 1) (routingStatusOf 2),
          CleanUpOp.addTrace 0 wire12]).2.redo { progressActive := false }
        (buildCleanUp exampleLookups none emptyStoreAt100 0 Direction.Noop
          [CleanUpOp.addRoutingStatus 0 (routingStatusOf 1) (routingStatusOf 2),
            CleanUpOp.addTrace 0 wire12]).1.heap)
      = [(0, SketchCall.forwardRoutingStatusForCommand (routingStatusOf 2)),
         (0, SketchCall.changeWireColorForCommand 12 "blue" 1),
         (0, SketchCall.changeWireWidthForCommand 12 2),
         (0, SketchCall.deleteItemForCommand 12 true true false)] := by
  refine ⟨by decide, ?_⟩
  rw [((cleanUp_replay_needs_trace exampleLookups none emptyStoreAt100 0 Direction.Noop
    [CleanUpOp.addRoutingStatus 0 (routingStatusOf 1) (routingStatusOf 2),
      CleanUpOp.addTrace 0 wire12] { progressActive := false } (fun _ => none)).2.1
    (by decide)).1]
  decide

/-- A clean-up command that was given one routing-status sub-command and no trace owns
that sub-command, whose `redo()` would forward the new routing status, yet `redo()` and
`undo()` of the clean-up command make no call on it. -/
theorem cleanUp_replay_counterexample :
    (buildCleanUp exampleLookups none emptyStoreAt100 0 Direction.Noop
        [CleanUpOp.addRoutingStatus 0 (routingStatusOf 1) (routingStatusOf 2)]
      ).2.sim.base.m_commands = [100] ∧
    (buildCleanUp exampleLookups none emptyStoreAt100 0 Direction.Noop
        [CleanUpOp.addRoutingStatus 0 (routingStatusOf 1) (routingStatusOf 2)]
      ).1.heap 100
      = some (OwnedCommand.routingStatus
          (RoutingStatusCommand.construct 0 (routingStatusOf 1) (routingStatusOf 2))) ∧
    (OwnedCommand.routingStatus
        (RoutingStatusCommand.construct 0 (routingStatusOf 1) (routingStatusOf 2))).redo
        { progressActive := false }
      = [Event.sketch 0 (SketchCall.forwardRoutingStatusForCommand (routingStatusOf 2))] ∧
    (buildCleanUp exampleLookups none emptyStoreAt100 0 Direction.Noop
        [CleanUpOp.addRoutingStatus 0 (routingStatusOf 1) (routingStatusOf 2)]).2.redo
        { progressActive := false }
        (buildCleanUp exampleLookups none emptyStoreAt100 0 Direction.Noop
          [CleanUpOp.addRoutingStatus 0 (routingStatusOf 1) (routingStatusOf 2)]).1.heap
      = [Event.triggerSimulator 0] ∧
    (buildCleanUp exampleLookups none emptyStoreAt100 0 Direction.Noop
        [CleanUpOp.addRoutingStatus 0 (routingStatusOf 1) (routingStatusOf 2)]).2.undo
        { progressActive := false }
        (buildCleanUp exampleLookups none emptyStoreAt100 0 Direction.Noop
          [CleanUpOp.addRoutingStatus 0 (routingStatusOf 1) (routingStatusOf 2)]).1.heap
        (fun _ => none)
      = [Event.triggerSimulator 0] := by
  refine ⟨by decide, by decide, by decide, by decide, by decide⟩

end CleanUpBuild


/-! ## Theorems: restoring local connector names -/

section RestoreNames

theorem applyEvents_nil (h : ConnectorHeap) : h.applyEvents [] = h := rfl

theorem applyEvents_cons (h : ConnectorHeap) (e : Event) (es : List Event) :
    h.applyEvents (e :: es) = (h.applyEvent e).applyEvents es := rfl

theorem applyEvents_append (h : ConnectorHeap) (es fs : List Event) :
    h.applyEvents (es ++ fs) = (h.applyEvents es).applyEvents fs := by
  unfold ConnectorHeap.applyEvents
  rw [List.foldl_append]

theorem applyEvents_baseUndo (h : ConnectorHeap) (env : Env) (b : BaseCommand) :
    h.applyEvents (BaseCommand.undo env b) = h := by
  unfold BaseCommand.undo
  split_ifs <;> rfl

theorem applyEvents_simUndo (h : ConnectorHeap) (env : Env) (c : SimulationCommand) :
    h.applyEvents (SimulationCommand.undo env c) = h := by
  unfold SimulationCommand.undo
  rw [applyEvents_append, applyEvents_baseUndo]
  cases c.m_mainWindow <;> rfl

theorem lookup_mem {α : Type} (l : List (String × α)) (k : String) (v : α)
    (hl : l.lookup k = some v) : (k, v) ∈ l := by
  induction l with
  | nil => simp at hl
  | cons e rest ih =>
    obtain ⟨k2, v2⟩ := e
    rw [List.lookup_cons] at hl
    by_cases hk : (k == k2) = true
    · rw [hk] at hl
      have hk2 : k = k2 := by simpa using hk
      have hv : v2 = v := by simpa using hl
      rw [hk2, hv]
      exact List.mem_cons_self _ _
    · have hk2 : (k == k2) = false := by simpa using hk
      rw [hk2] at hl
      exact List.mem_cons_of_mem _ (ih hl)

theorem nodup_snd_inj (l : List (String × Nat)) (hn : (l.map Prod.snd).Nodup)
    (a b : String) (q : Nat) (ha : (a, q) ∈ l) (hb : (b, q) ∈ l) : a = b := by
  induction l with
  | nil => cases ha
  | cons e rest ih =>
    rw [List.map_cons, List.nodup_cons] at hn
    rcases List.mem_cons.1 ha with ha1 | ha2
    · rcases List.mem_cons.1 hb with hb1 | hb2
      · have h1 := congrArg Prod.fst ha1
        have h2 := congrArg Prod.fst hb1
        simp only at h1 h2
        rw [h1, h2]
      · exfalso
        apply hn.1
        have hq : e.2 = q := by rw [← ha1]
        rw [hq]
        exact List.mem_map.2 ⟨(b, q), hb2, rfl⟩
    · rcases List.mem_cons.1 hb with hb1 | hb2
      · exfalso
        apply hn.1
        have hq : e.2 = q := by rw [← hb1]
        rw [hq]
        exact List.mem_map.2 ⟨(a, q), ha2, rfl⟩
      · exact ih hn.2 ha2 hb2

/-- The loop over the snapshot keys leaves a connector alone that no key leads to. -/
theorem restore_untouched (item : ItemBase) (nameOf : String → String) (ks : List String)
    (h : ConnectorHeap) (p : Nat) (hno : ∀ k ∈ ks, item.m_connectors.lookup k ≠ some p) :
    (h.applyEvents (ks.filterMap (fun k =>
        match item.m_connectors.lookup k with
        | some q => some (Event.setConnectorLocalName q (nameOf k))
        | none => none))) p = h p := by
  induction ks generalizing h with
  | nil => rfl
  | cons k rest ih =>
    have hrest : ∀ k2 ∈ rest, item.m_connectors.lookup k2 ≠ some p :=
      fun k2 hk2 => hno k2 (List.mem_cons_of_mem _ hk2)
    have hk := hno k (List.mem_cons_self _ _)
    rw [List.filterMap_cons]
    cases hq : item.m_connectors.lookup k with
    | none =>
      simp only []
      exact ih h hrest
    | some q =>
      simp only []
      rw [applyEvents_cons, ih _ hrest]
      have hne : p ≠ q := by
        intro e
        apply hk
        rw [hq, e]
      exact Function.update_noteq hne _ _

/-- The loop over the snapshot keys executes `setConnectorLocalName` with the saved
name on the connector of a key, when the keys are distinct and no other key leads to
the same connector. -/
theorem restore_sets (item : ItemBase) (nameOf : String → String) (ks : List String)
    (hnd : ks.Nodup) (h : ConnectorHeap) (id : String) (p : Nat) (hmem : id ∈ ks)
    (hp : item.m_connectors.lookup id = some p)
    (hinj : ∀ k, item.m_connectors.lookup k = some p → k = id) :
    (h.applyEvents (ks.filterMap (fun k =>
        match item.m_connectors.lookup k with
        | some q => some (Event.setConnectorLocalName q (nameOf k))
        | none => none))) p = (h p).setConnectorLocalName (nameOf id) := by
  induction ks generalizing h with
  | nil => cases hmem
  | cons k rest ih =>
    rw [List.nodup_cons] at hnd
    rw [List.filterMap_cons]
    by_cases hk : k = id
    · subst hk
      rw [hp]
      simp only []
      rw [applyEvents_cons]
      have hno : ∀ k2 ∈ rest, item.m_connectors.lookup k2 ≠ some p := by
        intro k2 hk2 hl
        apply hnd.1
        rw [← hinj k2 hl]
        exact hk2
      rw [restore_untouched item nameOf rest _ p hno]
      exact Function.update_same _ _ _
    · have hin : id ∈ rest := by
        rcases List.mem_cons.1 hmem with h1 | h2
        · exact absurd h1.symm hk
        · exact h2
      cases hq : item.m_connectors.lookup k with
      | none =>
        simp only []
        exact ih hnd.2 h hin
      | some q =>
        simp only []
        rw [applyEvents_cons, ih hnd.2 _ hin]
        have hne : p ≠ q := by
          intro e
          apply hk
          apply hinj
          rw [hq, e]
        have hsame : ConnectorHeap.applyEvent h (Event.setConnectorLocalName q (nameOf k)) p
            = h p := Function.update_noteq hne _ _
        rw [hsame]

/-- The events of `DeleteItemCommand::undo()` when the restore loop is not entered: no
connector is touched. -/
theorem applyEvents_undo_plain (h : ConnectorHeap) (env : Env) (c : DeleteItemCommand) :
    h.applyEvents ([c.ad.addItemCall] ++ SimulationCommand.undo env c.ad.sim ++ [] ++
      BaseCommand.undo env c.ad.sim.base) = h := by
  rw [applyEvents_append, applyEvents_append, applyEvents_append, applyEvents_baseUndo,
    applyEvents_nil, applyEvents_simUndo]
  rfl

/-- C21: for a `DeleteItemCommand` with a snapshot of local names whose keys are
distinct, when `addItemForCommand` hands back an item whose model part has the property
`editable pin labels` equal to `true` and whose connectors are distinct objects,
`undo()` first re-adds the item and then executes `setConnectorLocalName(saved name)`
on the connector of every snapshot id the item has a connector for: afterwards the local
name of that connector is the saved name, or empty when the saved name equals its
shared name. When no item or no model part is handed back, or the property is not
`true`, no connector is touched. -/
theorem deleteItem_undo_restores_names (env : Env) (h : ConnectorHeap)
    (c : DeleteItemCommand) (item : ItemBase) (lc props : List (String × String))
    (hlc : c.ad.m_localConnectors = some lc) (hkeys : (lc.map Prod.fst).Nodup)
    (hprops : item.m_modelPartProperties = some props)
    (hedit : (props.lookup "editable pin labels").getD "" = "true")
    (hptr : (item.m_connectors.map Prod.snd).Nodup)
    (id name : String) (p : Nat) (hid : lc.lookup id = some name)
    (hp : item.m_connectors.lookup id = some p) :
    (c.undo env (some item)).head? = some c.ad.addItemCall ∧
    h.applyEvents (c.undo env (some item)) p = (h p).setConnectorLocalName name ∧
    (∀ cs, (h p).m_connectorShared = some cs →
      (h.applyEvents (c.undo env (some item)) p).connectorLocalName
        = if name = cs.sharedName then "" else name) ∧
    h.applyEvents (c.undo env none) = h ∧
    (∀ item2 : ItemBase, item2.m_modelPartProperties = none →
      h.applyEvents (c.undo env (some item2)) = h) ∧
    (∀ (item2 : ItemBase) (props2 : List (String × String)),
      item2.m_modelPartProperties = some props2 →
      (props2.lookup "editable pin labels").getD "" ≠ "true" →
      h.applyEvents (c.undo env (some item2)) = h) := by
  have hinj : ∀ k, item.m_connectors.lookup k = some p → k = id := by
    intro k hk
    exact nodup_snd_inj item.m_connectors hptr k id p (lookup_mem _ _ _ hk)
      (lookup_mem _ _ _ hp)
  have hmem : id ∈ lc.map Prod.fst :=
    List.mem_map.2 ⟨(id, name), lookup_mem _ _ _ hid, rfl⟩
  have hname : (lc.lookup id).getD "" = name := by rw [hid]; rfl
  have hset : h.applyEvents (c.undo env (some item)) p
      = (h p).setConnectorLocalName name := by
    unfold DeleteItemCommand.undo
    rw [hlc]
    simp only [hprops, hedit, if_true]
    rw [applyEvents_append, applyEvents_append, applyEvents_append, applyEvents_append,
      applyEvents_baseUndo, applyEvents_simUndo]
    have hadd : h.applyEvents [c.ad.addItemCall] = h := rfl
    rw [hadd]
    have hview : ∀ h2 : ConnectorHeap, h2.applyEvents
        (match item.m_infoGraphicsView with
         | some view => [Event.changePinLabels view item.m_id]
         | none => []) = h2 := by
      intro h2
      cases item.m_infoGraphicsView <;> rfl
    rw [hview]
    unfold DeleteItemCommand.restoreLocalNames
    rw [restore_sets item (fun k => (lc.lookup k).getD "") (lc.map Prod.fst) hkeys h id p
      hmem hp hinj]
    simp only [hname]
  refine ⟨?_, hset, ?_, ?_, ?_, ?_⟩
  · unfold DeleteItemCommand.undo
    simp
  · intro cs hcs
    rw [hset]
    exact localName_setConnectorLocalName (h p) cs name hcs
  · unfold DeleteItemCommand.undo
    cases c.ad.m_localConnectors <;> exact applyEvents_undo_plain h env c
  · intro item2 hnone
    unfold DeleteItemCommand.undo
    cases c.ad.m_localConnectors with
    | none => exact applyEvents_undo_plain h env c
    | some lc2 =>
      simp only [hnone]
      exact applyEvents_undo_plain h env c
  · intro item2 props2 hsome hne
    unfold DeleteItemCommand.undo
    cases c.ad.m_localConnectors with
    | none => exact applyEvents_undo_plain h env c
    | some lc2 =>
      simp only [hsome, hne, if_false]
      exact applyEvents_undo_plain h env c

theorem deleteItem_undo_restores_names_witness :
    deleteRenamed.ad.m_localConnectors = some [("connector0", "VCC")] ∧
    readdedItem4.m_connectors.lookup "connector0" = some 55 ∧
    ((freshHeap (fun _ => some threePinShared)).applyEvents
        (deleteRenamed.undo (Env.mk false fuzzySizesDiffer) (some readdedItem4)) 55).connectorLocalName
      = "VCC" :=
  ⟨rfl, by decide,
   ((deleteItem_undo_restores_names (Env.mk false fuzzySizesDiffer) (freshHeap (fun _ => some threePinShared))
      deleteRenamed readdedItem4 [("connector0", "VCC")] [("editable pin labels", "true")]
      rfl (by decide) rfl (by decide) (by decide) "connector0" "VCC" 55 (by decide)
      (by decide)).2.2.1 threePinShared rfl).trans (by decide)⟩

/-- The command `deleteRenamed` carries the saved name `VCC` for `connector0`, and the
item handed back has a connector for `connector0`, but its model part lacks the
property `editable pin labels`: after `undo()` the local name of the connector is still
empty. -/
theorem deleteItem_undo_names_counterexample :
    deleteRenamed.ad.m_localConnectors = some [("connector0", "VCC")] ∧
    readdedItem4Fixed.m_connectors.lookup "connector0" = some 55 ∧
    ((freshHeap (fun _ => some threePinShared)).applyEvents
        (deleteRenamed.undo (Env.mk false fuzzySizesDiffer) (some readdedItem4Fixed)) 55).connectorLocalName
      = "" ∧
    sketchCalls (deleteRenamed.undo (Env.mk false fuzzySizesDiffer) (some readdedItem4Fixed))
      = [(0, SketchCall.addItemForCommand "chip" 1 CrossViewType.CrossView
          (ViewGeometry.mk (QPointF.mk 5 5) (QPointF.mk 0 0) (QPointF.mk 0 0)) 4 17)] := by
  refine ⟨rfl, by decide, by decide, by decide⟩

end RestoreNames

end Fritzing
